import Mathlib

/-!
# Lanner parallel LCM driver (`plcm_drv.c`): embedding and verified properties

The driver is a Linux character device that bit-bangs an HD44780-compatible
LCD controller through a legacy parallel port.  Its file-scope variables are
collected into the record `Driver`, and every driver function becomes a pure
function that takes the record and returns the updated record together with
the C return value.

Conventions of the embedding

* `unsigned char` and `unsigned int` values are natural numbers; where the C
  code converts a wider value to `unsigned char` the conversion is written
  `% 256`, and `row++` on the `unsigned int` counter and `uDelay + 1` on the
  `unsigned int` delay are written `% 2 ^ 32`.
  `x &= ~m` on an `unsigned char` is written `x &&& (0xFF - m)`.
* Port accesses (`outb`, `inb`, `udelay`) append to the port log
  `Driver.ports`.  The byte an `inb` returns is decided by the hardware, which
  is a parameter `hw : Hardware`: a function of the port history so far and of
  the port being read.
* Every call of `LCM_Command` additionally appends one record to
  `Driver.txns`; this log is instrumentation, used to state what bus
  transactions a driver entry point issues.
* `printk` has no effect on the driver and is left out.  `get_user` and
  `put_user` are assumed to succeed (the driver ignores their results).
-/

namespace Plcm

/-! ## Data model -/

/-- One access to the I/O port space, in program order. -/
inductive PortEvent where
  | outb (value port : Nat)
  | inb (port value : Nat)
  | udelay (usecs : Nat)
  deriving DecidableEq

/-- One LCD bus transaction: the arguments of one call of `LCM_Command`;
`Ret` is the byte stored through the result pointer, if the call stored one. -/
structure Txn where
  RS : Nat
  RWn : Nat
  CMD : Nat
  uDelay : Nat
  Ret : Option Nat
  deriving DecidableEq

/-- The hardware behind the port space: the value an `inb` of a port yields
after the given history of port accesses. -/
abbrev Hardware := List PortEvent → Nat → Nat

/-- User memory addressed relative to the `buffer` pointer of a read or write
call: offset to byte. -/
abbrev UserBuf := Nat → Nat

/-- The file-scope variables of `plcm_drv.c` (lines 47-48 and 73-84), followed
by the port log and the transaction log. -/
structure Driver where
  Device_Open : Int
  stop_thread : Int
  Port_Addr : Nat
  DataPort : Nat
  StatusPort : Nat
  ControlPort : Nat
  port_reserved : Int
  Backlight : Nat
  Cur_Line : Nat
  Cur_EntryMode : Nat
  Cur_Display : Nat
  Cur_Shift : Nat
  row : Nat
  ports : List PortEvent
  txns : List Txn
  deriving DecidableEq

/-- The static initialisers of the file-scope variables. -/
def Driver.initial : Driver where
  Device_Open := 0
  stop_thread := 0
  Port_Addr := 0
  DataPort := 0
  StatusPort := 0
  ControlPort := 0
  port_reserved := 0
  Backlight := 0
  Cur_Line := 1
  Cur_EntryMode := 0x04
  Cur_Display := 0x08
  Cur_Shift := 0x10
  row := 0
  ports := []
  txns := []

def LPT1 : Nat := 0x378
def LPT2 : Nat := 0x278
def LPT3 : Nat := 0x3BC

def ENABLE : Nat := 0x02

/-- Kernel errno values used by the driver. -/
def EINVAL : Int := 22
def EBUSY : Int := 16
def EOPNOTSUPP : Int := 95

/-- Modelled from the spec: the header `plcm_ioctl.h` that assigns the command
numbers is not among the sources.  The spec fixes one distinct small integer
per control operation, so the case labels of the `switch` in `plcm_ioctl` are
kept symbolic, one constructor per label; every other command number is
`unrecognised`. -/
inductive IoctlCmd where
  | PLCM_IOCTL_STOP_THREAD
  | PLCM_IOCTL_BACKLIGHT
  | PLCM_IOCTL_SET_LINE
  | PLCM_IOCTL_CLEARDISPLAY
  | PLCM_IOCTL_RETURNHOME
  | PLCM_IOCTL_ENTRYMODE_ID
  | PLCM_IOCTL_ENTRYMODE_SH
  | PLCM_IOCTL_DISPLAY_D
  | PLCM_IOCTL_DISPLAY_C
  | PLCM_IOCTL_DISPLAY_B
  | PLCM_IOCTL_SHIFT_SC
  | PLCM_IOCTL_SHIFT_RL
  | PLCM_IOCTL_GET_KEYPAD
  | PLCM_IOCTL_INPUT_CHAR
  | unrecognised (code : Nat)
  deriving DecidableEq

open IoctlCmd

/-! ## Port primitives -/

def outb (value port : Nat) (s : Driver) : Driver :=
  { s with ports := s.ports ++ [PortEvent.outb value port] }

def inb (hw : Hardware) (port : Nat) (s : Driver) : Nat × Driver :=
  (hw s.ports port % 256,
    { s with ports := s.ports ++ [PortEvent.inb port (hw s.ports port % 256)] })

def udelay (usecs : Nat) (s : Driver) : Driver :=
  { s with ports := s.ports ++ [PortEvent.udelay usecs] }

def get_user (buffer : UserBuf) (i : Nat) : Nat := buffer i % 256

def put_user (x : Nat) (i : Nat) (buffer : UserBuf) : UserBuf :=
  fun j => if j = i then x % 256 else buffer j

/-! ## Transfer engine -/

/-- The control byte `LCM_Command` builds before strobing (lines 178-188). -/
def LCM_Ctrl (Backlight RS RWn : Nat) : Nat :=
  ((0 ||| Backlight) ||| (if RS = 0 then 0x08 else 0)) ||| (if RWn = 1 then 0x24 else 0)

/-- `LCM_Command` (lines 176-203).  `Ret = none` is a NULL result pointer,
`Ret = some v` a pointer to a byte holding `v`; the first component of the
result is the pointee afterwards.  The last hold `uDelay + 1` is computed in
`unsigned int`, so it wraps to 0 at `uDelay = 4294967295`. -/
def LCM_Command (hw : Hardware) (RS RWn CMD uDelay : Nat) (Ret : Option Nat)
    (s : Driver) : Option Nat × Driver :=
  let Ctrl := LCM_Ctrl s.Backlight RS RWn
  let s1 := if RWn = 1 then s else outb CMD s.DataPort s
  let s2 := outb (Ctrl ||| ENABLE) s1.ControlPort s1
  let s3 := udelay uDelay s2
  let s4 := outb (Ctrl &&& 0xFD) s3.ControlPort s3
  let s5 := udelay 10 s4
  let rd := RWn = 1 ∧ Ret.isSome = true
  let r := if rd then ((inb hw s5.DataPort s5).1, (inb hw s5.DataPort s5).2) else (0, s5)
  let s6 := r.2
  let s7 := outb (Ctrl ||| 0x20 ||| ENABLE) s6.ControlPort s6
  let s8 := udelay ((uDelay + 1) % 2 ^ 32) s7
  (if rd then some r.1 else Ret,
    { s8 with txns := s8.txns ++ [Txn.mk RS RWn CMD uDelay (if rd then some r.1 else none)] })

/-- `LCM_Backlight` (lines 233-247). -/
def LCM_Backlight (hw : Hardware) (s : Driver) : Driver :=
  let r := inb hw s.ControlPort s
  let Ctrl := if s.Backlight = 1 then r.1 ||| 0x01 else r.1 &&& 0xFE
  outb Ctrl r.2.ControlPort r.2

/-- The eight glyph rows programmed into each CGRAM slot (lines 154-169). -/
def glyph : List Nat := [0x1F, 0x11, 0x15, 0x15, 0x15, 0x11, 0x1F, 0x00]

/-- One iteration of the CGRAM loop of `LCM_Init` (lines 152-170). -/
def LCM_Init_cgram (hw : Hardware) (s : Driver) (i : Nat) : Driver :=
  let s := (LCM_Command hw 0 0 ((0x40 + i * 8 + 0) % 256) 300 none s).2
  let s := (LCM_Command hw 1 0 0x1F 300 none s).2
  let s := (LCM_Command hw 0 0 ((0x40 + i * 8 + 1) % 256) 300 none s).2
  let s := (LCM_Command hw 1 0 0x11 300 none s).2
  let s := (LCM_Command hw 0 0 ((0x40 + i * 8 + 2) % 256) 300 none s).2
  let s := (LCM_Command hw 1 0 0x15 300 none s).2
  let s := (LCM_Command hw 0 0 ((0x40 + i * 8 + 3) % 256) 300 none s).2
  let s := (LCM_Command hw 1 0 0x15 300 none s).2
  let s := (LCM_Command hw 0 0 ((0x40 + i * 8 + 4) % 256) 300 none s).2
  let s := (LCM_Command hw 1 0 0x15 300 none s).2
  let s := (LCM_Command hw 0 0 ((0x40 + i * 8 + 5) % 256) 300 none s).2
  let s := (LCM_Command hw 1 0 0x11 300 none s).2
  let s := (LCM_Command hw 0 0 ((0x40 + i * 8 + 6) % 256) 300 none s).2
  let s := (LCM_Command hw 1 0 0x1F 300 none s).2
  let s := (LCM_Command hw 0 0 ((0x40 + i * 8 + 7) % 256) 300 none s).2
  (LCM_Command hw 1 0 0x00 300 none s).2

/-- The boot sequence of `LCM_Init`, run when a port was found
(lines 121-170). -/
def LCM_Init_boot (hw : Hardware) (s : Driver) : Driver :=
  let s := { s with DataPort := s.Port_Addr, StatusPort := s.Port_Addr + 1,
                    ControlPort := s.Port_Addr + 2 }
  let s := (LCM_Command hw 0 0 0x38 8000 none s).2
  let s := (LCM_Command hw 0 0 0x38 300 none s).2
  let s := (LCM_Command hw 0 0 0x38 300 none s).2
  let s := (LCM_Command hw 0 0 0x38 300 none s).2
  let s := (LCM_Command hw 0 0 0x0F 300 none s).2
  let s := { s with Cur_Display := 0x0F }
  let s := (LCM_Command hw 0 0 0x01 3000 none s).2
  let s := (LCM_Command hw 0 0 0x06 300 none s).2
  let s := (LCM_Command hw 0 0 0x80 300 none s).2
  let s := (List.range 20).foldl (fun s _ => (LCM_Command hw 1 0 0x20 300 none s).2) s
  let s := (LCM_Command hw 0 0 0xC0 300 none s).2
  let s := (List.range 20).foldl (fun s _ => (LCM_Command hw 1 0 0x20 300 none s).2) s
  (List.range 8).foldl (LCM_Init_cgram hw) s

/-- One probe of `LCM_Init`: clear bit 0x20 of the candidate's control
register, write 0x01 to its data register and read it back
(lines 91-94, 97-100, 103-106). -/
def LCM_Init_probe (hw : Hardware) (lpt : Nat) (s : Driver) : Nat × Driver :=
  let r := inb hw (lpt + 2) s
  let s := outb (r.1 &&& 0xdf) (lpt + 2) r.2
  let s := outb 0x01 lpt s
  inb hw lpt s

/-- The probing part of `LCM_Init` (lines 91-112): try LPT1, LPT2, LPT3 in
this order and record the first that echoes 0x01, or 0. -/
def LCM_Init_locate (hw : Hardware) (s : Driver) : Driver :=
  let p1 := LCM_Init_probe hw LPT1 s
  if p1.1 = 0x01 then { p1.2 with Port_Addr := LPT1 }
  else
    let p2 := LCM_Init_probe hw LPT2 p1.2
    if p2.1 = 0x01 then { p2.2 with Port_Addr := LPT2 }
    else
      let p3 := LCM_Init_probe hw LPT3 p2.2
      if p3.1 = 0x01 then { p3.2 with Port_Addr := LPT3 }
      else { p3.2 with Port_Addr := 0 }

/-- `LCM_Init` (lines 86-173). -/
def LCM_Init (hw : Hardware) (s : Driver) : Driver :=
  let s := LCM_Init_locate hw s
  if s.Port_Addr = 0 then s else LCM_Init_boot hw s

/-! ## Line I/O -/

/-- The DDRAM address command selected from `Cur_Line`
(lines 278, 284-288 and 327, 346-350). -/
def dd_addr (Cur_Line : Nat) : Nat :=
  if Cur_Line = 1 then 0x80 else if Cur_Line = 2 then 0xC0 else 0x80

/-- Body of the read loop (lines 311-312); the accumulator is the driver, the
user buffer and the local `Data`. -/
def plcm_read_body (hw : Hardware) (acc : Driver × UserBuf × Nat) (i : Nat) :
    Driver × UserBuf × Nat :=
  let r := LCM_Command hw 1 1 0x00 46 (some acc.2.2) acc.1
  let Data := r.1.getD acc.2.2
  (r.2, put_user Data i acc.2.1, Data)

/-- `plcm_read` in the default (non-careful) mode (lines 275-319).  The local
`Data` is uninitialised in C; every loop iteration overwrites it before use, so
its start value 0 is immaterial.  Result: return value, user buffer, driver. -/
def plcm_read (hw : Hardware) (buffer : UserBuf) (length : Nat) (s : Driver) :
    Int × UserBuf × Driver :=
  if length ≠ 40 then (0, buffer, s)
  else
    let s := (LCM_Command hw 0 0 (dd_addr s.Cur_Line) 300 none s).2
    let r := (List.range 40).foldl (plcm_read_body hw) (s, buffer, 0)
    ((length : Int), put_user 0 40 r.2.1, r.1)

/-- The local array `LCM_Message` after the fill loop (lines 339-345). -/
def LCM_Message (buffer : UserBuf) (length : Nat) : List Nat :=
  (List.range 40).map (fun i => if i < length then get_user buffer i else 0x20)

/-- `plcm_write` in the default fast mode (lines 324-384). -/
def plcm_write (hw : Hardware) (buffer : UserBuf) (length : Nat) (s : Driver) :
    Int × Driver :=
  if length > 40 then (0, s)
  else
    let msg := LCM_Message buffer length
    let s := (LCM_Command hw 0 0 (dd_addr s.Cur_Line) 300 none s).2
    let s := msg.foldl (fun s c => (LCM_Command hw 1 0 c 46 none s).2) s
    (40, s)

/-! ## Command dispatcher -/

/-- `plcm_ioctl` (lines 389-533): return value and updated driver. -/
def plcm_ioctl (hw : Hardware) (cmd : IoctlCmd) (arg : Nat) (s : Driver) : Int × Driver :=
  match cmd with
  | PLCM_IOCTL_STOP_THREAD => (0, { s with stop_thread := 1 })
  | PLCM_IOCTL_BACKLIGHT =>
    if arg ≠ 0 ∧ arg ≠ 1 then (-EINVAL, s)
    else
      let s := if arg = 0 then { s with Backlight := 1 }
               else if arg = 1 then { s with Backlight := 0 } else s
      (0, LCM_Backlight hw s)
  | PLCM_IOCTL_SET_LINE =>
    if arg ≠ 1 ∧ arg ≠ 2 then (-EINVAL, s)
    else if arg = 1 then
      let s := { s with Cur_Line := 1 }
      (0, (LCM_Command hw 0 0 ((0x80 + s.row) % 256) 300 none s).2)
    else if arg = 2 then
      let s := { s with Cur_Line := 2 }
      (0, (LCM_Command hw 0 0 ((0xC0 + s.row) % 256) 300 none s).2)
    else (0, s)
  | PLCM_IOCTL_CLEARDISPLAY =>
    let s := (LCM_Command hw 0 0 0x01 1640 none s).2
    (0, { s with row := 0 })
  | PLCM_IOCTL_RETURNHOME => (0, (LCM_Command hw 0 0 0x02 1640 none s).2)
  | PLCM_IOCTL_ENTRYMODE_ID =>
    if arg ≠ 0 ∧ arg ≠ 1 then (-EINVAL, s)
    else
      let s := if arg = 0 then { s with Cur_EntryMode := s.Cur_EntryMode &&& 0xFD }
               else if arg = 1 then { s with Cur_EntryMode := s.Cur_EntryMode ||| 0x02 } else s
      (0, (LCM_Command hw 0 0 s.Cur_EntryMode 300 none s).2)
  | PLCM_IOCTL_ENTRYMODE_SH =>
    if arg ≠ 0 ∧ arg ≠ 1 then (-EINVAL, s)
    else
      let s := if arg = 0 then { s with Cur_EntryMode := s.Cur_EntryMode &&& 0xFE }
               else if arg = 1 then { s with Cur_EntryMode := s.Cur_EntryMode ||| 0x01 } else s
      (0, (LCM_Command hw 0 0 s.Cur_EntryMode 300 none s).2)
  | PLCM_IOCTL_DISPLAY_D =>
    if arg ≠ 0 ∧ arg ≠ 1 then (-EINVAL, s)
    else
      let s := if arg = 0 then { s with Cur_Display := s.Cur_Display &&& 0xFB }
               else if arg = 1 then { s with Cur_Display := s.Cur_Display ||| 0x04 } else s
      (0, (LCM_Command hw 0 0 s.Cur_Display 300 none s).2)
  | PLCM_IOCTL_DISPLAY_C =>
    if arg ≠ 0 ∧ arg ≠ 1 then (-EINVAL, s)
    else
      let s := if arg = 0 then { s with Cur_Display := s.Cur_Display &&& 0xFD }
               else if arg = 1 then { s with Cur_Display := s.Cur_Display ||| 0x02 } else s
      (0, (LCM_Command hw 0 0 s.Cur_Display 300 none s).2)
  | PLCM_IOCTL_DISPLAY_B =>
    if arg ≠ 0 ∧ arg ≠ 1 then (-EINVAL, s)
    else
      let s := if arg = 0 then { s with Cur_Display := s.Cur_Display &&& 0xFE }
               else if arg = 1 then { s with Cur_Display := s.Cur_Display ||| 0x01 } else s
      (0, (LCM_Command hw 0 0 s.Cur_Display 300 none s).2)
  | PLCM_IOCTL_SHIFT_SC =>
    if arg ≠ 0 ∧ arg ≠ 1 then (-EINVAL, s)
    else
      let s := if arg = 0 then { s with Cur_Shift := s.Cur_Shift &&& 0xF7 }
               else if arg = 1 then { s with Cur_Shift := s.Cur_Shift ||| 0x08 } else s
      (0, (LCM_Command hw 0 0 s.Cur_Shift 300 none s).2)
  | PLCM_IOCTL_SHIFT_RL =>
    if arg ≠ 0 ∧ arg ≠ 1 then (-EINVAL, s)
    else if arg = 0 then
      let s := { s with Cur_Shift := s.Cur_Shift &&& 0xFB }
      if s.row > 0 ∧ s.row < 20 then
        let s := (LCM_Command hw 0 0 s.Cur_Shift 300 none s).2
        (0, { s with row := s.row - 1 })
      else (0, s)
    else if arg = 1 then
      let s := { s with Cur_Shift := s.Cur_Shift ||| 0x04 }
      if s.row ≥ 0 ∧ s.row < 19 then
        let s := (LCM_Command hw 0 0 s.Cur_Shift 300 none s).2
        (0, { s with row := (s.row + 1) % 2 ^ 32 })
      else (0, s)
    else (0, s)
  | PLCM_IOCTL_GET_KEYPAD => (((inb hw s.StatusPort s).1 : Int), (inb hw s.StatusPort s).2)
  | PLCM_IOCTL_INPUT_CHAR =>
    if arg > 0xFF then (-EINVAL, s)
    else
      let s := (LCM_Command hw 1 0 (arg % 256) 300 none s).2
      (0, { s with row := (s.row + 1) % 2 ^ 32 })
  | unrecognised _ => (-EOPNOTSUPP, s)

/-! ## Session gate -/

/-- `plcm_open` (lines 539-556). -/
def plcm_open (s : Driver) : Int × Driver :=
  if s.Device_Open ≠ 0 then (-EBUSY, s)
  else (0, { s with Device_Open := s.Device_Open + 1 })

/-- `plcm_release` (lines 561-570). -/
def plcm_release (s : Driver) : Int × Driver :=
  (0, { s with Device_Open := s.Device_Open - 1 })

/-- The device node as the kernel drives it: the driver together with the
number of file handles whose `plcm_open` succeeded and that are not yet
released. -/
structure Node where
  drv : Driver
  handles : Nat
  deriving DecidableEq

/-- A caller action on the device node. -/
inductive SessionOp where
  | openDev
  | closeDev
  deriving DecidableEq

/-- One open or close against the node.  An open creates a handle only when
`plcm_open` returns 0; a close calls `plcm_release` only for an existing
handle (the kernel releases what was opened). -/
def Node.step (n : Node) : SessionOp → Node
  | SessionOp.openDev =>
    if (plcm_open n.drv).1 = 0 then ⟨(plcm_open n.drv).2, n.handles + 1⟩
    else ⟨(plcm_open n.drv).2, n.handles⟩
  | SessionOp.closeDev =>
    if n.handles = 0 then n else ⟨(plcm_release n.drv).2, n.handles - 1⟩

/-! ## Caller operations after initialisation -/

/-- A caller request on an open session: a control command, a line write or a
line read. -/
inductive Op where
  | ioctl (cmd : IoctlCmd) (arg : Nat)
  | write (buffer : UserBuf) (length : Nat)
  | read (buffer : UserBuf) (length : Nat)

/-- The driver after serving one request. -/
def Op.run (hw : Hardware) (s : Driver) : Op → Driver
  | Op.ioctl cmd arg => (plcm_ioctl hw cmd arg s).2
  | Op.write buffer length => (plcm_write hw buffer length s).2
  | Op.read buffer length => (plcm_read hw buffer length s).2.2

/-- The driver after serving a sequence of requests in order. -/
def runOps (hw : Hardware) (s : Driver) (ops : List Op) : Driver :=
  ops.foldl (Op.run hw) s

/-! ## A mock LCD controller on the port bus -/

/-- State of the mock controller: the byte last put on the data lines, the
address counter, the byte the controller drives for a read, and display RAM. -/
structure MockLcd where
  data : Nat
  ac : Nat
  out : Nat
  ddram : Nat → Nat

/-- The mock controller reacting to one port access, for a port at `base`.
A write to the data port latches the byte.  A write to the control port with
the strobe bit 0x02 clear performs the transaction selected by the control
lines: with the read bit 0x20 clear, a command byte of 0x80 or more loads the
address counter and a data byte is stored at the counter; with the read bit
set, a data read returns the byte at the counter.  Data accesses advance the
counter. -/
def MockLcd.step (base : Nat) (m : MockLcd) : PortEvent → MockLcd
  | PortEvent.outb v p =>
    if p = base then { m with data := v }
    else if p = base + 2 then
      if v &&& 0x02 = 0 then
        if v &&& 0x20 = 0 then
          if v &&& 0x08 = 0 then
            { m with ddram := fun a => if a = m.ac then m.data else m.ddram a, ac := m.ac + 1 }
          else if m.data ≥ 0x80 then { m with ac := m.data % 0x80 }
          else m
        else
          if v &&& 0x08 = 0 then { m with out := m.ddram m.ac, ac := m.ac + 1 }
          else m
      else m
    else m
  | PortEvent.inb _ _ => m
  | PortEvent.udelay _ => m

/-- The mock bus: a read of the data port yields the byte the controller
drives after the history so far; every other port reads 0. -/
def mockBus (base : Nat) (m0 : MockLcd) : Hardware :=
  fun history port => if port = base then (history.foldl (MockLcd.step base) m0).out else 0

/-! ## Auxiliary definitions for the statements -/

/-- The byte that a read transaction `LCM_Command(RS, 1, _, d, &x)` started in
state `s` samples from the data port: the hardware's answer after the strobe
has been raised, held for `d`, dropped and held for 10. -/
def sampled (hw : Hardware) (RS d : Nat) (s : Driver) : Nat :=
  hw (s.ports ++
      [PortEvent.outb (LCM_Ctrl s.Backlight RS 1 ||| ENABLE) s.ControlPort,
       PortEvent.udelay d,
       PortEvent.outb (LCM_Ctrl s.Backlight RS 1 &&& 0xFD) s.ControlPort,
       PortEvent.udelay 10]) s.DataPort % 256

/-- The mock controller's state after the port history of driver state `s`. -/
def mockState (base : Nat) (m0 : MockLcd) (s : Driver) : MockLcd :=
  s.ports.foldl (MockLcd.step base) m0

/-! ## Module initialisation -/

def EIO : Int := 5

def PLCM_MAJOR : Nat := 239

/-- A kernel object pointer as `plcm_init` and `plcm_exit` see it: NULL, a
valid object, or `ERR_PTR(errno)`. -/
inductive KPtr where
  | null
  | obj
  | err (errno : Int)
  deriving DecidableEq

def IS_ERR : KPtr → Bool
  | KPtr.err _ => true
  | _ => false

/-- `PTR_ERR`; the driver applies it only to pointers for which `IS_ERR`
holds, the value 0 for the other pointers is never used. -/
def PTR_ERR : KPtr → Int
  | KPtr.err e => e
  | _ => 0

/-- Outcome of `class_create` or `device_create`: a valid object or
`ERR_PTR(errno)`. -/
inductive Created where
  | ok
  | failed (errno : Int)
  deriving DecidableEq

def Created.ptr : Created → KPtr
  | Created.ok => KPtr.obj
  | Created.failed e => KPtr.err e

/-- What the kernel answers to the services `plcm_init` calls:
the return value of `register_chrdev`, whether `request_region` grants the
region, and the outcomes of `class_create` and `device_create`. -/
structure Kernel where
  register_chrdev : Int
  request_region : Bool
  class_create : Created
  device_create : Created
  deriving DecidableEq

/-- A step of module initialisation in program order: a kernel service call
with its outcome, or the call of `LCM_Init` with the number of bus
transactions it issued. -/
inductive KCall where
  | register_chrdev (major : Nat) (ret : Int)
  | unregister_chrdev (major : Nat)
  | LCM_Init (issued : Nat)
  | request_region (start n : Nat) (granted : Bool)
  | release_region (start n : Nat)
  | class_create (result : KPtr)
  | class_destroy
  | device_create (result : KPtr)
  | device_destroy
  deriving DecidableEq

/-- The loaded module: the driver variables, the two object pointers
`plcm_class` and `plcm_device` (lines 53-54), the kernel resources the module
currently holds, and the log of initialisation steps. -/
structure Module where
  drv : Driver
  plcm_class : KPtr
  plcm_device : KPtr
  chrdev_registered : Bool
  region_reserved : Bool
  class_live : Bool
  device_live : Bool
  klog : List KCall
  deriving DecidableEq

/-- The module as loaded, before `plcm_init` runs. -/
def Module.fresh : Module where
  drv := Driver.initial
  plcm_class := KPtr.null
  plcm_device := KPtr.null
  chrdev_registered := false
  region_reserved := false
  class_live := false
  device_live := false
  klog := []

def register_chrdev (env : Kernel) (m : Module) : Int × Module :=
  (env.register_chrdev,
    { m with chrdev_registered := if env.register_chrdev = 0 then true else m.chrdev_registered,
             klog := m.klog ++ [KCall.register_chrdev PLCM_MAJOR env.register_chrdev] })

def unregister_chrdev (m : Module) : Module :=
  { m with chrdev_registered := false, klog := m.klog ++ [KCall.unregister_chrdev PLCM_MAJOR] }

def request_region (env : Kernel) (start n : Nat) (m : Module) : Bool × Module :=
  (env.request_region,
    { m with region_reserved := if env.request_region then true else m.region_reserved,
             klog := m.klog ++ [KCall.request_region start n env.request_region] })

def release_region (start n : Nat) (m : Module) : Module :=
  { m with region_reserved := false, klog := m.klog ++ [KCall.release_region start n] }

def class_create (env : Kernel) (m : Module) : KPtr × Module :=
  (env.class_create.ptr,
    { m with class_live := if env.class_create = Created.ok then true else m.class_live,
             klog := m.klog ++ [KCall.class_create env.class_create.ptr] })

def class_destroy (m : Module) : Module :=
  { m with class_live := false, klog := m.klog ++ [KCall.class_destroy] }

def device_create (env : Kernel) (m : Module) : KPtr × Module :=
  (env.device_create.ptr,
    { m with device_live := if env.device_create = Created.ok then true else m.device_live,
             klog := m.klog ++ [KCall.device_create env.device_create.ptr] })

/-- `plcm_init` (lines 625-695): return value and module afterwards. -/
def plcm_init (hw : Hardware) (env : Kernel) (m : Module) : Int × Module :=
  let r := register_chrdev env m
  if r.1 ≠ 0 then (- EIO, r.2)
  else
    let m := r.2
    let d := LCM_Init hw m.drv
    let m := { m with drv := d,
                      klog := m.klog ++ [KCall.LCM_Init (d.txns.length - m.drv.txns.length)] }
    if m.drv.DataPort = 0 then (- EIO, unregister_chrdev m)
    else
      let q := request_region env m.drv.Port_Addr 3 m
      if q.1 = false then (-EBUSY, unregister_chrdev q.2)
      else
        let m := q.2
        let m := { m with drv := { m.drv with port_reserved := 1 } }
        let c := class_create env m
        let m := { c.2 with plcm_class := c.1 }
        if IS_ERR m.plcm_class = true then
          let ret := PTR_ERR m.plcm_class
          let m := release_region m.drv.Port_Addr 3 m
          let m := { m with drv := { m.drv with port_reserved := 0 } }
          let m := unregister_chrdev m
          let m := { m with plcm_class := KPtr.null }
          (ret, m)
        else
          let v := device_create env m
          let m := { v.2 with plcm_device := v.1 }
          if IS_ERR m.plcm_device = true then
            let ret := PTR_ERR m.plcm_device
            let m := class_destroy m
            let m := { m with plcm_class := KPtr.null }
            let m := release_region m.drv.Port_Addr 3 m
            let m := { m with drv := { m.drv with port_reserved := 0 } }
            let m := unregister_chrdev m
            let m := { m with plcm_device := KPtr.null }
            (ret, m)
          else (0, m)

/-- No resource is held: the character device is not registered, the port
region is not reserved and not marked reserved, and neither a class nor a
device object exists or is pointed to. -/
def Module.clean (m : Module) : Prop :=
  m.chrdev_registered = false ∧ m.region_reserved = false ∧ m.drv.port_reserved = 0 ∧
  m.class_live = false ∧ m.device_live = false ∧
  m.plcm_class = KPtr.null ∧ m.plcm_device = KPtr.null

/-! ## Reference traces for the statements -/

/-- The boot trace as the specification lists it: function set 0x38 four
times, display on 0x0F, clear 0x01, entry mode 0x06, address 0x80 and twenty
spaces, address 0xC0 and twenty spaces, then for slot `i` and glyph row `j`
in ascending order the CGRAM address 0x40 + 8 i + j followed by row `j` of
the glyph.  The settle delays are those of the source. -/
def bootTrace : List Txn :=
  [Txn.mk 0 0 0x38 8000 none, Txn.mk 0 0 0x38 300 none, Txn.mk 0 0 0x38 300 none,
   Txn.mk 0 0 0x38 300 none, Txn.mk 0 0 0x0F 300 none, Txn.mk 0 0 0x01 3000 none,
   Txn.mk 0 0 0x06 300 none]
  ++ Txn.mk 0 0 0x80 300 none :: List.replicate 20 (Txn.mk 1 0 0x20 300 none)
  ++ Txn.mk 0 0 0xC0 300 none :: List.replicate 20 (Txn.mk 1 0 0x20 300 none)
  ++ (List.range 8).flatMap (fun i => (List.range 8).flatMap (fun j =>
        [Txn.mk 0 0 (0x40 + 8 * i + j) 300 none, Txn.mk 1 0 (glyph.getD j 0) 300 none]))

/-- The command writes of a trace whose byte is `c`. -/
def commandCount (c : Nat) (txns : List Txn) : Nat :=
  txns.countP (fun t => t.RS == 0 && t.RWn == 0 && t.CMD == c)

/-- The byte of the most recent command write whose byte lies in `lo..hi`,
if there is one.  Entry-mode-set commands of the HD44780 are 0x04..0x07,
display-control commands are 0x08..0x0F. -/
def lastCommandIn (lo hi : Nat) (txns : List Txn) : Option Nat :=
  ((txns.filter (fun t => t.RS == 0 && t.RWn == 0 && decide (lo ≤ t.CMD) &&
      decide (t.CMD ≤ hi))).getLast?).map Txn.CMD

/-- The port an access refers to, if it refers to one. -/
def PortEvent.port : PortEvent → Option Nat
  | PortEvent.outb _ p => some p
  | PortEvent.inb p _ => some p
  | PortEvent.udelay _ => none

/-- The four port accesses of probing the candidate `lpt` after the port
history `h`: read the control register, write it back with bit 0x20 cleared,
write 0x01 to the data register, read the data register. -/
def probeEvents (hw : Hardware) (h : List PortEvent) (lpt : Nat) : List PortEvent :=
  [PortEvent.inb (lpt + 2) (hw h (lpt + 2) % 256),
   PortEvent.outb ((hw h (lpt + 2) % 256) &&& 0xDF) (lpt + 2),
   PortEvent.outb 0x01 lpt,
   PortEvent.inb lpt (hw (h ++ [PortEvent.inb (lpt + 2) (hw h (lpt + 2) % 256),
     PortEvent.outb ((hw h (lpt + 2) % 256) &&& 0xDF) (lpt + 2),
     PortEvent.outb 0x01 lpt]) lpt % 256)]

/-- The byte read back from the data register when probing `lpt` after the
port history `h`. -/
def probeEcho (hw : Hardware) (h : List PortEvent) (lpt : Nat) : Nat :=
  hw (h ++ [PortEvent.inb (lpt + 2) (hw h (lpt + 2) % 256),
     PortEvent.outb ((hw h (lpt + 2) % 256) &&& 0xDF) (lpt + 2),
     PortEvent.outb 0x01 lpt]) lpt % 256

/-- The port history after probing the given candidates one after the other,
starting from history `h`. -/
def historyAfter (hw : Hardware) (h : List PortEvent) : List Nat → List PortEvent
  | [] => h
  | lpt :: rest => historyAfter hw (h ++ probeEvents hw h lpt) rest

/-- The driver variables without the two logs: what a frame statement
compares. -/
def Driver.statics (s : Driver) : Driver := { s with ports := [], txns := [] }

/-- Whether a caller request is a select-active-line command. -/
def Op.isSetLine : Op → Bool
  | Op.ioctl PLCM_IOCTL_SET_LINE _ => true
  | _ => false

/-- The byte `x` with the bit of mask `m` set to `a`: cleared when `a = 0`,
set otherwise; the other bits of the byte are those of `x`. -/
def withBit (m a x : Nat) : Nat := if a = 0 then x &&& (0xFF - m) else x ||| m

/-- Well-formed registers: entry mode in 0x04..0x07, display control in
0x08..0x0F, shift control one of 0x10, 0x14, 0x18, 0x1C, active line 1 or 2,
backlight flag 0 or 1. -/
def WellFormed (s : Driver) : Prop :=
  (0x04 ≤ s.Cur_EntryMode ∧ s.Cur_EntryMode ≤ 0x07) ∧
  (0x08 ≤ s.Cur_Display ∧ s.Cur_Display ≤ 0x0F) ∧
  s.Cur_Shift ∈ [0x10, 0x14, 0x18, 0x1C] ∧
  (s.Cur_Line = 1 ∨ s.Cur_Line = 2) ∧
  (s.Backlight = 0 ∨ s.Backlight = 1)

/-! ## Interface-name helpers of the user programs

A C string argument is the list of its characters before the terminating NUL;
a possibly-NULL pointer is an `Option`. -/

/-- `IFNAMSIZ` of the system header `net/if.h`. -/
def IFNAMSIZ : Nat := 16

/-- The character test inside the loop of `is_valid_interface`
(input_validation.h, lines 154-157). -/
def is_valid_interface_char (c : Char) : Bool :=
  (decide ('a' ≤ c) && decide (c ≤ 'z')) ||
  (decide ('A' ≤ c) && decide (c ≤ 'Z')) ||
  (decide ('0' ≤ c) && decide (c ≤ '9')) ||
  c == '_' || c == '-' || c == ':' || c == '.'

/-- `is_valid_interface` (input_validation.h, lines 137-168). -/
def is_valid_interface (ifname : Option (List Char)) : Int :=
  match ifname with
  | none => 0
  | some name =>
    if name.length = 0 ∨ name.length ≥ IFNAMSIZ then 0
    else if name.any (fun c => !is_valid_interface_char c) then 0
    else if name.take 3 = ['e', 'n', 'p'] then 1
    else if name.take 3 = ['e', 't', 'h'] then 1
    else 0

/-- The table `logical_interface_prefixes` (network_interface_utils.h,
lines 52-57), without its NULL end marker. -/
def logical_interface_prefixes : List (List Char) :=
  [['b', 'o', 'n', 'd'], ['b', 'r'], ['t', 'e', 'a', 'm']]

/-- The loop of `is_logical_interface` over the table entries still to try
(network_interface_utils.h, lines 82-104).  `strncmp(ifname, prefix, n) == 0`
with `n = strlen(prefix)` holds when the first `n` characters of `ifname` are
the prefix; `ifname[n]` is then the next character, or NUL at the end. -/
def is_logical_interface_loop (ifname : List Char) : List (List Char) → Int
  | [] => 0
  | pfx :: rest =>
    if ifname.take pfx.length = pfx then
      if pfx = ['b', 'r'] then
        if '0' ≤ ifname.getD pfx.length (Char.ofNat 0) ∧
            ifname.getD pfx.length (Char.ofNat 0) ≤ '9' then 1
        else 0
      else if ifname.getD pfx.length (Char.ofNat 0) = Char.ofNat 0 ∨
          ifname.getD pfx.length (Char.ofNat 0) = '-' ∨
          ifname.getD pfx.length (Char.ofNat 0) = '_' ∨
          ('0' ≤ ifname.getD pfx.length (Char.ofNat 0) ∧
            ifname.getD pfx.length (Char.ofNat 0) ≤ '9') then 1
      else is_logical_interface_loop ifname rest
    else is_logical_interface_loop ifname rest

/-- `is_logical_interface` (network_interface_utils.h, lines 81-105). -/
def is_logical_interface (ifname : List Char) : Int :=
  is_logical_interface_loop ifname logical_interface_prefixes

/-- The name continues after its first `n` characters with the end of the
string, a digit, a hyphen or an underscore. -/
def endsOrDelimiter (name : List Char) (n : Nat) : Prop :=
  name.length = n ∨
  ∃ c, name[n]? = some c ∧ (c = '-' ∨ c = '_' ∨ ('0' ≤ c ∧ c ≤ '9'))

/-- The character after the first `n` characters of the name is a digit. -/
def digitAt (name : List Char) (n : Nat) : Prop :=
  ∃ c, name[n]? = some c ∧ '0' ≤ c ∧ c ≤ '9'

/-! ## Theorems -/

/-- Port accesses and log record of a transaction that writes byte `CMD`
(result pointer NULL). -/
theorem LCM_Command_write (hw : Hardware) (RS CMD d : Nat) (s : Driver) :
    LCM_Command hw RS 0 CMD d none s =
      (none, { s with
        ports := s.ports ++
          [PortEvent.outb CMD s.DataPort,
           PortEvent.outb (LCM_Ctrl s.Backlight RS 0 ||| ENABLE) s.ControlPort,
           PortEvent.udelay d,
           PortEvent.outb (LCM_Ctrl s.Backlight RS 0 &&& 0xFD) s.ControlPort,
           PortEvent.udelay 10,
           PortEvent.outb (LCM_Ctrl s.Backlight RS 0 ||| 0x20 ||| ENABLE) s.ControlPort,
           PortEvent.udelay ((d + 1) % 2 ^ 32)],
        txns := s.txns ++ [Txn.mk RS 0 CMD d none] }) := by
  simp [LCM_Command, outb, udelay]

/-- Port accesses and result of a data read with a result slot. -/
theorem LCM_Command_read (hw : Hardware) (RS CMD d v0 : Nat) (s : Driver) :
    LCM_Command hw RS 1 CMD d (some v0) s =
      (some (hw (s.ports ++
          [PortEvent.outb (LCM_Ctrl s.Backlight RS 1 ||| ENABLE) s.ControlPort,
           PortEvent.udelay d,
           PortEvent.outb (LCM_Ctrl s.Backlight RS 1 &&& 0xFD) s.ControlPort,
           PortEvent.udelay 10]) s.DataPort % 256),
       { s with
        ports := s.ports ++
          [PortEvent.outb (LCM_Ctrl s.Backlight RS 1 ||| ENABLE) s.ControlPort,
           PortEvent.udelay d,
           PortEvent.outb (LCM_Ctrl s.Backlight RS 1 &&& 0xFD) s.ControlPort,
           PortEvent.udelay 10,
           PortEvent.inb s.DataPort (hw (s.ports ++
            [PortEvent.outb (LCM_Ctrl s.Backlight RS 1 ||| ENABLE) s.ControlPort,
             PortEvent.udelay d,
             PortEvent.outb (LCM_Ctrl s.Backlight RS 1 &&& 0xFD) s.ControlPort,
             PortEvent.udelay 10]) s.DataPort % 256),
           PortEvent.outb (LCM_Ctrl s.Backlight RS 1 ||| 0x20 ||| ENABLE) s.ControlPort,
           PortEvent.udelay ((d + 1) % 2 ^ 32)],
        txns := s.txns ++ [Txn.mk RS 1 CMD d (some (hw (s.ports ++
            [PortEvent.outb (LCM_Ctrl s.Backlight RS 1 ||| ENABLE) s.ControlPort,
             PortEvent.udelay d,
             PortEvent.outb (LCM_Ctrl s.Backlight RS 1 &&& 0xFD) s.ControlPort,
             PortEvent.udelay 10]) s.DataPort % 256))] }) := by
  simp [LCM_Command, outb, udelay, inb]

/-! ### C1: out-of-domain arguments are rejected without effect -/

/-- C1: for each of the eight commands with argument domain {0,1} (backlight,
entry-mode I/D, entry-mode shift, display D, cursor C, blink B, shift S/C,
shift R/L) every argument other than 0 and 1, and for select-line every
argument other than 1 and 2, makes `plcm_ioctl` return `-EINVAL` and hand back
the driver record unchanged: no field changes and neither the port log nor
the transaction log grows. -/
theorem C1_invalid_argument_no_effect (hw : Hardware) (s : Driver) (arg : Nat) :
    (arg ≠ 0 → arg ≠ 1 →
      ∀ cmd ∈ [PLCM_IOCTL_BACKLIGHT, PLCM_IOCTL_ENTRYMODE_ID, PLCM_IOCTL_ENTRYMODE_SH,
               PLCM_IOCTL_DISPLAY_D, PLCM_IOCTL_DISPLAY_C, PLCM_IOCTL_DISPLAY_B,
               PLCM_IOCTL_SHIFT_SC, PLCM_IOCTL_SHIFT_RL],
        plcm_ioctl hw cmd arg s = (-EINVAL, s)) ∧
    (arg ≠ 1 → arg ≠ 2 → plcm_ioctl hw PLCM_IOCTL_SET_LINE arg s = (-EINVAL, s)) := by
  refine ⟨?_, ?_⟩
  · intro h0 h1 cmd hcmd
    simp only [List.mem_cons, List.mem_singleton, List.not_mem_nil, or_false] at hcmd
    rcases hcmd with h | h | h | h | h | h | h | h <;> subst h <;> simp [plcm_ioctl, h0, h1]
  · intro h1 h2
    simp [plcm_ioctl, h1, h2]

/-- C1 witness: argument 2 to shift R/L and argument 3 to select-line on the
freshly loaded driver. -/
theorem C1_invalid_argument_no_effect_witness :
    plcm_ioctl (fun _ _ => 0) PLCM_IOCTL_SHIFT_RL 2 Driver.initial = (-EINVAL, Driver.initial) ∧
    plcm_ioctl (fun _ _ => 0) PLCM_IOCTL_SET_LINE 3 Driver.initial = (-EINVAL, Driver.initial) :=
  ⟨(C1_invalid_argument_no_effect (fun _ _ => 0) Driver.initial 2).1 (by decide) (by decide)
      PLCM_IOCTL_SHIFT_RL (by simp),
   (C1_invalid_argument_no_effect (fun _ _ => 0) Driver.initial 3).2 (by decide) (by decide)⟩

/-! ### C2: session exclusivity -/

/-- The open count equals the number of live handles, which is at most one,
along every sequence of opens and closes. -/
theorem Node.step_invariant (n : Node) (op : SessionOp)
    (h : n.drv.Device_Open = (n.handles : Int) ∧ n.handles ≤ 1) :
    (n.step op).drv.Device_Open = ((n.step op).handles : Int) ∧ (n.step op).handles ≤ 1 := by
  obtain ⟨h1, h2⟩ := h
  cases op with
  | openDev =>
    by_cases h0 : n.handles = 0
    · have hd : n.drv.Device_Open = 0 := by simp [h1, h0]
      simp [Node.step, plcm_open, hd, h0]
    · have hh : n.handles = 1 := by omega
      have hd : n.drv.Device_Open = 1 := by simp [h1, hh]
      simp [Node.step, plcm_open, hd, hh, EBUSY]
  | closeDev =>
    by_cases h0 : n.handles = 0
    · simp [Node.step, h0, h1]
    · have hh : n.handles = 1 := by omega
      simp [Node.step, plcm_release, hh, h1]

/-- The invariant of `Node.step_invariant` along a whole run. -/
theorem Node.run_invariant (ops : List SessionOp) (n : Node)
    (h : n.drv.Device_Open = (n.handles : Int) ∧ n.handles ≤ 1) :
    (ops.foldl Node.step n).drv.Device_Open = ((ops.foldl Node.step n).handles : Int) ∧
      (ops.foldl Node.step n).handles ≤ 1 := by
  induction ops generalizing n with
  | nil => simpa using h
  | cons op rest ih => exact ih (n.step op) (Node.step_invariant n op h)

/-- C2: `plcm_open` succeeds exactly when no session is open.  On a closed
device it returns 0 and the open count becomes 1; on a device with a non-zero
open count it returns `-EBUSY` and the driver record is unchanged; after
`plcm_release` of the one open session the next `plcm_open` returns 0; and in
every state reached from a closed device by opens and closes the open count
is 0 or 1. -/
theorem C2_session_exclusive (s : Driver) :
    (s.Device_Open = 0 → plcm_open s = (0, { s with Device_Open := 1 })) ∧
    (s.Device_Open ≠ 0 → plcm_open s = (-EBUSY, s)) ∧
    (s.Device_Open = 1 →
      (plcm_release s).2.Device_Open = 0 ∧ (plcm_open (plcm_release s).2).1 = 0) ∧
    (s.Device_Open = 0 → ∀ ops : List SessionOp,
      (ops.foldl Node.step ⟨s, 0⟩).drv.Device_Open = 0 ∨
      (ops.foldl Node.step ⟨s, 0⟩).drv.Device_Open = 1) := by
  refine ⟨?_, ?_, ?_, ?_⟩
  · intro h
    simp [plcm_open, h]
  · intro h
    simp [plcm_open, h]
  · intro h
    simp [plcm_open, plcm_release, h]
  · intro h ops
    have hinv := Node.run_invariant ops ⟨s, 0⟩ (by simp [h])
    obtain ⟨h1, h2⟩ := hinv
    rcases Nat.le_one_iff_eq_zero_or_eq_one.mp h2 with h0 | h0
    · left; simp [h1, h0]
    · right; simp [h1, h0]

/-- C2 witness: the freshly loaded driver is closed; an open, a second open,
a close and a third open behave as stated. -/
theorem C2_session_exclusive_witness :
    plcm_open Driver.initial = (0, { Driver.initial with Device_Open := 1 }) ∧
    plcm_open { Driver.initial with Device_Open := 1 } =
      (-EBUSY, { Driver.initial with Device_Open := 1 }) ∧
    ((plcm_release { Driver.initial with Device_Open := 1 }).2.Device_Open = 0 ∧
      (plcm_open (plcm_release { Driver.initial with Device_Open := 1 }).2).1 = 0) ∧
    (([SessionOp.openDev, SessionOp.openDev, SessionOp.closeDev, SessionOp.openDev].foldl Node.step
        ⟨Driver.initial, 0⟩).drv.Device_Open = 0 ∨
     ([SessionOp.openDev, SessionOp.openDev, SessionOp.closeDev, SessionOp.openDev].foldl Node.step
        ⟨Driver.initial, 0⟩).drv.Device_Open = 1) :=
  ⟨(C2_session_exclusive Driver.initial).1 rfl,
   (C2_session_exclusive { Driver.initial with Device_Open := 1 }).2.1 (by decide),
   (C2_session_exclusive { Driver.initial with Device_Open := 1 }).2.2.1 rfl,
   (C2_session_exclusive Driver.initial).2.2.2 rfl _⟩

/-! ### Frame lemmas: what a bus transaction leaves alone -/

/-- A bus transaction changes only the two logs. -/
theorem LCM_Command_frame (hw : Hardware) (RS RWn CMD d : Nat) (Ret : Option Nat) (s : Driver) :
    (LCM_Command hw RS RWn CMD d Ret s).2 =
      { s with ports := (LCM_Command hw RS RWn CMD d Ret s).2.ports,
               txns := (LCM_Command hw RS RWn CMD d Ret s).2.txns } := by
  unfold LCM_Command
  by_cases h1 : RWn = 1 <;> by_cases h2 : Ret.isSome = true <;>
    simp [outb, udelay, inb, h1, h2]

@[simp] theorem LCM_Command_row (hw : Hardware) (RS RWn CMD d : Nat) (Ret : Option Nat)
    (s : Driver) : (LCM_Command hw RS RWn CMD d Ret s).2.row = s.row := by
  rw [LCM_Command_frame]

/-- A loop whose body keeps `row` keeps `row`. -/
theorem foldl_row {α : Type} (f : Driver → α → Driver) (hf : ∀ s x, (f s x).row = s.row)
    (l : List α) (s : Driver) : (l.foldl f s).row = s.row := by
  induction l generalizing s with
  | nil => rfl
  | cons x rest ih => simp [List.foldl_cons, ih, hf]

/-- Probing does not touch the column counter. -/
theorem LCM_Init_locate_row (hw : Hardware) (s : Driver) :
    (LCM_Init_locate hw s).row = s.row := by
  unfold LCM_Init_locate
  simp only []
  split
  · simp [LCM_Init_probe, inb, outb]
  · split
    · simp [LCM_Init_probe, inb, outb]
    · split <;> simp [LCM_Init_probe, inb, outb]

/-- The boot sequence does not touch the column counter. -/
theorem LCM_Init_boot_row (hw : Hardware) (s : Driver) :
    (LCM_Init_boot hw s).row = s.row := by
  unfold LCM_Init_boot
  simp only []
  rw [foldl_row _ (by intro s x; simp [LCM_Init_cgram])]
  rw [foldl_row _ (by intro s x; simp)]
  rw [LCM_Command_row]
  rw [foldl_row _ (by intro s x; simp)]
  simp

/-- Initialisation does not touch the column counter. -/
theorem LCM_Init_row (hw : Hardware) (s : Driver) : (LCM_Init hw s).row = s.row := by
  unfold LCM_Init
  simp only []
  split
  · exact LCM_Init_locate_row hw s
  · rw [LCM_Init_boot_row, LCM_Init_locate_row]

/-! ### C3: the column counter and the input-character command -/

/-- The input-character command with a byte argument adds one to the column
counter, whatever the counter holds. -/
theorem plcm_ioctl_INPUT_CHAR_row (hw : Hardware) (arg : Nat) (s : Driver) (h : arg ≤ 0xFF) :
    (plcm_ioctl hw PLCM_IOCTL_INPUT_CHAR arg s).2.row = (s.row + 1) % 2 ^ 32 := by
  have h2 : ¬ 255 < arg := by omega
  simp [plcm_ioctl, h2]

/-- After `n` input-character commands the counter has advanced by `n`. -/
theorem runOps_INPUT_CHAR_row (hw : Hardware) (arg : Nat) (harg : arg ≤ 0xFF) (n : Nat)
    (s : Driver) (h : s.row + n < 2 ^ 32) :
    (runOps hw s (List.replicate n (Op.ioctl PLCM_IOCTL_INPUT_CHAR arg))).row = s.row + n := by
  induction n generalizing s with
  | zero => simp [runOps]
  | succ k ih =>
    have hstep : (Op.run hw s (Op.ioctl PLCM_IOCTL_INPUT_CHAR arg)).row = s.row + 1 := by
      simp only [Op.run]
      rw [plcm_ioctl_INPUT_CHAR_row hw arg s harg]
      exact Nat.mod_eq_of_lt (by omega)
    have := ih (Op.run hw s (Op.ioctl PLCM_IOCTL_INPUT_CHAR arg)) (by omega)
    simp only [runOps, List.replicate_succ, List.foldl_cons] at this ⊢
    rw [this, hstep]
    omega

/-- C3 (evaluation at the failing input): on any hardware, twenty
input-character commands issued to the freshly initialised driver leave the
column counter `row` at 20, outside [0,19]. -/
theorem C3_input_char_leaves_column_range (hw : Hardware) :
    (runOps hw (LCM_Init hw Driver.initial)
        (List.replicate 20 (Op.ioctl PLCM_IOCTL_INPUT_CHAR 0x41))).row = 20 ∧
    ¬ (runOps hw (LCM_Init hw Driver.initial)
        (List.replicate 20 (Op.ioctl PLCM_IOCTL_INPUT_CHAR 0x41))).row ≤ 19 := by
  have hinit : (LCM_Init hw Driver.initial).row = 0 := by
    rw [LCM_Init_row]; rfl
  have h := runOps_INPUT_CHAR_row hw 0x41 (by decide) 20 (LCM_Init hw Driver.initial)
    (by rw [hinit]; decide)
  rw [hinit] at h
  constructor
  · simpa using h
  · rw [h]; decide

/-! ### C4 and C5: the shift right/left command -/

/-- C4: for a column `c = row` in [0,19], shift with argument 0 (left) yields
`c - 1` when `c > 0` and leaves 0 at `c = 0`; with argument 1 (right) it
yields `c + 1` when `c < 19` and leaves 19 at `c = 19`.  Both return 0 and
both results stay in [0,19]: the column is clamped, not wrapped. -/
theorem C4_shift_clamps_column (hw : Hardware) (s : Driver) (hc : s.row ≤ 19) :
    (0 < s.row → (plcm_ioctl hw PLCM_IOCTL_SHIFT_RL 0 s).2.row = s.row - 1) ∧
    (s.row = 0 → (plcm_ioctl hw PLCM_IOCTL_SHIFT_RL 0 s).2.row = 0) ∧
    (s.row < 19 → (plcm_ioctl hw PLCM_IOCTL_SHIFT_RL 1 s).2.row = s.row + 1) ∧
    (s.row = 19 → (plcm_ioctl hw PLCM_IOCTL_SHIFT_RL 1 s).2.row = 19) ∧
    (plcm_ioctl hw PLCM_IOCTL_SHIFT_RL 0 s).2.row ≤ 19 ∧
    (plcm_ioctl hw PLCM_IOCTL_SHIFT_RL 1 s).2.row ≤ 19 ∧
    (plcm_ioctl hw PLCM_IOCTL_SHIFT_RL 0 s).1 = 0 ∧
    (plcm_ioctl hw PLCM_IOCTL_SHIFT_RL 1 s).1 = 0 := by
  have hl : (plcm_ioctl hw PLCM_IOCTL_SHIFT_RL 0 s).2.row = if 0 < s.row then s.row - 1 else s.row := by
    by_cases h : 0 < s.row
    · have h20 : s.row < 20 := by omega
      simp [plcm_ioctl, h, h20]
    · simp [plcm_ioctl, h]
  have hr : (plcm_ioctl hw PLCM_IOCTL_SHIFT_RL 1 s).2.row = if s.row < 19 then s.row + 1 else s.row := by
    by_cases h : s.row < 19
    · have hm : (s.row + 1) % 4294967296 = s.row + 1 := Nat.mod_eq_of_lt (by omega)
      simp [plcm_ioctl, h, hm]
    · simp [plcm_ioctl, h]
  have hl1 : (plcm_ioctl hw PLCM_IOCTL_SHIFT_RL 0 s).1 = 0 := by
    by_cases h : 0 < s.row ∧ s.row < 20 <;> simp [plcm_ioctl, h]
  have hr1 : (plcm_ioctl hw PLCM_IOCTL_SHIFT_RL 1 s).1 = 0 := by
    by_cases h : s.row < 19 <;> simp [plcm_ioctl, h]
  refine ⟨?_, ?_, ?_, ?_, ?_, ?_, hl1, hr1⟩
  · intro h; rw [hl, if_pos h]
  · intro h; rw [hl]; simp [h]
  · intro h; rw [hr, if_pos h]
  · intro h; rw [hr]; simp [h]
  · rw [hl]; split <;> omega
  · rw [hr]; split <;> omega

/-- C4 witness: at column 19 a right shift stays at 19 and a left shift goes
to 18. -/
theorem C4_shift_clamps_column_witness :
    ({ Driver.initial with row := 19 } : Driver).row ≤ 19 ∧
    (plcm_ioctl (fun _ _ => 0) PLCM_IOCTL_SHIFT_RL 1 { Driver.initial with row := 19 }).2.row = 19 ∧
    (plcm_ioctl (fun _ _ => 0) PLCM_IOCTL_SHIFT_RL 0 { Driver.initial with row := 19 }).2.row
      = 19 - 1 :=
  ⟨by decide,
   (C4_shift_clamps_column (fun _ _ => 0) { Driver.initial with row := 19 } (by decide)).2.2.2.1 rfl,
   (C4_shift_clamps_column (fun _ _ => 0) { Driver.initial with row := 19 } (by decide)).1
     (by decide)⟩

/-- C5 (counterexample): a left shift at column 0 and a right shift at column
19 issue no shift-control command: both logs stay empty. -/
theorem C5_no_command_at_the_bounds :
    (plcm_ioctl (fun _ _ => 0) PLCM_IOCTL_SHIFT_RL 0 Driver.initial).2.txns = [] ∧
    (plcm_ioctl (fun _ _ => 0) PLCM_IOCTL_SHIFT_RL 0 Driver.initial).2.ports = [] ∧
    (plcm_ioctl (fun _ _ => 0) PLCM_IOCTL_SHIFT_RL 1 { Driver.initial with row := 19 }).2.txns = [] ∧
    (plcm_ioctl (fun _ _ => 0) PLCM_IOCTL_SHIFT_RL 1 { Driver.initial with row := 19 }).2.ports = [] := by
  refine ⟨?_, ?_, ?_, ?_⟩ <;> simp [plcm_ioctl, Driver.initial]

/-- C5 (amended): the shift right/left command with argument `a` in {0,1}
sets bit 0x04 of the shift-control register to `a` and leaves the register's
other bits as they were.  It issues the shift-control command, one command
write carrying the updated register at settle delay 300, exactly when the
column moves: for a left shift when `0 < row < 20`, for a right shift when
`row < 19`.  Otherwise (left at column 0, right at column 19, either at a
column of 20 or more) it issues nothing and touches no port. -/
theorem C5_shift_direction_bit_and_command (hw : Hardware) (s : Driver) :
    ((plcm_ioctl hw PLCM_IOCTL_SHIFT_RL 0 s).2.Cur_Shift = s.Cur_Shift &&& 0xFB ∧
     (plcm_ioctl hw PLCM_IOCTL_SHIFT_RL 0 s).2.Cur_Shift &&& 0x04 = 0 ∧
     (0 < s.row ∧ s.row < 20 →
        (plcm_ioctl hw PLCM_IOCTL_SHIFT_RL 0 s).2.txns =
          s.txns ++ [Txn.mk 0 0 (s.Cur_Shift &&& 0xFB) 300 none]) ∧
     (¬ (0 < s.row ∧ s.row < 20) →
        (plcm_ioctl hw PLCM_IOCTL_SHIFT_RL 0 s).2.txns = s.txns ∧
        (plcm_ioctl hw PLCM_IOCTL_SHIFT_RL 0 s).2.ports = s.ports)) ∧
    ((plcm_ioctl hw PLCM_IOCTL_SHIFT_RL 1 s).2.Cur_Shift = s.Cur_Shift ||| 0x04 ∧
     (plcm_ioctl hw PLCM_IOCTL_SHIFT_RL 1 s).2.Cur_Shift &&& 0x04 = 0x04 ∧
     (s.row < 19 →
        (plcm_ioctl hw PLCM_IOCTL_SHIFT_RL 1 s).2.txns =
          s.txns ++ [Txn.mk 0 0 (s.Cur_Shift ||| 0x04) 300 none]) ∧
     (¬ s.row < 19 →
        (plcm_ioctl hw PLCM_IOCTL_SHIFT_RL 1 s).2.txns = s.txns ∧
        (plcm_ioctl hw PLCM_IOCTL_SHIFT_RL 1 s).2.ports = s.ports)) := by
  have hclr : (s.Cur_Shift &&& 0xFB) &&& 0x04 = 0 := by
    have : (0xFB : Nat) &&& 0x04 = 0 := by decide
    rw [Nat.land_assoc, this]
    exact Nat.and_zero _
  have hset : (s.Cur_Shift ||| 0x04) &&& 0x04 = 0x04 := by
    apply Nat.eq_of_testBit_eq
    intro i
    simp only [Nat.testBit_land, Nat.testBit_lor]
    cases Nat.testBit s.Cur_Shift i <;> simp
  have hL : (plcm_ioctl hw PLCM_IOCTL_SHIFT_RL 0 s).2.Cur_Shift = s.Cur_Shift &&& 0xFB := by
    by_cases h : 0 < s.row ∧ s.row < 20
    · simp [plcm_ioctl, h, LCM_Command_write]
    · simp [plcm_ioctl, h]
  have hR : (plcm_ioctl hw PLCM_IOCTL_SHIFT_RL 1 s).2.Cur_Shift = s.Cur_Shift ||| 0x04 := by
    by_cases h : s.row < 19
    · simp [plcm_ioctl, h, LCM_Command_write]
    · simp [plcm_ioctl, h]
  refine ⟨⟨hL, ?_, ?_, ?_⟩, ⟨hR, ?_, ?_, ?_⟩⟩
  · rw [hL]; exact hclr
  · intro h
    simp [plcm_ioctl, h, LCM_Command_write]
  · intro h
    simp [plcm_ioctl, h]
  · rw [hR]; exact hset
  · intro h
    simp [plcm_ioctl, h, LCM_Command_write]
  · intro h
    simp [plcm_ioctl, h]

/-- C5 witness: at column 5 a left shift issues the command with the
direction bit cleared; at column 19 a right shift issues nothing. -/
theorem C5_shift_direction_bit_and_command_witness :
    (plcm_ioctl (fun _ _ => 0) PLCM_IOCTL_SHIFT_RL 0 { Driver.initial with row := 5 }).2.txns =
      ({ Driver.initial with row := 5 } : Driver).txns ++
        [Txn.mk 0 0 (({ Driver.initial with row := 5 } : Driver).Cur_Shift &&& 0xFB) 300 none] ∧
    ((plcm_ioctl (fun _ _ => 0) PLCM_IOCTL_SHIFT_RL 1 { Driver.initial with row := 19 }).2.txns =
      ({ Driver.initial with row := 19 } : Driver).txns ∧
     (plcm_ioctl (fun _ _ => 0) PLCM_IOCTL_SHIFT_RL 1 { Driver.initial with row := 19 }).2.ports =
      ({ Driver.initial with row := 19 } : Driver).ports) :=
  ⟨(C5_shift_direction_bit_and_command (fun _ _ => 0) { Driver.initial with row := 5 }).1.2.2.1
      (by decide),
   (C5_shift_direction_bit_and_command (fun _ _ => 0) { Driver.initial with row := 19 }).2.2.2.2
      (by decide)⟩

/-! ### Line I/O: traces of `plcm_write` and `plcm_read` -/

@[simp] theorem LCM_Command_Cur_Line (hw : Hardware) (RS RWn CMD d : Nat) (Ret : Option Nat)
    (s : Driver) : (LCM_Command hw RS RWn CMD d Ret s).2.Cur_Line = s.Cur_Line := by
  rw [LCM_Command_frame]

/-- A data read with a result slot returns the sampled byte and logs it. -/
theorem LCM_Command_read_sampled (hw : Hardware) (RS CMD d v0 : Nat) (s : Driver) :
    (LCM_Command hw RS 1 CMD d (some v0) s).1 = some (sampled hw RS d s) ∧
    (LCM_Command hw RS 1 CMD d (some v0) s).2.txns =
      s.txns ++ [Txn.mk RS 1 CMD d (some (sampled hw RS d s))] := by
  rw [LCM_Command_read]
  simp [sampled]

/-- The write loop appends one data write per message byte, in order. -/
theorem write_loop_txns (hw : Hardware) (msg : List Nat) (s : Driver) :
    (msg.foldl (fun s c => (LCM_Command hw 1 0 c 46 none s).2) s).txns =
      s.txns ++ msg.map (fun c => Txn.mk 1 0 c 46 none) := by
  induction msg generalizing s with
  | nil => simp
  | cons c rest ih =>
    rw [List.foldl_cons, ih, LCM_Command_write]
    simp

/-- An accepted `plcm_write` returns 40 and issues the address command
followed by one data write per byte of `LCM_Message`. -/
theorem plcm_write_accepted (hw : Hardware) (buffer : UserBuf) (n : Nat) (s : Driver)
    (hn : n ≤ 40) :
    (plcm_write hw buffer n s).1 = 40 ∧
    (plcm_write hw buffer n s).2.txns =
      s.txns ++ Txn.mk 0 0 (dd_addr s.Cur_Line) 300 none ::
        (LCM_Message buffer n).map (fun c => Txn.mk 1 0 c 46 none) := by
  have h : ¬ n > 40 := by omega
  simp only [plcm_write, h, if_false]
  refine ⟨trivial, ?_⟩
  rw [write_loop_txns, LCM_Command_write]
  simp

/-- A `plcm_write` longer than 40 returns 0 and changes nothing. -/
theorem plcm_write_rejected (hw : Hardware) (buffer : UserBuf) (n : Nat) (s : Driver)
    (hn : 40 < n) : plcm_write hw buffer n s = (0, s) := by
  simp [plcm_write, hn]

/-- C6 (counterexample): a `plcm_write` of length 20 is not rejected: it
returns 40 and issues 41 bus transactions. -/
theorem C6_short_write_is_accepted :
    (plcm_write (fun _ _ => 0) (fun _ => 0x41) 20 Driver.initial).1 = 40 ∧
    (plcm_write (fun _ _ => 0) (fun _ => 0x41) 20 Driver.initial).2.txns.length = 41 := by
  have h := plcm_write_accepted (fun _ _ => 0) (fun _ => 0x41) 20 Driver.initial (by decide)
  refine ⟨h.1, ?_⟩
  rw [h.2]
  simp [LCM_Message, Driver.initial]

/-- C6 (amended): `plcm_write` with a length above 40 returns 0 and hands back
the driver unchanged, so it produces no hardware transaction; every length of
at most 40 is accepted: the call returns 40 and issues 41 transactions. -/
theorem C6_write_length_check (hw : Hardware) (buffer : UserBuf) (n : Nat) (s : Driver) :
    (40 < n → plcm_write hw buffer n s = (0, s)) ∧
    (n ≤ 40 → (plcm_write hw buffer n s).1 = 40 ∧
      (plcm_write hw buffer n s).2.txns.length = s.txns.length + 41) := by
  refine ⟨plcm_write_rejected hw buffer n s, ?_⟩
  intro hn
  have h := plcm_write_accepted hw buffer n s hn
  refine ⟨h.1, ?_⟩
  rw [h.2]
  simp [LCM_Message]

/-- C6 witness: length 41 is rejected without effect, length 39 is accepted. -/
theorem C6_write_length_check_witness :
    plcm_write (fun _ _ => 0) (fun _ => 0x41) 41 Driver.initial = (0, Driver.initial) ∧
    ((plcm_write (fun _ _ => 0) (fun _ => 0x41) 39 Driver.initial).1 = 40 ∧
      (plcm_write (fun _ _ => 0) (fun _ => 0x41) 39 Driver.initial).2.txns.length =
        Driver.initial.txns.length + 41) :=
  ⟨(C6_write_length_check (fun _ _ => 0) (fun _ => 0x41) 41 Driver.initial).1 (by decide),
   (C6_write_length_check (fun _ _ => 0) (fun _ => 0x41) 39 Driver.initial).2 (by decide)⟩

/-- C7: an accepted `plcm_write` of `n ≤ 40` caller bytes returns 40, and the
transactions it issues are exactly one command write of the active line's
base address (`base` = 0x80 for line 1, 0xC0 for line 2) at settle delay 300
followed by 40 data writes at settle delay 46, the `i`-th carrying caller
byte `i` for `i < n` and the space 0x20 for `n ≤ i < 40`.  A length above 40
returns 0 and leaves the driver, both logs included, unchanged. -/
theorem C7_write_line_trace (hw : Hardware) (buffer : UserBuf) (n base : Nat) (s : Driver)
    (hline : s.Cur_Line = 1 ∧ base = 0x80 ∨ s.Cur_Line = 2 ∧ base = 0xC0)
    (hbytes : ∀ i, i < n → buffer i < 256) :
    (n ≤ 40 →
      (plcm_write hw buffer n s).1 = 40 ∧
      (plcm_write hw buffer n s).2.txns =
        s.txns ++ Txn.mk 0 0 base 300 none ::
          (List.range 40).map (fun i => Txn.mk 1 0 (if i < n then buffer i else 0x20) 46 none)) ∧
    (40 < n → plcm_write hw buffer n s = (0, s)) := by
  refine ⟨?_, plcm_write_rejected hw buffer n s⟩
  intro hn
  have h := plcm_write_accepted hw buffer n s hn
  refine ⟨h.1, ?_⟩
  have hb : dd_addr s.Cur_Line = base := by
    rcases hline with ⟨h1, h2⟩ | ⟨h1, h2⟩ <;> simp [dd_addr, h1, h2]
  rw [h.2, hb]
  congr 2
  simp only [LCM_Message, List.map_map]
  apply List.map_congr_left
  intro i _
  by_cases hi : i < n
  · simp [hi, get_user, Nat.mod_eq_of_lt (hbytes i hi)]
  · simp [hi]

/-- C7 witness: a 20-byte write on line 2 (the shape of the test program's
clear-display) and a rejected 41-byte write. -/
theorem C7_write_line_trace_witness :
    ((plcm_write (fun _ _ => 0) (fun _ => 0x20) 20 { Driver.initial with Cur_Line := 2 }).1 = 40 ∧
     (plcm_write (fun _ _ => 0) (fun _ => 0x20) 20 { Driver.initial with Cur_Line := 2 }).2.txns =
        ({ Driver.initial with Cur_Line := 2 } : Driver).txns ++ Txn.mk 0 0 0xC0 300 none ::
          (List.range 40).map
            (fun i => Txn.mk 1 0 (if i < 20 then (fun _ => 0x20) i else 0x20) 46 none)) ∧
    plcm_write (fun _ _ => 0) (fun _ => 0x20) 41 { Driver.initial with Cur_Line := 2 } =
      (0, { Driver.initial with Cur_Line := 2 }) :=
  ⟨(C7_write_line_trace (fun _ _ => 0) (fun _ => 0x20) 20 0xC0 { Driver.initial with Cur_Line := 2 }
      (Or.inr ⟨rfl, rfl⟩) (fun _ _ => (by decide : (0x20 : Nat) < 256))).1 (by decide),
   (C7_write_line_trace (fun _ _ => 0) (fun _ => 0x20) 41 0xC0 { Driver.initial with Cur_Line := 2 }
      (Or.inr ⟨rfl, rfl⟩) (fun _ _ => (by decide : (0x20 : Nat) < 256))).2 (by decide)⟩

/-- One iteration of the read loop: a data read whose sampled byte is stored
at offset `i` and kept in `Data`. -/
theorem plcm_read_body_eq (hw : Hardware) (s : Driver) (buf : UserBuf) (d i : Nat) :
    plcm_read_body hw (s, buf, d) i =
      ((LCM_Command hw 1 1 0 46 (some d) s).2, put_user (sampled hw 1 46 s) i buf,
        sampled hw 1 46 s) := by
  simp [plcm_read_body, (LCM_Command_read_sampled hw 1 0 46 d s).1]

theorem sampled_mod (hw : Hardware) (RS d : Nat) (s : Driver) :
    sampled hw RS d s % 256 = sampled hw RS d s := by
  simp [sampled]

/-- The read loop over distinct offsets: every iteration is one data read
whose byte ends up at its offset of the final buffer; other offsets keep
their content. -/
theorem read_loop_spec (hw : Hardware) (l : List Nat) (hl : l.Nodup) (s : Driver)
    (buf : UserBuf) (d : Nat) :
    (l.foldl (plcm_read_body hw) (s, buf, d)).1.txns =
      s.txns ++ l.map (fun i =>
        Txn.mk 1 1 0 46 (some ((l.foldl (plcm_read_body hw) (s, buf, d)).2.1 i))) ∧
    (∀ j, j ∉ l → (l.foldl (plcm_read_body hw) (s, buf, d)).2.1 j = buf j) := by
  induction l generalizing s buf d with
  | nil => simp
  | cons i rest ih =>
    have hi : i ∉ rest := (List.nodup_cons.mp hl).1
    have hrest : rest.Nodup := (List.nodup_cons.mp hl).2
    rw [List.foldl_cons, plcm_read_body_eq]
    obtain ⟨ih1, ih2⟩ := ih hrest (LCM_Command hw 1 1 0 46 (some d) s).2
      (put_user (sampled hw 1 46 s) i buf) (sampled hw 1 46 s)
    constructor
    · rw [ih1, (LCM_Command_read_sampled hw 1 0 46 d s).2, List.map_cons, ih2 i hi]
      simp [put_user, sampled_mod]
    · intro j hj
      have hji : j ≠ i := fun h => hj (by simp [h])
      have hjr : j ∉ rest := fun h => hj (by simp [h])
      rw [ih2 j hjr]
      simp [put_user, hji]

/-- A `plcm_read` of any length other than 40 returns 0 and changes neither
the buffer nor the driver. -/
theorem plcm_read_rejected (hw : Hardware) (buffer : UserBuf) (n : Nat) (s : Driver)
    (hn : n ≠ 40) : plcm_read hw buffer n s = (0, buffer, s) := by
  simp [plcm_read, hn]

/-- C8: `plcm_read` with any length other than 40 returns 0, hands back the
driver unchanged (no port access, no bus transaction) and stores nothing into
the caller's buffer. -/
theorem C8_read_length_check (hw : Hardware) (buffer : UserBuf) (n : Nat) (s : Driver)
    (hn : n ≠ 40) :
    (plcm_read hw buffer n s).1 = 0 ∧
    (plcm_read hw buffer n s).2.1 = buffer ∧
    (plcm_read hw buffer n s).2.2 = s ∧
    (plcm_read hw buffer n s).2.2.txns = s.txns ∧
    (plcm_read hw buffer n s).2.2.ports = s.ports := by
  rw [plcm_read_rejected hw buffer n s hn]
  simp

/-- C8 witness: a read of length 41 on the freshly loaded driver. -/
theorem C8_read_length_check_witness :
    (plcm_read (fun _ _ => 0x41) (fun _ => 7) 41 Driver.initial).1 = 0 ∧
    (plcm_read (fun _ _ => 0x41) (fun _ => 7) 41 Driver.initial).2.1 = (fun _ => 7) ∧
    (plcm_read (fun _ _ => 0x41) (fun _ => 7) 41 Driver.initial).2.2 = Driver.initial ∧
    (plcm_read (fun _ _ => 0x41) (fun _ => 7) 41 Driver.initial).2.2.txns = Driver.initial.txns ∧
    (plcm_read (fun _ _ => 0x41) (fun _ => 7) 41 Driver.initial).2.2.ports = Driver.initial.ports :=
  C8_read_length_check (fun _ _ => 0x41) (fun _ => 7) 41 Driver.initial (by decide)

/-- C9: `plcm_read` with length 40 returns 40 and issues exactly one command
write of the active line's base address (`base` = 0x80 for line 1, 0xC0 for
line 2, at settle delay 300) followed by 40 data reads at settle delay 46.
The byte the `i`-th read returns is the byte found at offset `i` of the
caller's buffer afterwards, offset 40 holds the terminator 0, and offsets
beyond 40 are untouched. -/
theorem C9_read_line_trace (hw : Hardware) (buffer : UserBuf) (base : Nat) (s : Driver)
    (hline : s.Cur_Line = 1 ∧ base = 0x80 ∨ s.Cur_Line = 2 ∧ base = 0xC0) :
    (plcm_read hw buffer 40 s).1 = 40 ∧
    (plcm_read hw buffer 40 s).2.2.txns =
      s.txns ++ Txn.mk 0 0 base 300 none ::
        (List.range 40).map
          (fun i => Txn.mk 1 1 0 46 (some ((plcm_read hw buffer 40 s).2.1 i))) ∧
    (plcm_read hw buffer 40 s).2.1 40 = 0 ∧
    (∀ j, 40 < j → (plcm_read hw buffer 40 s).2.1 j = buffer j) := by
  have hb : dd_addr s.Cur_Line = base := by
    rcases hline with ⟨h1, h2⟩ | ⟨h1, h2⟩ <;> simp [dd_addr, h1, h2]
  obtain ⟨h1, h2⟩ := read_loop_spec hw (List.range 40) (List.nodup_range 40)
    (LCM_Command hw 0 0 (dd_addr s.Cur_Line) 300 none s).2 buffer 0
  simp only [plcm_read, ne_eq, not_true_eq_false, if_false]
  refine ⟨rfl, ?_, ?_, ?_⟩
  · rw [h1, LCM_Command_write, hb]
    simp only [List.append_assoc, List.singleton_append]
    refine congrArg (fun l => s.txns ++ Txn.mk 0 0 base 300 none :: l) ?_
    apply List.map_congr_left
    intro i hi
    have hi40 : i ≠ 40 := by
      have := List.mem_range.mp hi
      omega
    simp [put_user, hi40]
  · simp [put_user]
  · intro j hj
    have hj40 : j ≠ 40 := by omega
    have hjr : j ∉ List.range 40 := by
      simp only [List.mem_range]; omega
    simp only [put_user, hj40, if_false]
    exact h2 j hjr

/-- C9 witness: a 40-byte read of line 1 on hardware that always answers
0x41. -/
theorem C9_read_line_trace_witness :
    (plcm_read (fun _ _ => 0x41) (fun _ => 7) 40 Driver.initial).1 = 40 ∧
    (plcm_read (fun _ _ => 0x41) (fun _ => 7) 40 Driver.initial).2.2.txns =
      Driver.initial.txns ++ Txn.mk 0 0 0x80 300 none ::
        (List.range 40).map
          (fun i => Txn.mk 1 1 0 46
            (some ((plcm_read (fun _ _ => 0x41) (fun _ => 7) 40 Driver.initial).2.1 i))) ∧
    (plcm_read (fun _ _ => 0x41) (fun _ => 7) 40 Driver.initial).2.1 40 = 0 ∧
    (∀ j, 40 < j → (plcm_read (fun _ _ => 0x41) (fun _ => 7) 40 Driver.initial).2.1 j =
      (fun _ => 7) j) :=
  C9_read_line_trace (fun _ _ => 0x41) (fun _ => 7) 0x80 Driver.initial (Or.inl ⟨rfl, rfl⟩)

/-! ### C10: write/read round trip on the mock controller -/

@[simp] theorem LCM_Command_DataPort (hw : Hardware) (RS RWn CMD d : Nat) (Ret : Option Nat)
    (s : Driver) : (LCM_Command hw RS RWn CMD d Ret s).2.DataPort = s.DataPort := by
  rw [LCM_Command_frame]

@[simp] theorem LCM_Command_ControlPort (hw : Hardware) (RS RWn CMD d : Nat) (Ret : Option Nat)
    (s : Driver) : (LCM_Command hw RS RWn CMD d Ret s).2.ControlPort = s.ControlPort := by
  rw [LCM_Command_frame]

@[simp] theorem LCM_Command_Backlight (hw : Hardware) (RS RWn CMD d : Nat) (Ret : Option Nat)
    (s : Driver) : (LCM_Command hw RS RWn CMD d Ret s).2.Backlight = s.Backlight := by
  rw [LCM_Command_frame]

/-- Control-line bits of a command write (RS = 0, write), for either
backlight state: the strobe bit 0x02 is set in the first and last control
byte and clear in the middle one, whose read bit 0x20 is clear and whose
register-select bit 0x08 is set. -/
theorem LCM_Ctrl_command_write (b : Nat) (hb : b ≤ 1) :
    ¬ ((LCM_Ctrl b 0 0 ||| ENABLE) &&& 0x02 = 0) ∧
    ¬ ((LCM_Ctrl b 0 0 ||| 0x20 ||| ENABLE) &&& 0x02 = 0) ∧
    (LCM_Ctrl b 0 0 &&& 0xFD) &&& 0x02 = 0 ∧
    (LCM_Ctrl b 0 0 &&& 0xFD) &&& 0x20 = 0 ∧
    ¬ ((LCM_Ctrl b 0 0 &&& 0xFD) &&& 0x08 = 0) := by
  have h : b = 0 ∨ b = 1 := by omega
  rcases h with h | h <;> subst h <;> decide

/-- Control-line bits of a data write (RS = 1, write). -/
theorem LCM_Ctrl_data_write (b : Nat) (hb : b ≤ 1) :
    ¬ ((LCM_Ctrl b 1 0 ||| ENABLE) &&& 0x02 = 0) ∧
    ¬ ((LCM_Ctrl b 1 0 ||| 0x20 ||| ENABLE) &&& 0x02 = 0) ∧
    (LCM_Ctrl b 1 0 &&& 0xFD) &&& 0x02 = 0 ∧
    (LCM_Ctrl b 1 0 &&& 0xFD) &&& 0x20 = 0 ∧
    (LCM_Ctrl b 1 0 &&& 0xFD) &&& 0x08 = 0 := by
  have h : b = 0 ∨ b = 1 := by omega
  rcases h with h | h <;> subst h <;> decide

/-- Control-line bits of a data read (RS = 1, read). -/
theorem LCM_Ctrl_data_read (b : Nat) (hb : b ≤ 1) :
    ¬ ((LCM_Ctrl b 1 1 ||| ENABLE) &&& 0x02 = 0) ∧
    ¬ ((LCM_Ctrl b 1 1 ||| 0x20 ||| ENABLE) &&& 0x02 = 0) ∧
    (LCM_Ctrl b 1 1 &&& 0xFD) &&& 0x02 = 0 ∧
    ¬ ((LCM_Ctrl b 1 1 &&& 0xFD) &&& 0x20 = 0) ∧
    (LCM_Ctrl b 1 1 &&& 0xFD) &&& 0x08 = 0 := by
  have h : b = 0 ∨ b = 1 := by omega
  rcases h with h | h <;> subst h <;> decide

/-- The mock controller after a command write of a set-address byte: the
address counter holds the low seven bits, display RAM is unchanged. -/
theorem mock_set_address (base : Nat) (m0 : MockLcd) (hw : Hardware) (CMD d : Nat) (s : Driver)
    (hD : s.DataPort = base) (hC : s.ControlPort = base + 2) (hB : s.Backlight ≤ 1)
    (hcmd : 0x80 ≤ CMD) :
    (mockState base m0 (LCM_Command hw 0 0 CMD d none s).2).ac = CMD % 0x80 ∧
    (mockState base m0 (LCM_Command hw 0 0 CMD d none s).2).ddram =
      (mockState base m0 s).ddram := by
  rw [LCM_Command_write]
  obtain ⟨f1, f2, f3, f4, f5⟩ := LCM_Ctrl_command_write s.Backlight hB
  simp [mockState, List.foldl_append, MockLcd.step, hD, hC, f1, f2, f3, f4, f5, hcmd]

/-- The mock controller after a data write: the byte is stored at the address
counter, which then advances by one. -/
theorem mock_data_write (base : Nat) (m0 : MockLcd) (hw : Hardware) (c d : Nat) (s : Driver)
    (hD : s.DataPort = base) (hC : s.ControlPort = base + 2) (hB : s.Backlight ≤ 1) :
    (mockState base m0 (LCM_Command hw 1 0 c d none s).2).ac = (mockState base m0 s).ac + 1 ∧
    (mockState base m0 (LCM_Command hw 1 0 c d none s).2).ddram =
      fun a => if a = (mockState base m0 s).ac then c else (mockState base m0 s).ddram a := by
  rw [LCM_Command_write]
  obtain ⟨f1, f2, f3, f4, f5⟩ := LCM_Ctrl_data_write s.Backlight hB
  simp [mockState, List.foldl_append, MockLcd.step, hD, hC, f1, f2, f3, f4, f5]

/-- The mock controller under a data read: the driver samples the byte at the
address counter, the counter advances by one, display RAM is unchanged. -/
theorem mock_data_read (base : Nat) (m0 : MockLcd) (v0 d : Nat) (s : Driver)
    (hD : s.DataPort = base) (hC : s.ControlPort = base + 2) (hB : s.Backlight ≤ 1) :
    sampled (mockBus base m0) 1 d s =
      (mockState base m0 s).ddram (mockState base m0 s).ac % 256 ∧
    (mockState base m0 (LCM_Command (mockBus base m0) 1 1 0 d (some v0) s).2).ac =
      (mockState base m0 s).ac + 1 ∧
    (mockState base m0 (LCM_Command (mockBus base m0) 1 1 0 d (some v0) s).2).ddram =
      (mockState base m0 s).ddram := by
  rw [LCM_Command_read]
  obtain ⟨f1, f2, f3, f4, f5⟩ := LCM_Ctrl_data_read s.Backlight hB
  simp [sampled, mockBus, mockState, List.foldl_append, MockLcd.step, hD, hC, f1, f2, f3, f4, f5]

/-- The write loop on the mock controller: the message lands at consecutive
addresses from the address counter on, lower addresses are untouched. -/
theorem write_loop_mock (base : Nat) (m0 : MockLcd) (hw : Hardware) (msg : List Nat)
    (s : Driver) (hD : s.DataPort = base) (hC : s.ControlPort = base + 2)
    (hB : s.Backlight ≤ 1) :
    (mockState base m0 (msg.foldl (fun s c => (LCM_Command hw 1 0 c 46 none s).2) s)).ac =
      (mockState base m0 s).ac + msg.length ∧
    (∀ k v, msg[k]? = some v →
      (mockState base m0 (msg.foldl (fun s c => (LCM_Command hw 1 0 c 46 none s).2) s)).ddram
        ((mockState base m0 s).ac + k) = v) ∧
    (∀ a, a < (mockState base m0 s).ac →
      (mockState base m0 (msg.foldl (fun s c => (LCM_Command hw 1 0 c 46 none s).2) s)).ddram a =
        (mockState base m0 s).ddram a) ∧
    (msg.foldl (fun s c => (LCM_Command hw 1 0 c 46 none s).2) s).DataPort = base ∧
    (msg.foldl (fun s c => (LCM_Command hw 1 0 c 46 none s).2) s).ControlPort = base + 2 ∧
    (msg.foldl (fun s c => (LCM_Command hw 1 0 c 46 none s).2) s).Backlight ≤ 1 ∧
    (msg.foldl (fun s c => (LCM_Command hw 1 0 c 46 none s).2) s).Cur_Line = s.Cur_Line := by
  induction msg generalizing s with
  | nil => simp [hD, hC, hB]
  | cons c rest ih =>
    obtain ⟨w1, w2⟩ := mock_data_write base m0 hw c 46 s hD hC hB
    obtain ⟨i1, i2, i3, i4, i5, i6, i7⟩ := ih (LCM_Command hw 1 0 c 46 none s).2
      (by simp [hD]) (by simp [hC]) (by simpa using hB)
    rw [List.foldl_cons]
    refine ⟨?_, ?_, ?_, i4, i5, i6, ?_⟩
    · rw [i1, w1, List.length_cons]; omega
    · intro k v hk
      cases k with
      | zero =>
        simp only [List.getElem?_cons_zero, Option.some.injEq] at hk
        rw [Nat.add_zero, i3 _ (by rw [w1]; omega), w2]
        simp [hk]
      | succ j =>
        simp only [List.getElem?_cons_succ] at hk
        have := i2 j v hk
        rw [w1] at this
        rw [← this]
        congr 1
        omega
    · intro a ha
      rw [i3 a (by rw [w1]; omega), w2]
      have hne : a ≠ (mockState base m0 s).ac := by omega
      simp [hne]
    · rw [i7]; simp

/-- The read loop on the mock controller, over the offsets `k, k+1, ...,
k+n-1` with the address counter at `a + k`: offset `j` of the buffer receives
the display RAM byte at `a + j`; other offsets keep their content. -/
theorem read_loop_mock (base : Nat) (m0 : MockLcd) (a n : Nat) (k : Nat) (s : Driver)
    (buf : UserBuf) (d : Nat)
    (hD : s.DataPort = base) (hC : s.ControlPort = base + 2) (hB : s.Backlight ≤ 1)
    (hac : (mockState base m0 s).ac = a + k) :
    (∀ j, k ≤ j → j < k + n →
      ((List.range' k n).foldl (plcm_read_body (mockBus base m0)) (s, buf, d)).2.1 j =
        (mockState base m0 s).ddram (a + j) % 256) ∧
    (∀ j, (j < k ∨ k + n ≤ j) →
      ((List.range' k n).foldl (plcm_read_body (mockBus base m0)) (s, buf, d)).2.1 j = buf j) := by
  induction n generalizing k s buf d with
  | zero =>
    constructor
    · intro j h1 h2; omega
    · intro j _; simp
  | succ n ih =>
    obtain ⟨r1, r2, r3⟩ := mock_data_read base m0 d 46 s hD hC hB
    obtain ⟨ih1, ih2⟩ := ih (k + 1) (LCM_Command (mockBus base m0) 1 1 0 46 (some d) s).2
      (put_user (sampled (mockBus base m0) 1 46 s) k buf) (sampled (mockBus base m0) 1 46 s)
      (by simp [hD]) (by simp [hC]) (by simpa using hB) (by rw [r2, hac]; omega)
    simp only [List.range'_succ, List.foldl_cons, plcm_read_body_eq]
    constructor
    · intro j h1 h2
      by_cases hj : j = k
      · subst hj
        rw [ih2 j (Or.inl (by omega))]
        simp [put_user, sampled_mod, r1, hac]
      · rw [ih1 j (by omega) (by omega), r3]
    · intro j hj
      rw [ih2 j (by omega)]
      have hne : j ≠ k := by omega
      simp [put_user, hne]

theorem dd_addr_cases (L : Nat) :
    0x80 ≤ dd_addr L ∧ (dd_addr L % 0x80 = 0 ∨ dd_addr L % 0x80 = 0x40) := by
  unfold dd_addr
  split
  · decide
  · split <;> decide

/-- C10: on the mock controller (a set-address command loads the address
counter, a data write stores at the counter, a data read returns the byte at
the counter, data accesses advance the counter), for every 40-byte buffer
`data` and every active line, `plcm_write` of the 40 bytes followed by
`plcm_read` of length 40 both return 40, and the read leaves the same 40
bytes at offsets 0..39 of the caller's buffer followed by the terminator 0 at
offset 40.  The driver is bound to the port the mock answers on and its
backlight flag is 0 or 1. -/
theorem C10_write_read_round_trip (base : Nat) (m0 : MockLcd) (s : Driver)
    (data out : UserBuf)
    (hD : s.DataPort = base) (hC : s.ControlPort = base + 2) (hB : s.Backlight ≤ 1)
    (hbytes : ∀ i, i < 40 → data i < 256) :
    (plcm_write (mockBus base m0) data 40 s).1 = 40 ∧
    (plcm_read (mockBus base m0) out 40 (plcm_write (mockBus base m0) data 40 s).2).1 = 40 ∧
    (∀ i, i < 40 →
      (plcm_read (mockBus base m0) out 40 (plcm_write (mockBus base m0) data 40 s).2).2.1 i =
        data i) ∧
    (plcm_read (mockBus base m0) out 40 (plcm_write (mockBus base m0) data 40 s).2).2.1 40 = 0 := by
  obtain ⟨hge, _⟩ := dd_addr_cases s.Cur_Line
  -- the write
  obtain ⟨a1, a2⟩ := mock_set_address base m0 (mockBus base m0) (dd_addr s.Cur_Line) 300 s
    hD hC hB hge
  obtain ⟨w1, w2, _, w4, w5, w6, w7⟩ := write_loop_mock base m0 (mockBus base m0)
    (LCM_Message data 40) (LCM_Command (mockBus base m0) 0 0 (dd_addr s.Cur_Line) 300 none s).2
    (by simp [hD]) (by simp [hC]) (by simpa using hB)
  have hw : plcm_write (mockBus base m0) data 40 s =
      (40, (LCM_Message data 40).foldl
        (fun s c => (LCM_Command (mockBus base m0) 1 0 c 46 none s).2)
        (LCM_Command (mockBus base m0) 0 0 (dd_addr s.Cur_Line) 300 none s).2) := by
    simp [plcm_write]
  rw [hw]
  simp only [LCM_Command_Cur_Line] at w7
  generalize hsw : (LCM_Message data 40).foldl
        (fun s c => (LCM_Command (mockBus base m0) 1 0 c 46 none s).2)
        (LCM_Command (mockBus base m0) 0 0 (dd_addr s.Cur_Line) 300 none s).2 = sw at *
  -- the read
  obtain ⟨b1, b2⟩ := mock_set_address base m0 (mockBus base m0) (dd_addr sw.Cur_Line) 300 sw
    w4 w5 w6 (dd_addr_cases sw.Cur_Line).1
  obtain ⟨r1, _⟩ := read_loop_mock base m0 (dd_addr sw.Cur_Line % 0x80) 40 0
    (LCM_Command (mockBus base m0) 0 0 (dd_addr sw.Cur_Line) 300 none sw).2 out 0
    (by simp [w4]) (by simp [w5]) (by simpa using w6) (by rw [b1]; rfl)
  simp only [plcm_read, ne_eq, not_true_eq_false, if_false, ← List.range_eq_range']
  rw [← List.range_eq_range'] at r1
  refine ⟨trivial, rfl, ?_, ?_⟩
  · intro i hi
    have hi40 : i ≠ 40 := by omega
    simp only [put_user, hi40, if_false]
    rw [r1 i (by omega) (by omega), b2, w7]
    have hmsg : (LCM_Message data 40)[i]? = some (data i) := by
      simp [LCM_Message, hi, get_user, Nat.mod_eq_of_lt (hbytes i hi)]
    have := w2 i (data i) hmsg
    rw [a1] at this
    rw [this]
    exact Nat.mod_eq_of_lt (hbytes i hi)
  · simp [put_user]

/-- C10 witness: the driver bound to LPT1 with the mock controller there,
line 2 active, writing forty bytes 0x41. -/
theorem C10_write_read_round_trip_witness :
    (plcm_write (mockBus 0x378 ⟨0, 0, 0, fun _ => 0⟩) (fun _ => 0x41) 40
        { Driver.initial with DataPort := 0x378, ControlPort := 0x37A, Cur_Line := 2 }).1 = 40 ∧
    (plcm_read (mockBus 0x378 ⟨0, 0, 0, fun _ => 0⟩) (fun _ => 7) 40
        (plcm_write (mockBus 0x378 ⟨0, 0, 0, fun _ => 0⟩) (fun _ => 0x41) 40
          { Driver.initial with DataPort := 0x378, ControlPort := 0x37A, Cur_Line := 2 }).2).1
      = 40 ∧
    (∀ i, i < 40 →
      (plcm_read (mockBus 0x378 ⟨0, 0, 0, fun _ => 0⟩) (fun _ => 7) 40
        (plcm_write (mockBus 0x378 ⟨0, 0, 0, fun _ => 0⟩) (fun _ => 0x41) 40
          { Driver.initial with DataPort := 0x378, ControlPort := 0x37A, Cur_Line := 2 }).2).2.1 i
      = (fun _ => 0x41) i) ∧
    (plcm_read (mockBus 0x378 ⟨0, 0, 0, fun _ => 0⟩) (fun _ => 7) 40
        (plcm_write (mockBus 0x378 ⟨0, 0, 0, fun _ => 0⟩) (fun _ => 0x41) 40
          { Driver.initial with DataPort := 0x378, ControlPort := 0x37A, Cur_Line := 2 }).2).2.1 40
      = 0 :=
  C10_write_read_round_trip 0x378 ⟨0, 0, 0, fun _ => 0⟩
    { Driver.initial with DataPort := 0x378, ControlPort := 0x37A, Cur_Line := 2 }
    (fun _ => 0x41) (fun _ => 7) rfl rfl (by decide) (fun _ _ => (by decide : (0x41 : Nat) < 256))

/-! ### Loops: fields kept and transactions appended -/

/-- A loop whose body keeps an observation of the driver keeps it. -/
theorem foldl_keeps {α β : Type} (p : Driver → β) (f : Driver → α → Driver)
    (hf : ∀ s x, p (f s x) = p s) (l : List α) (s : Driver) : p (l.foldl f s) = p s := by
  induction l generalizing s with
  | nil => rfl
  | cons x rest ih => rw [List.foldl_cons, ih, hf]

/-- A loop whose body appends the transactions `g x` appends them in order. -/
theorem foldl_txns {α : Type} (f : Driver → α → Driver) (g : α → List Txn)
    (hf : ∀ s x, (f s x).txns = s.txns ++ g x) (l : List α) (s : Driver) :
    (l.foldl f s).txns = s.txns ++ l.flatMap g := by
  induction l generalizing s with
  | nil => simp
  | cons x rest ih => rw [List.foldl_cons, ih, hf, List.flatMap_cons, List.append_assoc]

/-- Every transaction appends exactly its own record to the transaction log. -/
theorem LCM_Command_txns_write (hw : Hardware) (RS CMD d : Nat) (s : Driver) :
    (LCM_Command hw RS 0 CMD d none s).2.txns = s.txns ++ [Txn.mk RS 0 CMD d none] := by
  rw [LCM_Command_write]

/-- The sixteen transactions of one CGRAM slot. -/
theorem LCM_Init_cgram_txns (hw : Hardware) (s : Driver) (i : Nat) :
    (LCM_Init_cgram hw s i).txns = s.txns ++
      [Txn.mk 0 0 ((0x40 + i * 8 + 0) % 256) 300 none, Txn.mk 1 0 0x1F 300 none,
       Txn.mk 0 0 ((0x40 + i * 8 + 1) % 256) 300 none, Txn.mk 1 0 0x11 300 none,
       Txn.mk 0 0 ((0x40 + i * 8 + 2) % 256) 300 none, Txn.mk 1 0 0x15 300 none,
       Txn.mk 0 0 ((0x40 + i * 8 + 3) % 256) 300 none, Txn.mk 1 0 0x15 300 none,
       Txn.mk 0 0 ((0x40 + i * 8 + 4) % 256) 300 none, Txn.mk 1 0 0x15 300 none,
       Txn.mk 0 0 ((0x40 + i * 8 + 5) % 256) 300 none, Txn.mk 1 0 0x11 300 none,
       Txn.mk 0 0 ((0x40 + i * 8 + 6) % 256) 300 none, Txn.mk 1 0 0x1F 300 none,
       Txn.mk 0 0 ((0x40 + i * 8 + 7) % 256) 300 none, Txn.mk 1 0 0x00 300 none] := by
  simp only [LCM_Init_cgram, LCM_Command_txns_write, List.append_assoc, List.singleton_append,
    List.cons_append, List.nil_append]

/-- The boot sequence appends exactly the reference boot trace. -/
theorem LCM_Init_boot_txns (hw : Hardware) (s : Driver) :
    (LCM_Init_boot hw s).txns = s.txns ++ bootTrace := by
  unfold LCM_Init_boot
  simp only []
  rw [foldl_txns _ _ (LCM_Init_cgram_txns hw)]
  rw [foldl_txns _ (fun _ => [Txn.mk 1 0 0x20 300 none])
    (fun s _ => LCM_Command_txns_write hw 1 0x20 300 s)]
  rw [LCM_Command_txns_write]
  rw [foldl_txns _ (fun _ => [Txn.mk 1 0 0x20 300 none])
    (fun s _ => LCM_Command_txns_write hw 1 0x20 300 s)]
  simp only [LCM_Command_txns_write, List.append_assoc]
  refine congrArg (fun l => s.txns ++ l) ?_
  rfl

/-- Probing issues no bus transaction. -/
theorem LCM_Init_locate_txns (hw : Hardware) (s : Driver) :
    (LCM_Init_locate hw s).txns = s.txns := by
  unfold LCM_Init_locate
  simp only []
  split
  · simp [LCM_Init_probe, inb, outb]
  · split
    · simp [LCM_Init_probe, inb, outb]
    · split <;> simp [LCM_Init_probe, inb, outb]

/-- The transactions of `LCM_Init`: the boot trace when a port was found,
none otherwise. -/
theorem LCM_Init_txns (hw : Hardware) (s : Driver) :
    (LCM_Init hw s).txns =
      if (LCM_Init_locate hw s).Port_Addr = 0 then s.txns else s.txns ++ bootTrace := by
  unfold LCM_Init
  simp only []
  split
  · exact LCM_Init_locate_txns hw s
  · rw [LCM_Init_boot_txns, LCM_Init_locate_txns]

/-! ### C11: the boot sequence -/

/-- C11: whenever probing finds a port, the bus transactions `LCM_Init`
issues are exactly the reference boot trace, in order and with nothing else:
0x38 four times, 0x0F, 0x01, 0x06, 0x80 and twenty spaces, 0xC0 and twenty
spaces, then for each slot 0..7 and row 0..7 the CGRAM address command
followed by the glyph row.  In that trace (177 transactions) the function-set
command occurs 4 times and clear-display once, and the data bytes written
into each of the 8 slots are the glyph 0x1F,0x11,0x15,0x15,0x15,0x11,0x1F,0x00. -/
theorem C11_boot_sequence_trace (hw : Hardware) (s : Driver)
    (hfound : (LCM_Init_locate hw s).Port_Addr ≠ 0) :
    (LCM_Init hw s).txns = s.txns ++ bootTrace ∧
    bootTrace.length = 177 ∧
    bootTrace.take 7 =
      [Txn.mk 0 0 0x38 8000 none, Txn.mk 0 0 0x38 300 none, Txn.mk 0 0 0x38 300 none,
       Txn.mk 0 0 0x38 300 none, Txn.mk 0 0 0x0F 300 none, Txn.mk 0 0 0x01 3000 none,
       Txn.mk 0 0 0x06 300 none] ∧
    commandCount 0x38 bootTrace = 4 ∧
    commandCount 0x01 bootTrace = 1 ∧
    (∀ i ∈ List.range 8,
      (((bootTrace.drop (49 + 16 * i)).take 16).filter (fun t => t.RS == 1)).map Txn.CMD =
        [0x1F, 0x11, 0x15, 0x15, 0x15, 0x11, 0x1F, 0x00] ∧
      (((bootTrace.drop (49 + 16 * i)).take 16).filter (fun t => t.RS == 0)).map Txn.CMD =
        (List.range 8).map (fun j => 0x40 + 8 * i + j)) := by
  refine ⟨?_, by rfl, by rfl, by decide, by decide, ?_⟩
  · rw [LCM_Init_txns, if_neg hfound]
  · decide

/-- C11 witness: hardware that answers 1 on every port, so that LPT1 is
found. -/
theorem C11_boot_sequence_trace_witness :
    (LCM_Init_locate (fun _ _ => 1) Driver.initial).Port_Addr ≠ 0 ∧
    (LCM_Init (fun _ _ => 1) Driver.initial).txns = Driver.initial.txns ++ bootTrace :=
  ⟨by decide,
   (C11_boot_sequence_trace (fun _ _ => 1) Driver.initial (by decide)).1⟩

/-! ### C12: tracked registers against the commands sent -/

/-- The entry-mode register survives a bus transaction. -/
@[simp] theorem LCM_Command_Cur_EntryMode (hw : Hardware) (RS RWn CMD d : Nat)
    (Ret : Option Nat) (s : Driver) :
    (LCM_Command hw RS RWn CMD d Ret s).2.Cur_EntryMode = s.Cur_EntryMode := by
  rw [LCM_Command_frame]

/-- Initialisation never assigns the tracked entry-mode register. -/
theorem LCM_Init_Cur_EntryMode (hw : Hardware) (s : Driver) :
    (LCM_Init hw s).Cur_EntryMode = s.Cur_EntryMode := by
  have hloc : (LCM_Init_locate hw s).Cur_EntryMode = s.Cur_EntryMode := by
    unfold LCM_Init_locate
    simp only []
    split
    · simp [LCM_Init_probe, inb, outb]
    · split
      · simp [LCM_Init_probe, inb, outb]
      · split <;> simp [LCM_Init_probe, inb, outb]
  have hboot : ∀ s0 : Driver, (LCM_Init_boot hw s0).Cur_EntryMode = s0.Cur_EntryMode := by
    intro s0
    unfold LCM_Init_boot
    simp only []
    rw [foldl_keeps Driver.Cur_EntryMode _ (by intro s x; simp [LCM_Init_cgram])]
    rw [foldl_keeps Driver.Cur_EntryMode _ (by intro s x; simp)]
    rw [LCM_Command_Cur_EntryMode]
    rw [foldl_keeps Driver.Cur_EntryMode _ (by intro s x; simp)]
    simp
  unfold LCM_Init
  simp only []
  split
  · exact hloc
  · rw [hboot, hloc]

/-- C12 (evaluation at the failing input): after initialisation of the
freshly loaded driver with a port found, the most recent entry-mode command
sent to the controller is 0x06 while the tracked entry-mode register still
holds its static value 0x04.  A following auto-shift command with argument 1
therefore sends 0x05, which also clears the controller's increment bit. -/
theorem C12_entry_mode_not_tracked (hw : Hardware)
    (hfound : (LCM_Init_locate hw Driver.initial).Port_Addr ≠ 0) :
    lastCommandIn 0x04 0x07 (LCM_Init hw Driver.initial).txns = some 0x06 ∧
    (LCM_Init hw Driver.initial).Cur_EntryMode = 0x04 ∧
    lastCommandIn 0x04 0x07
      (plcm_ioctl hw PLCM_IOCTL_ENTRYMODE_SH 1 (LCM_Init hw Driver.initial)).2.txns
        = some 0x05 := by
  have ht : (LCM_Init hw Driver.initial).txns = bootTrace := by
    rw [LCM_Init_txns, if_neg hfound]; rfl
  have he : (LCM_Init hw Driver.initial).Cur_EntryMode = 0x04 := by
    rw [LCM_Init_Cur_EntryMode]; rfl
  refine ⟨?_, he, ?_⟩
  · rw [ht]; rfl
  · simp only [plcm_ioctl]
    simp only [ne_eq, one_ne_zero, not_false_eq_true, not_true_eq_false, and_false, if_false,
      if_true, LCM_Command_txns_write, ht, he]
    rfl

/-- C12 witness: hardware that answers 1 on every port. -/
theorem C12_entry_mode_not_tracked_witness :
    (LCM_Init_locate (fun _ _ => 1) Driver.initial).Port_Addr ≠ 0 ∧
    lastCommandIn 0x04 0x07 (LCM_Init (fun _ _ => 1) Driver.initial).txns = some 0x06 ∧
    (LCM_Init (fun _ _ => 1) Driver.initial).Cur_EntryMode = 0x04 :=
  ⟨by decide,
   (C12_entry_mode_not_tracked (fun _ _ => 1) (by decide)).1,
   (C12_entry_mode_not_tracked (fun _ _ => 1) (by decide)).2.1⟩

/-! ### C13: port probing -/

/-- One probe reads back `probeEcho` and appends `probeEvents` to the port
log; nothing else changes. -/
theorem LCM_Init_probe_eq (hw : Hardware) (lpt : Nat) (s : Driver) :
    LCM_Init_probe hw lpt s =
      (probeEcho hw s.ports lpt, { s with ports := s.ports ++ probeEvents hw s.ports lpt }) := by
  simp [LCM_Init_probe, inb, outb, probeEcho, probeEvents]

/-- C13: probing tries 0x378, 0x278, 0x3BC in this order.  Each probe reads
the candidate's control register, writes it back with bit 0x20 cleared,
writes 0x01 to the data register and reads it back, touching only that
candidate's data and control registers.  The address claimed is the first
candidate that reads back 0x01, and the port log then ends with that
candidate's probe: no later candidate is accessed.  The address is 0 exactly
when none of the three reads back 0x01.  Probing changes nothing but
`Port_Addr` and the port log. -/
theorem C13_probe_order_first_match (hw : Hardware) (s : Driver) :
    (probeEcho hw s.ports 0x378 = 1 →
      LCM_Init_locate hw s =
        { s with Port_Addr := 0x378, ports := historyAfter hw s.ports [0x378] }) ∧
    (probeEcho hw s.ports 0x378 ≠ 1 →
     probeEcho hw (historyAfter hw s.ports [0x378]) 0x278 = 1 →
      LCM_Init_locate hw s =
        { s with Port_Addr := 0x278, ports := historyAfter hw s.ports [0x378, 0x278] }) ∧
    (probeEcho hw s.ports 0x378 ≠ 1 →
     probeEcho hw (historyAfter hw s.ports [0x378]) 0x278 ≠ 1 →
     probeEcho hw (historyAfter hw s.ports [0x378, 0x278]) 0x3BC = 1 →
      LCM_Init_locate hw s =
        { s with Port_Addr := 0x3BC, ports := historyAfter hw s.ports [0x378, 0x278, 0x3BC] }) ∧
    (probeEcho hw s.ports 0x378 ≠ 1 →
     probeEcho hw (historyAfter hw s.ports [0x378]) 0x278 ≠ 1 →
     probeEcho hw (historyAfter hw s.ports [0x378, 0x278]) 0x3BC ≠ 1 →
      LCM_Init_locate hw s =
        { s with Port_Addr := 0, ports := historyAfter hw s.ports [0x378, 0x278, 0x3BC] }) ∧
    ((LCM_Init_locate hw s).Port_Addr = 0 ↔
      (probeEcho hw s.ports 0x378 ≠ 1 ∧
       probeEcho hw (historyAfter hw s.ports [0x378]) 0x278 ≠ 1 ∧
       probeEcho hw (historyAfter hw s.ports [0x378, 0x278]) 0x3BC ≠ 1)) ∧
    (∀ (h : List PortEvent) (lpt : Nat),
      probeEvents hw h lpt =
        [PortEvent.inb (lpt + 2) (hw h (lpt + 2) % 256),
         PortEvent.outb ((hw h (lpt + 2) % 256) &&& 0xDF) (lpt + 2),
         PortEvent.outb 0x01 lpt,
         PortEvent.inb lpt (probeEcho hw h lpt)] ∧
      ∀ e ∈ probeEvents hw h lpt, e.port = some lpt ∨ e.port = some (lpt + 2)) := by
  have hL : LCM_Init_locate hw s =
      if probeEcho hw s.ports 0x378 = 1 then
        { s with Port_Addr := 0x378, ports := historyAfter hw s.ports [0x378] }
      else if probeEcho hw (historyAfter hw s.ports [0x378]) 0x278 = 1 then
        { s with Port_Addr := 0x278, ports := historyAfter hw s.ports [0x378, 0x278] }
      else if probeEcho hw (historyAfter hw s.ports [0x378, 0x278]) 0x3BC = 1 then
        { s with Port_Addr := 0x3BC, ports := historyAfter hw s.ports [0x378, 0x278, 0x3BC] }
      else { s with Port_Addr := 0, ports := historyAfter hw s.ports [0x378, 0x278, 0x3BC] } := by
    simp only [LCM_Init_locate, LCM_Init_probe_eq, historyAfter, LPT1, LPT2, LPT3]
  refine ⟨?_, ?_, ?_, ?_, ?_, ?_⟩
  · intro h1
    rw [hL, if_pos h1]
  · intro h1 h2
    rw [hL, if_neg h1, if_pos h2]
  · intro h1 h2 h3
    rw [hL, if_neg h1, if_neg h2, if_pos h3]
  · intro h1 h2 h3
    rw [hL, if_neg h1, if_neg h2, if_neg h3]
  · rw [hL]
    by_cases h1 : probeEcho hw s.ports 0x378 = 1
    · simp [h1]
    · by_cases h2 : probeEcho hw (historyAfter hw s.ports [0x378]) 0x278 = 1
      · simp [h1, h2]
      · by_cases h3 : probeEcho hw (historyAfter hw s.ports [0x378, 0x278]) 0x3BC = 1
        · simp [h1, h2, h3]
        · simp [h1, h2, h3]
  · intro h lpt
    refine ⟨rfl, ?_⟩
    intro e he
    simp only [probeEvents, List.mem_cons, List.mem_singleton, List.not_mem_nil, or_false] at he
    rcases he with he | he | he | he <;> subst he <;> simp [PortEvent.port]

/-- C13 witness: hardware on which only 0x278 echoes: LPT1 is probed and
fails, LPT2 is claimed, LPT3 is never accessed. -/
theorem C13_probe_order_first_match_witness :
    probeEcho (fun _ p => if p = 0x278 then 1 else 0) Driver.initial.ports 0x378 ≠ 1 ∧
    probeEcho (fun _ p => if p = 0x278 then 1 else 0)
      (historyAfter (fun _ p => if p = 0x278 then 1 else 0) Driver.initial.ports [0x378]) 0x278
        = 1 ∧
    LCM_Init_locate (fun _ p => if p = 0x278 then 1 else 0) Driver.initial =
      { Driver.initial with
          Port_Addr := 0x278,
          ports := historyAfter (fun _ p => if p = 0x278 then 1 else 0) Driver.initial.ports
            [0x378, 0x278] } :=
  ⟨by decide, by decide,
   (C13_probe_order_first_match (fun _ p => if p = 0x278 then 1 else 0) Driver.initial).2.1
     (by decide) (by decide)⟩

/-! ### Initialisation: what it assigns -/

/-- A bus transaction assigns no driver variable. -/
@[simp] theorem LCM_Command_statics (hw : Hardware) (RS RWn CMD d : Nat) (Ret : Option Nat)
    (s : Driver) : (LCM_Command hw RS RWn CMD d Ret s).2.statics = s.statics := by
  rw [LCM_Command_frame]
  rfl

/-- Probing assigns only `Port_Addr`. -/
theorem LCM_Init_locate_statics (hw : Hardware) (s : Driver) :
    (LCM_Init_locate hw s).statics =
      ({ s with Port_Addr := (LCM_Init_locate hw s).Port_Addr } : Driver).statics := by
  unfold LCM_Init_locate
  simp only [LCM_Init_probe_eq]
  split
  · rfl
  · split
    · rfl
    · split <;> rfl

/-- Two drivers agree on their variables exactly when they agree field by
field. -/
theorem statics_eq_iff (a b : Driver) :
    a.statics = b.statics ↔
      a.Device_Open = b.Device_Open ∧ a.stop_thread = b.stop_thread ∧
      a.Port_Addr = b.Port_Addr ∧ a.DataPort = b.DataPort ∧ a.StatusPort = b.StatusPort ∧
      a.ControlPort = b.ControlPort ∧ a.port_reserved = b.port_reserved ∧
      a.Backlight = b.Backlight ∧ a.Cur_Line = b.Cur_Line ∧
      a.Cur_EntryMode = b.Cur_EntryMode ∧ a.Cur_Display = b.Cur_Display ∧
      a.Cur_Shift = b.Cur_Shift ∧ a.row = b.row := by
  cases a
  cases b
  simp [Driver.statics]

theorem statics_set_Cur_Display (a : Driver) (v : Nat) :
    ({ a with Cur_Display := v } : Driver).statics = { a.statics with Cur_Display := v } := rfl

/-- The boot sequence assigns the three port variables and `Cur_Display`. -/
theorem LCM_Init_boot_statics (hw : Hardware) (s : Driver) :
    (LCM_Init_boot hw s).statics =
      ({ s with DataPort := s.Port_Addr, StatusPort := s.Port_Addr + 1,
                ControlPort := s.Port_Addr + 2, Cur_Display := 0x0F } : Driver).statics := by
  unfold LCM_Init_boot
  simp only []
  rw [foldl_keeps Driver.statics _ (by intro s x; simp [LCM_Init_cgram])]
  rw [foldl_keeps Driver.statics _ (by intro s x; simp)]
  rw [LCM_Command_statics]
  rw [foldl_keeps Driver.statics _ (by intro s x; simp)]
  simp only [LCM_Command_statics, statics_set_Cur_Display]
  rfl

/-- With a port found, `LCM_Init` on the freshly loaded driver binds the
three port variables to it, leaves `port_reserved` at 0 and issues the boot
trace. -/
theorem LCM_Init_found (hw : Hardware)
    (hfound : (LCM_Init_locate hw Driver.initial).Port_Addr ≠ 0) :
    (LCM_Init hw Driver.initial).Port_Addr = (LCM_Init_locate hw Driver.initial).Port_Addr ∧
    (LCM_Init hw Driver.initial).DataPort = (LCM_Init_locate hw Driver.initial).Port_Addr ∧
    (LCM_Init hw Driver.initial).port_reserved = 0 ∧
    (LCM_Init hw Driver.initial).txns = bootTrace := by
  have hs : (LCM_Init hw Driver.initial).statics =
      ({ Driver.initial with
          Port_Addr := (LCM_Init_locate hw Driver.initial).Port_Addr,
          DataPort := (LCM_Init_locate hw Driver.initial).Port_Addr,
          StatusPort := (LCM_Init_locate hw Driver.initial).Port_Addr + 1,
          ControlPort := (LCM_Init_locate hw Driver.initial).Port_Addr + 2,
          Cur_Display := 0x0F } : Driver).statics := by
    have h1 := LCM_Init_boot_statics hw (LCM_Init_locate hw Driver.initial)
    have h2 := LCM_Init_locate_statics hw Driver.initial
    have h3 : LCM_Init hw Driver.initial = LCM_Init_boot hw (LCM_Init_locate hw Driver.initial) := by
      simp [LCM_Init, hfound]
    rw [h3, h1]
    rw [statics_eq_iff] at h2 ⊢
    obtain ⟨e1, e2, e3, e4, e5, e6, e7, e8, e9, e10, e11, e12, e13⟩ := h2
    exact ⟨e1, e2, rfl, rfl, rfl, rfl, e7, e8, e9, e10, rfl, e12, e13⟩
  rw [statics_eq_iff] at hs
  obtain ⟨_, _, e3, e4, _, _, e7, _⟩ := hs
  refine ⟨e3, e4, e7, ?_⟩
  rw [LCM_Init_txns, if_neg hfound]; rfl

/-- With no port found, `LCM_Init` on the freshly loaded driver leaves
`DataPort` and `port_reserved` at 0. -/
theorem LCM_Init_not_found (hw : Hardware)
    (hnone : (LCM_Init_locate hw Driver.initial).Port_Addr = 0) :
    (LCM_Init hw Driver.initial).DataPort = 0 ∧
    (LCM_Init hw Driver.initial).port_reserved = 0 := by
  have h3 : LCM_Init hw Driver.initial = LCM_Init_locate hw Driver.initial := by
    simp [LCM_Init, hnone]
  have h2 := LCM_Init_locate_statics hw Driver.initial
  rw [statics_eq_iff] at h2
  obtain ⟨_, _, _, e4, _, _, e7, _⟩ := h2
  rw [h3]
  exact ⟨e4, e7⟩

/-! ### C14 and C15: `plcm_init` -/

/-- A `plcm_init` in which the character device registers, a port is found
and the region is refused: return value and module afterwards. -/
theorem plcm_init_region_refused (hw : Hardware) (env : Kernel)
    (hreg : env.register_chrdev = 0)
    (hfound : (LCM_Init_locate hw Driver.initial).Port_Addr ≠ 0)
    (hdeny : env.request_region = false) :
    plcm_init hw env Module.fresh =
      (- EBUSY,
        { Module.fresh with
            drv := LCM_Init hw Driver.initial,
            klog := [KCall.register_chrdev PLCM_MAJOR 0, KCall.LCM_Init 177,
              KCall.request_region (LCM_Init_locate hw Driver.initial).Port_Addr 3 false,
              KCall.unregister_chrdev PLCM_MAJOR] }) := by
  obtain ⟨hP, hD, hR, hT⟩ := LCM_Init_found hw hfound
  have hD0 : ¬ (LCM_Init hw Driver.initial).DataPort = 0 := by rw [hD]; exact hfound
  have hlen : (LCM_Init hw Driver.initial).txns.length = 177 := by rw [hT]; rfl
  have hi : Driver.initial.txns = [] := rfl
  simp [plcm_init, register_chrdev, request_region, unregister_chrdev, Module.fresh, hreg, hdeny,
    hD0, hP, hlen, hi]

/-- C14 (evaluation at the failing input): when the character device
registers, a port is found and `request_region` refuses the region,
`plcm_init` returns `-EBUSY` although the whole boot trace (177 bus
transactions) has been issued: the step log shows `LCM_Init` before
`request_region`. -/
theorem C14_boot_runs_before_reservation (hw : Hardware) (env : Kernel)
    (hreg : env.register_chrdev = 0)
    (hfound : (LCM_Init_locate hw Driver.initial).Port_Addr ≠ 0)
    (hdeny : env.request_region = false) :
    (plcm_init hw env Module.fresh).1 = - EBUSY ∧
    (plcm_init hw env Module.fresh).2.drv.txns = bootTrace ∧
    (plcm_init hw env Module.fresh).2.klog =
      [KCall.register_chrdev PLCM_MAJOR 0, KCall.LCM_Init 177,
       KCall.request_region (LCM_Init_locate hw Driver.initial).Port_Addr 3 false,
       KCall.unregister_chrdev PLCM_MAJOR] := by
  rw [plcm_init_region_refused hw env hreg hfound hdeny]
  exact ⟨rfl, (LCM_Init_found hw hfound).2.2.2, rfl⟩

/-- C14 witness: hardware that answers 1 on every port and a kernel that
refuses the region. -/
theorem C14_boot_runs_before_reservation_witness :
    (⟨0, false, Created.ok, Created.ok⟩ : Kernel).register_chrdev = 0 ∧
    (LCM_Init_locate (fun _ _ => 1) Driver.initial).Port_Addr ≠ 0 ∧
    (plcm_init (fun _ _ => 1) ⟨0, false, Created.ok, Created.ok⟩ Module.fresh).1 = - EBUSY ∧
    (plcm_init (fun _ _ => 1) ⟨0, false, Created.ok, Created.ok⟩ Module.fresh).2.drv.txns
      = bootTrace :=
  ⟨rfl, by decide,
   (C14_boot_runs_before_reservation (fun _ _ => 1) ⟨0, false, Created.ok, Created.ok⟩ rfl
      (by decide) rfl).1,
   (C14_boot_runs_before_reservation (fun _ _ => 1) ⟨0, false, Created.ok, Created.ok⟩ rfl
      (by decide) rfl).2.1⟩

/-- C15: every failing path of `plcm_init` on the freshly loaded module
returns its error and leaves no resource acquired.  With the character device
registered: no port found returns `-EIO`; a refused port region returns
`-EBUSY`; a failed `class_create` or `device_create` returns the errno the
kernel handed back.  In each case, and whenever `plcm_init` returns a
non-zero value at all, the character device is unregistered, the region is
neither held nor marked (`port_reserved = 0`), and no class or device object
exists or is pointed to. -/
theorem C15_init_failure_leaves_nothing (hw : Hardware) (env : Kernel) :
    (env.register_chrdev = 0 → (LCM_Init_locate hw Driver.initial).Port_Addr = 0 →
      (plcm_init hw env Module.fresh).1 = - EIO ∧ (plcm_init hw env Module.fresh).2.clean) ∧
    (env.register_chrdev = 0 → (LCM_Init_locate hw Driver.initial).Port_Addr ≠ 0 →
      env.request_region = false →
      (plcm_init hw env Module.fresh).1 = - EBUSY ∧ (plcm_init hw env Module.fresh).2.clean) ∧
    (∀ e, env.register_chrdev = 0 → (LCM_Init_locate hw Driver.initial).Port_Addr ≠ 0 →
      env.request_region = true → env.class_create = Created.failed e →
      (plcm_init hw env Module.fresh).1 = e ∧ (plcm_init hw env Module.fresh).2.clean) ∧
    (∀ e, env.register_chrdev = 0 → (LCM_Init_locate hw Driver.initial).Port_Addr ≠ 0 →
      env.request_region = true → env.class_create = Created.ok →
      env.device_create = Created.failed e →
      (plcm_init hw env Module.fresh).1 = e ∧ (plcm_init hw env Module.fresh).2.clean) ∧
    ((plcm_init hw env Module.fresh).1 ≠ 0 → (plcm_init hw env Module.fresh).2.clean) := by
  have hi : Driver.initial.txns = [] := rfl
  have p0 : env.register_chrdev ≠ 0 → (plcm_init hw env Module.fresh).2.clean := by
    intro hreg
    simp [plcm_init, register_chrdev, Module.fresh, Module.clean, hreg, Driver.initial]
  have p1 : env.register_chrdev = 0 → (LCM_Init_locate hw Driver.initial).Port_Addr = 0 →
      (plcm_init hw env Module.fresh).1 = - EIO ∧ (plcm_init hw env Module.fresh).2.clean := by
    intro hreg hnone
    obtain ⟨hD, hR⟩ := LCM_Init_not_found hw hnone
    simp [plcm_init, register_chrdev, unregister_chrdev, Module.fresh, Module.clean, hreg, hD, hR]
  have p2 : env.register_chrdev = 0 → (LCM_Init_locate hw Driver.initial).Port_Addr ≠ 0 →
      env.request_region = false →
      (plcm_init hw env Module.fresh).1 = - EBUSY ∧ (plcm_init hw env Module.fresh).2.clean := by
    intro hreg hfound hdeny
    rw [plcm_init_region_refused hw env hreg hfound hdeny]
    simp [Module.clean, Module.fresh, (LCM_Init_found hw hfound).2.2.1]
  have p3 : ∀ e, env.register_chrdev = 0 → (LCM_Init_locate hw Driver.initial).Port_Addr ≠ 0 →
      env.request_region = true → env.class_create = Created.failed e →
      (plcm_init hw env Module.fresh).1 = e ∧ (plcm_init hw env Module.fresh).2.clean := by
    intro e hreg hfound hgrant hc
    obtain ⟨hP, hD, hR, hT⟩ := LCM_Init_found hw hfound
    have hD0 : ¬ (LCM_Init hw Driver.initial).DataPort = 0 := by rw [hD]; exact hfound
    simp [plcm_init, register_chrdev, request_region, unregister_chrdev, release_region,
      class_create, Created.ptr, IS_ERR, PTR_ERR, Module.fresh, Module.clean, hreg, hgrant, hc,
      hD0]
  have p4 : ∀ e, env.register_chrdev = 0 → (LCM_Init_locate hw Driver.initial).Port_Addr ≠ 0 →
      env.request_region = true → env.class_create = Created.ok →
      env.device_create = Created.failed e →
      (plcm_init hw env Module.fresh).1 = e ∧ (plcm_init hw env Module.fresh).2.clean := by
    intro e hreg hfound hgrant hc hv
    obtain ⟨hP, hD, hR, hT⟩ := LCM_Init_found hw hfound
    have hD0 : ¬ (LCM_Init hw Driver.initial).DataPort = 0 := by rw [hD]; exact hfound
    simp [plcm_init, register_chrdev, request_region, unregister_chrdev, release_region,
      class_create, class_destroy, device_create, Created.ptr, IS_ERR, PTR_ERR, Module.fresh,
      Module.clean, hreg, hgrant, hc, hv, hD0]
  refine ⟨p1, p2, p3, p4, ?_⟩
  intro hret
  by_cases hreg : env.register_chrdev = 0
  · by_cases hfound : (LCM_Init_locate hw Driver.initial).Port_Addr = 0
    · exact (p1 hreg hfound).2
    · cases hq : env.request_region with
      | false => exact (p2 hreg hfound hq).2
      | true =>
        cases hc : env.class_create with
        | failed e => exact (p3 e hreg hfound hq hc).2
        | ok =>
          cases hv : env.device_create with
          | failed e => exact (p4 e hreg hfound hq hc hv).2
          | ok =>
            exfalso
            apply hret
            obtain ⟨hP, hD, hR, hT⟩ := LCM_Init_found hw hfound
            have hD0 : ¬ (LCM_Init hw Driver.initial).DataPort = 0 := by rw [hD]; exact hfound
            simp [plcm_init, register_chrdev, request_region, class_create, device_create,
              Created.ptr, IS_ERR, Module.fresh, hreg, hq, hc, hv, hD0]
  · exact p0 hreg

/-- C15 witness: hardware that answers 1 on every port (LPT1 is found), a
kernel that grants the region and creates the class but fails
`device_create` with errno -12. -/
theorem C15_init_failure_leaves_nothing_witness :
    (plcm_init (fun _ _ => 1) ⟨0, true, Created.ok, Created.failed (-12)⟩ Module.fresh).1 = -12 ∧
    (plcm_init (fun _ _ => 1) ⟨0, true, Created.ok, Created.failed (-12)⟩ Module.fresh).2.clean :=
  (C15_init_failure_leaves_nothing (fun _ _ => 1)
    ⟨0, true, Created.ok, Created.failed (-12)⟩).2.2.2.1 (-12) rfl (by decide) rfl rfl rfl

/-! ### C16: the four-step port trace of `LCM_Command` -/

/-- C16: every call `LCM_Command(RS, RWn, CMD, d, Ret)` produces the same port
trace.  With `C` = backlight bit | 0x08 if `RS = 0` | 0x24 if `RWn = 1`, it
writes `CMD` to the data port first exactly when the call is a write, then
writes `C | 0x02` to the control port and holds `d`, writes `C` with bit 0x02
cleared and holds 10, samples the data port exactly when the call is a read
with a result slot (and then hands back the sampled byte), and finally writes
`C | 0x20 | 0x02` to the control port and holds `d + 1`, computed in
`unsigned int`: the hold is `(d + 1) mod 2^32`, which is `d + 1` for every
`d` below 4294967295, so for every delay the driver passes, and 0 at
`d = 4294967295`.  No driver
variable changes.  In a read every port write goes to the control port, so
the data port is never written. -/
theorem C16_LCM_Command_port_trace (hw : Hardware) (RS RWn CMD d : Nat) (Ret : Option Nat)
    (s : Driver) :
    LCM_Ctrl s.Backlight RS RWn =
      s.Backlight ||| (if RS = 0 then 0x08 else 0) ||| (if RWn = 1 then 0x24 else 0) ∧
    (LCM_Command hw RS RWn CMD d Ret s).2.ports =
      s.ports
      ++ (if RWn = 1 then [] else [PortEvent.outb CMD s.DataPort])
      ++ [PortEvent.outb (LCM_Ctrl s.Backlight RS RWn ||| 0x02) s.ControlPort,
          PortEvent.udelay d,
          PortEvent.outb (LCM_Ctrl s.Backlight RS RWn &&& 0xFD) s.ControlPort,
          PortEvent.udelay 10]
      ++ (if RWn = 1 ∧ Ret.isSome = true
            then [PortEvent.inb s.DataPort (sampled hw RS d s)] else [])
      ++ [PortEvent.outb (LCM_Ctrl s.Backlight RS RWn ||| 0x20 ||| 0x02) s.ControlPort,
          PortEvent.udelay ((d + 1) % 2 ^ 32)] ∧
    (d + 1 < 2 ^ 32 → (d + 1) % 2 ^ 32 = d + 1) ∧
    (d = 4294967295 → (d + 1) % 2 ^ 32 = 0) ∧
    (LCM_Command hw RS RWn CMD d Ret s).1 =
      (if RWn = 1 ∧ Ret.isSome = true then some (sampled hw RS d s) else Ret) ∧
    (LCM_Command hw RS RWn CMD d Ret s).2.statics = s.statics ∧
    (RWn = 1 → s.DataPort ≠ s.ControlPort →
      ∀ v, PortEvent.outb v s.DataPort ∉
        (LCM_Command hw RS RWn CMD d Ret s).2.ports.drop s.ports.length) := by
  have hports : (LCM_Command hw RS RWn CMD d Ret s).2.ports =
      s.ports
      ++ (if RWn = 1 then [] else [PortEvent.outb CMD s.DataPort])
      ++ [PortEvent.outb (LCM_Ctrl s.Backlight RS RWn ||| 0x02) s.ControlPort,
          PortEvent.udelay d,
          PortEvent.outb (LCM_Ctrl s.Backlight RS RWn &&& 0xFD) s.ControlPort,
          PortEvent.udelay 10]
      ++ (if RWn = 1 ∧ Ret.isSome = true
            then [PortEvent.inb s.DataPort (sampled hw RS d s)] else [])
      ++ [PortEvent.outb (LCM_Ctrl s.Backlight RS RWn ||| 0x20 ||| 0x02) s.ControlPort,
          PortEvent.udelay ((d + 1) % 2 ^ 32)] := by
    by_cases h1 : RWn = 1 <;> by_cases h2 : Ret.isSome = true <;>
      simp [LCM_Command, outb, udelay, inb, sampled, ENABLE, h1, h2]
  refine ⟨?_, hports, fun hd => Nat.mod_eq_of_lt hd, fun hd => by rw [hd]; rfl, ?_,
    LCM_Command_statics hw RS RWn CMD d Ret s, ?_⟩
  · simp [LCM_Ctrl]
  · by_cases h1 : RWn = 1 <;> by_cases h2 : Ret.isSome = true <;>
      simp [LCM_Command, outb, udelay, inb, sampled, ENABLE, h1, h2]
  · intro h1 hne v
    rw [hports]
    by_cases h2 : Ret.isSome = true <;>
      simp [h1, h2, List.append_assoc, List.drop_append, hne]

/-- C16 witness: a data read with a result slot on a driver bound to LPT1. -/
theorem C16_LCM_Command_port_trace_witness :
    ∀ v, PortEvent.outb v
        ({ Driver.initial with DataPort := 0x378, ControlPort := 0x37A } : Driver).DataPort ∉
      (LCM_Command (fun _ _ => 0x41) 1 1 0 46 (some 0)
        { Driver.initial with DataPort := 0x378, ControlPort := 0x37A }).2.ports.drop
        ({ Driver.initial with DataPort := 0x378, ControlPort := 0x37A } : Driver).ports.length :=
  (C16_LCM_Command_port_trace (fun _ _ => 0x41) 1 1 0 46 (some 0)
    { Driver.initial with DataPort := 0x378, ControlPort := 0x37A }).2.2.2.2.2.2 rfl (by decide)

/-! ### C17: unrecognised command codes -/

/-- C17: for every command that is none of the fourteen recognised control
operations, and every argument, `plcm_ioctl` returns `-EOPNOTSUPP` and hands
back the driver record unchanged: no variable changes, no port is accessed
and no bus transaction is issued. -/
theorem C17_unrecognised_command (hw : Hardware) (cmd : IoctlCmd) (arg : Nat) (s : Driver)
    (h : cmd ∉ [PLCM_IOCTL_STOP_THREAD, PLCM_IOCTL_BACKLIGHT, PLCM_IOCTL_SET_LINE,
                PLCM_IOCTL_CLEARDISPLAY, PLCM_IOCTL_RETURNHOME, PLCM_IOCTL_ENTRYMODE_ID,
                PLCM_IOCTL_ENTRYMODE_SH, PLCM_IOCTL_DISPLAY_D, PLCM_IOCTL_DISPLAY_C,
                PLCM_IOCTL_DISPLAY_B, PLCM_IOCTL_SHIFT_SC, PLCM_IOCTL_SHIFT_RL,
                PLCM_IOCTL_GET_KEYPAD, PLCM_IOCTL_INPUT_CHAR]) :
    plcm_ioctl hw cmd arg s = (- EOPNOTSUPP, s) := by
  cases cmd
  case unrecognised code => rfl
  all_goals exact absurd (by simp) h

/-- C17 witness: command number 0x7F with argument 1. -/
theorem C17_unrecognised_command_witness :
    plcm_ioctl (fun _ _ => 0) (unrecognised 0x7F) 1 Driver.initial = (- EOPNOTSUPP, Driver.initial) :=
  C17_unrecognised_command (fun _ _ => 0) (unrecognised 0x7F) 1 Driver.initial (by simp)

/-! ### C18: input one character -/

/-- C18: the input-character command with a byte argument `v ≤ 255` returns
0, issues exactly one data write of `v` (settle delay 300), and sets the
column counter to `row + 1` computed in `unsigned int`, with no clamp: from
column 19 it goes to 20.  No other driver variable changes.  With an argument
above 255 it returns `-EINVAL` and hands back the driver unchanged. -/
theorem C18_input_char (hw : Hardware) (arg : Nat) (s : Driver) :
    (arg ≤ 0xFF →
      (plcm_ioctl hw PLCM_IOCTL_INPUT_CHAR arg s).1 = 0 ∧
      (plcm_ioctl hw PLCM_IOCTL_INPUT_CHAR arg s).2.txns = s.txns ++ [Txn.mk 1 0 arg 300 none] ∧
      (plcm_ioctl hw PLCM_IOCTL_INPUT_CHAR arg s).2.row = (s.row + 1) % 2 ^ 32 ∧
      (s.row + 1 < 2 ^ 32 → (plcm_ioctl hw PLCM_IOCTL_INPUT_CHAR arg s).2.row = s.row + 1) ∧
      (s.row = 19 → (plcm_ioctl hw PLCM_IOCTL_INPUT_CHAR arg s).2.row = 20) ∧
      (plcm_ioctl hw PLCM_IOCTL_INPUT_CHAR arg s).2.statics =
        ({ s with row := (s.row + 1) % 2 ^ 32 } : Driver).statics) ∧
    (0xFF < arg → plcm_ioctl hw PLCM_IOCTL_INPUT_CHAR arg s = (- EINVAL, s)) := by
  constructor
  · intro h
    have h2 : ¬ 255 < arg := by omega
    have hmod : arg % 256 = arg := Nat.mod_eq_of_lt (by omega)
    have hrow : (plcm_ioctl hw PLCM_IOCTL_INPUT_CHAR arg s).2.row = (s.row + 1) % 2 ^ 32 :=
      plcm_ioctl_INPUT_CHAR_row hw arg s h
    refine ⟨?_, ?_, hrow, ?_, ?_, ?_⟩
    · simp [plcm_ioctl, h2]
    · simp [plcm_ioctl, h2, LCM_Command_write, hmod]
    · intro hlt
      rw [hrow]
      exact Nat.mod_eq_of_lt hlt
    · intro h19
      rw [hrow, h19]
      rfl
    · simp [plcm_ioctl, h2, LCM_Command_write, Driver.statics]
  · intro h
    simp [plcm_ioctl, h]

/-- C18 witness: the byte 0x41 at column 19, and the argument 0x100. -/
theorem C18_input_char_witness :
    (plcm_ioctl (fun _ _ => 0) PLCM_IOCTL_INPUT_CHAR 0x41 { Driver.initial with row := 19 }).2.row
      = 20 ∧
    plcm_ioctl (fun _ _ => 0) PLCM_IOCTL_INPUT_CHAR 0x100 { Driver.initial with row := 19 } =
      (- EINVAL, { Driver.initial with row := 19 }) :=
  ⟨((C18_input_char (fun _ _ => 0) 0x41 { Driver.initial with row := 19 }).1
      (by decide)).2.2.2.2.1 rfl,
   (C18_input_char (fun _ _ => 0) 0x100 { Driver.initial with row := 19 }).2 (by decide)⟩

/-! ### C20: clear display -/

/-- C20: clear display, from every state and for every argument, returns 0,
issues exactly one command write of 0x01 at settle delay 1640 and sets the
column counter to 0.  Active line, backlight and the entry-mode,
display-control and shift-control registers, as every other driver variable,
keep their values. -/
theorem C20_clear_display (hw : Hardware) (arg : Nat) (s : Driver) :
    (plcm_ioctl hw PLCM_IOCTL_CLEARDISPLAY arg s).1 = 0 ∧
    (plcm_ioctl hw PLCM_IOCTL_CLEARDISPLAY arg s).2.txns =
      s.txns ++ [Txn.mk 0 0 0x01 1640 none] ∧
    (plcm_ioctl hw PLCM_IOCTL_CLEARDISPLAY arg s).2.row = 0 ∧
    (plcm_ioctl hw PLCM_IOCTL_CLEARDISPLAY arg s).2.Cur_Line = s.Cur_Line ∧
    (plcm_ioctl hw PLCM_IOCTL_CLEARDISPLAY arg s).2.Backlight = s.Backlight ∧
    (plcm_ioctl hw PLCM_IOCTL_CLEARDISPLAY arg s).2.Cur_EntryMode = s.Cur_EntryMode ∧
    (plcm_ioctl hw PLCM_IOCTL_CLEARDISPLAY arg s).2.Cur_Display = s.Cur_Display ∧
    (plcm_ioctl hw PLCM_IOCTL_CLEARDISPLAY arg s).2.Cur_Shift = s.Cur_Shift ∧
    (plcm_ioctl hw PLCM_IOCTL_CLEARDISPLAY arg s).2.statics =
      ({ s with row := 0 } : Driver).statics := by
  simp [plcm_ioctl, LCM_Command_write, Driver.statics]

/-! ### C19: select active line -/

/-- `plcm_write` assigns no driver variable. -/
theorem plcm_write_statics (hw : Hardware) (buffer : UserBuf) (n : Nat) (s : Driver) :
    (plcm_write hw buffer n s).2.statics = s.statics := by
  unfold plcm_write
  split
  · rfl
  · simp only []
    rw [foldl_keeps Driver.statics _ (by intro s x; simp)]
    simp

/-- `plcm_read` assigns no driver variable. -/
theorem plcm_read_statics (hw : Hardware) (buffer : UserBuf) (n : Nat) (s : Driver) :
    (plcm_read hw buffer n s).2.2.statics = s.statics := by
  have hloop : ∀ (l : List Nat) (acc : Driver × UserBuf × Nat),
      (l.foldl (plcm_read_body hw) acc).1.statics = acc.1.statics := by
    intro l
    induction l with
    | nil => intro acc; rfl
    | cons i rest ih =>
      intro acc
      rw [List.foldl_cons, ih]
      simp [plcm_read_body]
  unfold plcm_read
  split
  · rfl
  · simp only []
    rw [hloop]
    simp

/-- An accepted `plcm_read` issues the address command of the active line
followed by forty data reads. -/
theorem plcm_read_accepted (hw : Hardware) (buffer : UserBuf) (s : Driver) :
    (plcm_read hw buffer 40 s).2.2.txns =
      s.txns ++ Txn.mk 0 0 (dd_addr s.Cur_Line) 300 none ::
        (List.range 40).map
          (fun i => Txn.mk 1 1 0 46 (some ((plcm_read hw buffer 40 s).2.1 i))) := by
  obtain ⟨h1, _⟩ := read_loop_spec hw (List.range 40) (List.nodup_range 40)
    (LCM_Command hw 0 0 (dd_addr s.Cur_Line) 300 none s).2 buffer 0
  simp only [plcm_read, ne_eq, not_true_eq_false, if_false]
  rw [h1, LCM_Command_write]
  simp only [List.append_assoc, List.singleton_append]
  refine congrArg (fun l => s.txns ++ Txn.mk 0 0 (dd_addr s.Cur_Line) 300 none :: l) ?_
  apply List.map_congr_left
  intro i hi
  have hi40 : i ≠ 40 := by
    have := List.mem_range.mp hi
    omega
  simp [put_user, hi40]

/-- Every command other than select-line keeps the active line. -/
theorem plcm_ioctl_Cur_Line (hw : Hardware) (cmd : IoctlCmd) (arg : Nat) (s : Driver)
    (h : cmd ≠ PLCM_IOCTL_SET_LINE) :
    (plcm_ioctl hw cmd arg s).2.Cur_Line = s.Cur_Line := by
  cases cmd
  case PLCM_IOCTL_SET_LINE => exact absurd rfl h
  all_goals
    simp only [plcm_ioctl]
    repeat' split
    all_goals simp [LCM_Backlight, inb, outb]

/-- A request that is not a select-line command keeps the active line. -/
theorem Op.run_Cur_Line (hw : Hardware) (s : Driver) (op : Op) (h : op.isSetLine = false) :
    (Op.run hw s op).Cur_Line = s.Cur_Line := by
  cases op with
  | ioctl cmd arg =>
    apply plcm_ioctl_Cur_Line
    intro hc
    subst hc
    simp [Op.isSetLine] at h
  | write buffer n =>
    have := (statics_eq_iff _ _).mp (plcm_write_statics hw buffer n s)
    exact this.2.2.2.2.2.2.2.2.1
  | read buffer n =>
    have := (statics_eq_iff _ _).mp (plcm_read_statics hw buffer n s)
    exact this.2.2.2.2.2.2.2.2.1

/-- A run without select-line commands keeps the active line. -/
theorem runOps_Cur_Line (hw : Hardware) (ops : List Op) (s : Driver)
    (h : ∀ op ∈ ops, op.isSetLine = false) : (runOps hw s ops).Cur_Line = s.Cur_Line := by
  induction ops generalizing s with
  | nil => rfl
  | cons op rest ih =>
    simp only [runOps, List.foldl_cons]
    have h1 := ih (Op.run hw s op) (fun o ho => h o (List.mem_cons_of_mem _ ho))
    simp only [runOps] at h1
    rw [h1, Op.run_Cur_Line hw s op (h op (List.mem_cons_self _ _))]

/-- C19 (counterexample): on hardware where LPT1 is found, after
initialisation and 64 input-character commands the column counter is 64, and
select line 2 then sends the command byte (0xC0 + 64) mod 256 = 0x00, which
has bit 7 clear: it is not a set-DDRAM-address command. -/
theorem C19_select_line_2_at_column_64 :
    (runOps (fun _ _ => 1) (LCM_Init (fun _ _ => 1) Driver.initial)
        (List.replicate 64 (Op.ioctl PLCM_IOCTL_INPUT_CHAR 0x41))).row = 64 ∧
    (plcm_ioctl (fun _ _ => 1) PLCM_IOCTL_SET_LINE 2
        (runOps (fun _ _ => 1) (LCM_Init (fun _ _ => 1) Driver.initial)
          (List.replicate 64 (Op.ioctl PLCM_IOCTL_INPUT_CHAR 0x41)))).2.txns.getLast? =
      some (Txn.mk 0 0 0x00 300 none) := by
  have hinit : (LCM_Init (fun _ _ => 1) Driver.initial).row = 0 := by
    rw [LCM_Init_row]; rfl
  have hrow := runOps_INPUT_CHAR_row (fun _ _ => 1) 0x41 (by decide) 64
    (LCM_Init (fun _ _ => 1) Driver.initial) (by rw [hinit]; decide)
  rw [hinit] at hrow
  have hrow64 : (runOps (fun _ _ => 1) (LCM_Init (fun _ _ => 1) Driver.initial)
      (List.replicate 64 (Op.ioctl PLCM_IOCTL_INPUT_CHAR 0x41))).row = 64 := by
    rw [hrow]
  refine ⟨hrow64, ?_⟩
  generalize runOps (fun _ _ => 1) (LCM_Init (fun _ _ => 1) Driver.initial)
    (List.replicate 64 (Op.ioctl PLCM_IOCTL_INPUT_CHAR 0x41)) = s64 at hrow64 ⊢
  simp [plcm_ioctl, LCM_Command_write, hrow64]

/-- C19 (amended): select active line with argument `L` in {1,2} (`start` =
0x00 for line 1, 0x40 for line 2) returns 0, sets the active line to `L`,
changes no other driver variable, and issues exactly one command write at
settle delay 300 whose byte is `0x80 + start + row` truncated to a byte;
whenever `start + row` is a DDRAM address (at most 0x7F, so for every column
in [0,19]) that byte is the set-DDRAM-address command for address
`start + row`.  After any later requests that contain no select-line command
the active line is still `L`, and the first transaction of an accepted
`plcm_write` or `plcm_read` then is the command write of line `L`'s base
address `0x80 + start`. -/
theorem C19_select_line (hw : Hardware) (s : Driver) (L start : Nat)
    (hL : L = 1 ∧ start = 0x00 ∨ L = 2 ∧ start = 0x40) :
    (plcm_ioctl hw PLCM_IOCTL_SET_LINE L s).1 = 0 ∧
    (plcm_ioctl hw PLCM_IOCTL_SET_LINE L s).2.Cur_Line = L ∧
    (plcm_ioctl hw PLCM_IOCTL_SET_LINE L s).2.txns =
      s.txns ++ [Txn.mk 0 0 ((0x80 + start + s.row) % 256) 300 none] ∧
    (start + s.row ≤ 0x7F → (0x80 + start + s.row) % 256 = 0x80 + (start + s.row)) ∧
    (plcm_ioctl hw PLCM_IOCTL_SET_LINE L s).2.statics =
      ({ s with Cur_Line := L } : Driver).statics ∧
    (∀ ops : List Op, (∀ op ∈ ops, op.isSetLine = false) →
      (runOps hw (plcm_ioctl hw PLCM_IOCTL_SET_LINE L s).2 ops).Cur_Line = L ∧
      (∀ (buffer : UserBuf) (n : Nat), n ≤ 40 →
        (plcm_write hw buffer n
            (runOps hw (plcm_ioctl hw PLCM_IOCTL_SET_LINE L s).2 ops)).2.txns[
          (runOps hw (plcm_ioctl hw PLCM_IOCTL_SET_LINE L s).2 ops).txns.length]? =
          some (Txn.mk 0 0 (0x80 + start) 300 none)) ∧
      (∀ buffer : UserBuf,
        (plcm_read hw buffer 40
            (runOps hw (plcm_ioctl hw PLCM_IOCTL_SET_LINE L s).2 ops)).2.2.txns[
          (runOps hw (plcm_ioctl hw PLCM_IOCTL_SET_LINE L s).2 ops).txns.length]? =
          some (Txn.mk 0 0 (0x80 + start) 300 none))) := by
  have hline : (plcm_ioctl hw PLCM_IOCTL_SET_LINE L s).2.Cur_Line = L := by
    rcases hL with ⟨h1, _⟩ | ⟨h1, _⟩ <;> subst h1 <;> simp [plcm_ioctl]
  have hbase : dd_addr L = 0x80 + start := by
    rcases hL with ⟨h1, h2⟩ | ⟨h1, h2⟩ <;> subst h1 <;> subst h2 <;> rfl
  refine ⟨?_, hline, ?_, ?_, ?_, ?_⟩
  · rcases hL with ⟨h1, _⟩ | ⟨h1, _⟩ <;> subst h1 <;> simp [plcm_ioctl]
  · rcases hL with ⟨h1, h2⟩ | ⟨h1, h2⟩ <;> subst h1 <;> subst h2 <;>
      simp [plcm_ioctl, LCM_Command_write]
  · intro h
    have hlt : 0x80 + start + s.row < 256 := by omega
    rw [Nat.mod_eq_of_lt hlt]
    omega
  · rcases hL with ⟨h1, _⟩ | ⟨h1, _⟩ <;> subst h1 <;>
      simp [plcm_ioctl, LCM_Command_write, Driver.statics]
  · intro ops hops
    have hkeep := runOps_Cur_Line hw ops (plcm_ioctl hw PLCM_IOCTL_SET_LINE L s).2 hops
    rw [hline] at hkeep
    refine ⟨hkeep, ?_, ?_⟩
    · intro buffer n hn
      rw [(plcm_write_accepted hw buffer n _ hn).2, hkeep, hbase,
        List.getElem?_append_right (Nat.le_refl _)]
      simp
    · intro buffer
      rw [plcm_read_accepted, hkeep, hbase, List.getElem?_append_right (Nat.le_refl _)]
      simp

/-- C19 witness: selecting line 2 at column 5, then a return-home and a
40-byte write. -/
theorem C19_select_line_witness :
    (plcm_ioctl (fun _ _ => 0) PLCM_IOCTL_SET_LINE 2 { Driver.initial with row := 5 }).2.txns =
      ({ Driver.initial with row := 5 } : Driver).txns ++
        [Txn.mk 0 0 ((0x80 + 0x40 + ({ Driver.initial with row := 5 } : Driver).row) % 256) 300
          none] ∧
    (runOps (fun _ _ => 0)
        (plcm_ioctl (fun _ _ => 0) PLCM_IOCTL_SET_LINE 2 { Driver.initial with row := 5 }).2
        [Op.ioctl PLCM_IOCTL_RETURNHOME 0, Op.write (fun _ => 0x41) 40]).Cur_Line = 2 :=
  ⟨(C19_select_line (fun _ _ => 0) { Driver.initial with row := 5 } 2 0x40
      (Or.inr ⟨rfl, rfl⟩)).2.2.1,
   ((C19_select_line (fun _ _ => 0) { Driver.initial with row := 5 } 2 0x40
      (Or.inr ⟨rfl, rfl⟩)).2.2.2.2.2
      [Op.ioctl PLCM_IOCTL_RETURNHOME 0, Op.write (fun _ => 0x41) 40]
      (by intro op hop; simp at hop; rcases hop with h | h <;> subst h <;> rfl)).1⟩

/-! ### C21: return home -/

/-- C21: return home, from every state and for every argument, returns 0 and
issues exactly one command write of 0x02 at settle delay 1640.  Every driver
variable keeps its value; in particular the column counter, the active line,
the backlight flag and the three tracked registers. -/
theorem C21_return_home (hw : Hardware) (arg : Nat) (s : Driver) :
    (plcm_ioctl hw PLCM_IOCTL_RETURNHOME arg s).1 = 0 ∧
    (plcm_ioctl hw PLCM_IOCTL_RETURNHOME arg s).2.txns =
      s.txns ++ [Txn.mk 0 0 0x02 1640 none] ∧
    (plcm_ioctl hw PLCM_IOCTL_RETURNHOME arg s).2.statics = s.statics ∧
    (plcm_ioctl hw PLCM_IOCTL_RETURNHOME arg s).2.row = s.row ∧
    (plcm_ioctl hw PLCM_IOCTL_RETURNHOME arg s).2.Cur_Line = s.Cur_Line ∧
    (plcm_ioctl hw PLCM_IOCTL_RETURNHOME arg s).2.Backlight = s.Backlight ∧
    (plcm_ioctl hw PLCM_IOCTL_RETURNHOME arg s).2.Cur_EntryMode = s.Cur_EntryMode ∧
    (plcm_ioctl hw PLCM_IOCTL_RETURNHOME arg s).2.Cur_Display = s.Cur_Display ∧
    (plcm_ioctl hw PLCM_IOCTL_RETURNHOME arg s).2.Cur_Shift = s.Cur_Shift := by
  simp [plcm_ioctl, LCM_Command_write, Driver.statics]

/-! ### C24: read keypad status -/

/-- C24: read keypad status returns the byte read from the status port, a
value in [0,255].  Its only port access is that one read: nothing is written
to any port, no bus transaction is issued, and every driver variable keeps
its value. -/
theorem C24_get_keypad (hw : Hardware) (arg : Nat) (s : Driver) :
    (plcm_ioctl hw PLCM_IOCTL_GET_KEYPAD arg s).1 = ((hw s.ports s.StatusPort % 256 : Nat) : Int) ∧
    0 ≤ (plcm_ioctl hw PLCM_IOCTL_GET_KEYPAD arg s).1 ∧
    (plcm_ioctl hw PLCM_IOCTL_GET_KEYPAD arg s).1 ≤ 255 ∧
    (plcm_ioctl hw PLCM_IOCTL_GET_KEYPAD arg s).2.txns = s.txns ∧
    (plcm_ioctl hw PLCM_IOCTL_GET_KEYPAD arg s).2.ports =
      s.ports ++ [PortEvent.inb s.StatusPort (hw s.ports s.StatusPort % 256)] ∧
    (∀ v p, PortEvent.outb v p ∉
      (plcm_ioctl hw PLCM_IOCTL_GET_KEYPAD arg s).2.ports.drop s.ports.length) ∧
    (plcm_ioctl hw PLCM_IOCTL_GET_KEYPAD arg s).2.statics = s.statics := by
  have hlt : hw s.ports s.StatusPort % 256 < 256 := Nat.mod_lt _ (by decide)
  refine ⟨?_, ?_, ?_, ?_, ?_, ?_, ?_⟩
  · simp [plcm_ioctl, inb]
  · simp only [plcm_ioctl, inb]
    exact Int.natCast_nonneg _
  · simp only [plcm_ioctl, inb]
    exact_mod_cast Nat.le_of_lt_succ hlt
  · simp [plcm_ioctl, inb]
  · simp [plcm_ioctl, inb]
  · intro v p
    simp [plcm_ioctl, inb]
  · simp [plcm_ioctl, inb, Driver.statics]

/-! ### C30: line I/O leaves the controller state alone -/

/-- C30: `plcm_write` and `plcm_read`, for every buffer and every length
(accepted or rejected), change no driver variable: active line, column
counter, backlight flag and the entry-mode, display-control and shift-control
registers keep their values.  The column counter is not advanced by the
streamed bytes. -/
theorem C30_line_io_keeps_controller_state (hw : Hardware) (buffer : UserBuf) (n : Nat)
    (s : Driver) :
    ((plcm_write hw buffer n s).2.statics = s.statics ∧
     (plcm_write hw buffer n s).2.Cur_Line = s.Cur_Line ∧
     (plcm_write hw buffer n s).2.row = s.row ∧
     (plcm_write hw buffer n s).2.Backlight = s.Backlight ∧
     (plcm_write hw buffer n s).2.Cur_EntryMode = s.Cur_EntryMode ∧
     (plcm_write hw buffer n s).2.Cur_Display = s.Cur_Display ∧
     (plcm_write hw buffer n s).2.Cur_Shift = s.Cur_Shift) ∧
    ((plcm_read hw buffer n s).2.2.statics = s.statics ∧
     (plcm_read hw buffer n s).2.2.Cur_Line = s.Cur_Line ∧
     (plcm_read hw buffer n s).2.2.row = s.row ∧
     (plcm_read hw buffer n s).2.2.Backlight = s.Backlight ∧
     (plcm_read hw buffer n s).2.2.Cur_EntryMode = s.Cur_EntryMode ∧
     (plcm_read hw buffer n s).2.2.Cur_Display = s.Cur_Display ∧
     (plcm_read hw buffer n s).2.2.Cur_Shift = s.Cur_Shift) := by
  have hw1 := plcm_write_statics hw buffer n s
  have hr1 := plcm_read_statics hw buffer n s
  obtain ⟨_, _, _, _, _, _, _, w8, w9, w10, w11, w12, w13⟩ := (statics_eq_iff _ _).mp hw1
  obtain ⟨_, _, _, _, _, _, _, r8, r9, r10, r11, r12, r13⟩ := (statics_eq_iff _ _).mp hr1
  exact ⟨⟨hw1, w9, w13, w8, w10, w11, w12⟩, ⟨hr1, r9, r13, r8, r10, r11, r12⟩⟩

/-! ### C22: the six flag commands -/

/-- Or-ing in a mask does not change the bits outside it. -/
theorem lor_land_disjoint (x m mc : Nat) (h : m &&& mc = 0) : (x ||| m) &&& mc = x &&& mc := by
  apply Nat.eq_of_testBit_eq
  intro i
  have hi := congrArg (fun n => Nat.testBit n i) h
  simp only [Nat.testBit_land, Nat.zero_testBit] at hi
  simp only [Nat.testBit_land, Nat.testBit_lor]
  cases hx : Nat.testBit x i <;> cases hm : Nat.testBit m i <;>
    cases hc : Nat.testBit mc i <;> simp_all

/-- Or-ing in a mask sets its bits. -/
theorem lor_land_self (x m : Nat) : (x ||| m) &&& m = m := by
  apply Nat.eq_of_testBit_eq
  intro i
  simp only [Nat.testBit_land, Nat.testBit_lor]
  cases Nat.testBit x i <;> cases Nat.testBit m i <;> rfl

/-- And-ing with the complement of a mask clears its bits. -/
theorem land_land_disjoint (x m mc : Nat) (h : mc &&& m = 0) : (x &&& mc) &&& m = 0 := by
  rw [Nat.land_assoc, h]
  exact Nat.and_zero x

/-- And-ing with a mask twice is and-ing once. -/
theorem land_land_self (x mc : Nat) : (x &&& mc) &&& mc = x &&& mc := by
  rw [Nat.land_assoc, Nat.and_self]

/-- For a single-bit mask of the low nibble, `withBit m a x` has bit `m` equal
to `a` and agrees with `x` on the other bits of the byte. -/
theorem withBit_spec (m a x : Nat) (hm : m ∈ [0x01, 0x02, 0x04, 0x08]) (ha : a = 0 ∨ a = 1) :
    withBit m a x &&& m = m * a ∧ withBit m a x &&& (0xFF - m) = x &&& (0xFF - m) := by
  simp only [List.mem_cons, List.mem_singleton, List.not_mem_nil, or_false] at hm
  rcases hm with h | h | h | h <;> subst h <;> rcases ha with h | h <;> subst h
  all_goals
    simp only [withBit, if_true, one_ne_zero, if_false, Nat.mul_zero, Nat.mul_one]
    first
      | exact ⟨land_land_disjoint _ _ _ (by decide), land_land_self _ _⟩
      | exact ⟨lor_land_self _ _, lor_land_disjoint _ _ _ (by decide)⟩

/-- C22: each of the six flag commands, given an argument `a` in {0,1},
returns 0, replaces its register by the register with its own bit set to `a`
(`withBit`: that bit equals `a`, the other bits of the byte are unchanged),
changes no other driver variable, and issues exactly one command write at
settle delay 300 whose byte is the updated register.  The commands and bits:
entry-mode I/D 0x02 and auto-shift 0x01 of `Cur_EntryMode`; display 0x04,
cursor 0x02 and blink 0x01 of `Cur_Display`; shift target 0x08 of
`Cur_Shift`. -/
theorem C22_flag_commands (hw : Hardware) (a : Nat) (s : Driver) (ha : a = 0 ∨ a = 1) :
    ((plcm_ioctl hw PLCM_IOCTL_ENTRYMODE_ID a s).1 = 0 ∧
     (plcm_ioctl hw PLCM_IOCTL_ENTRYMODE_ID a s).2.statics =
       ({ s with Cur_EntryMode := withBit 0x02 a s.Cur_EntryMode } : Driver).statics ∧
     (plcm_ioctl hw PLCM_IOCTL_ENTRYMODE_ID a s).2.txns =
       s.txns ++ [Txn.mk 0 0 (withBit 0x02 a s.Cur_EntryMode) 300 none]) ∧
    ((plcm_ioctl hw PLCM_IOCTL_ENTRYMODE_SH a s).1 = 0 ∧
     (plcm_ioctl hw PLCM_IOCTL_ENTRYMODE_SH a s).2.statics =
       ({ s with Cur_EntryMode := withBit 0x01 a s.Cur_EntryMode } : Driver).statics ∧
     (plcm_ioctl hw PLCM_IOCTL_ENTRYMODE_SH a s).2.txns =
       s.txns ++ [Txn.mk 0 0 (withBit 0x01 a s.Cur_EntryMode) 300 none]) ∧
    ((plcm_ioctl hw PLCM_IOCTL_DISPLAY_D a s).1 = 0 ∧
     (plcm_ioctl hw PLCM_IOCTL_DISPLAY_D a s).2.statics =
       ({ s with Cur_Display := withBit 0x04 a s.Cur_Display } : Driver).statics ∧
     (plcm_ioctl hw PLCM_IOCTL_DISPLAY_D a s).2.txns =
       s.txns ++ [Txn.mk 0 0 (withBit 0x04 a s.Cur_Display) 300 none]) ∧
    ((plcm_ioctl hw PLCM_IOCTL_DISPLAY_C a s).1 = 0 ∧
     (plcm_ioctl hw PLCM_IOCTL_DISPLAY_C a s).2.statics =
       ({ s with Cur_Display := withBit 0x02 a s.Cur_Display } : Driver).statics ∧
     (plcm_ioctl hw PLCM_IOCTL_DISPLAY_C a s).2.txns =
       s.txns ++ [Txn.mk 0 0 (withBit 0x02 a s.Cur_Display) 300 none]) ∧
    ((plcm_ioctl hw PLCM_IOCTL_DISPLAY_B a s).1 = 0 ∧
     (plcm_ioctl hw PLCM_IOCTL_DISPLAY_B a s).2.statics =
       ({ s with Cur_Display := withBit 0x01 a s.Cur_Display } : Driver).statics ∧
     (plcm_ioctl hw PLCM_IOCTL_DISPLAY_B a s).2.txns =
       s.txns ++ [Txn.mk 0 0 (withBit 0x01 a s.Cur_Display) 300 none]) ∧
    ((plcm_ioctl hw PLCM_IOCTL_SHIFT_SC a s).1 = 0 ∧
     (plcm_ioctl hw PLCM_IOCTL_SHIFT_SC a s).2.statics =
       ({ s with Cur_Shift := withBit 0x08 a s.Cur_Shift } : Driver).statics ∧
     (plcm_ioctl hw PLCM_IOCTL_SHIFT_SC a s).2.txns =
       s.txns ++ [Txn.mk 0 0 (withBit 0x08 a s.Cur_Shift) 300 none]) ∧
    (∀ x, ∀ m ∈ [0x01, 0x02, 0x04, 0x08],
      withBit m a x &&& m = m * a ∧ withBit m a x &&& (0xFF - m) = x &&& (0xFF - m)) := by
  refine ⟨?_, ?_, ?_, ?_, ?_, ?_, fun x m hm => withBit_spec m a x hm ha⟩ <;>
    rcases ha with h | h <;> subst h <;>
    simp [plcm_ioctl, LCM_Command_write, Driver.statics, withBit]

/-- C22 witness: turning the cursor off (argument 0 to the cursor command)
in the state the boot sequence leaves, display control 0x0F. -/
theorem C22_flag_commands_witness :
    (plcm_ioctl (fun _ _ => 0) PLCM_IOCTL_DISPLAY_C 0 { Driver.initial with Cur_Display := 0x0F }).1
      = 0 ∧
    (plcm_ioctl (fun _ _ => 0) PLCM_IOCTL_DISPLAY_C 0
        { Driver.initial with Cur_Display := 0x0F }).2.statics =
      ({ ({ Driver.initial with Cur_Display := 0x0F } : Driver) with
          Cur_Display := withBit 0x02 0
            ({ Driver.initial with Cur_Display := 0x0F } : Driver).Cur_Display } : Driver).statics ∧
    (plcm_ioctl (fun _ _ => 0) PLCM_IOCTL_DISPLAY_C 0
        { Driver.initial with Cur_Display := 0x0F }).2.txns =
      ({ Driver.initial with Cur_Display := 0x0F } : Driver).txns ++
        [Txn.mk 0 0 (withBit 0x02 0
          ({ Driver.initial with Cur_Display := 0x0F } : Driver).Cur_Display) 300 none] :=
  (C22_flag_commands (fun _ _ => 0) 0 { Driver.initial with Cur_Display := 0x0F }
    (Or.inl rfl)).2.2.2.1

/-! ### C23: set backlight -/

/-- C23 (counterexample): on the freshly loaded driver, whose backlight flag
0 is the state the source documents as "Backlight ON", the backlight command
with argument 0 leaves the flag at 1 and writes the control port with bit
0x01 set: argument 0 does not produce the "on" state. -/
theorem C23_argument_0_is_not_on :
    Driver.initial.Backlight = 0 ∧
    (plcm_ioctl (fun _ _ => 0) PLCM_IOCTL_BACKLIGHT 0 Driver.initial).2.Backlight = 1 ∧
    (plcm_ioctl (fun _ _ => 0) PLCM_IOCTL_BACKLIGHT 0 Driver.initial).2.ports =
      [PortEvent.inb 0 0, PortEvent.outb 1 0] := by
  refine ⟨rfl, ?_, ?_⟩ <;> simp [plcm_ioctl, LCM_Backlight, inb, outb, Driver.initial]

/-- C23 (amended): the driver starts with backlight flag 0 ("Backlight ON").
The backlight command with argument 1 sets the flag to 0 (on) and with
argument 0 sets it to 1 (off).  It then reads the control port and writes the
byte back with only bit 0x01 changed, to the new flag: cleared for argument
1, set for argument 0.  It returns 0, issues no bus transaction and changes
no other driver variable. -/
theorem C23_backlight (hw : Hardware) (s : Driver) :
    Driver.initial.Backlight = 0 ∧
    ((plcm_ioctl hw PLCM_IOCTL_BACKLIGHT 1 s).1 = 0 ∧
     (plcm_ioctl hw PLCM_IOCTL_BACKLIGHT 1 s).2.Backlight = 0 ∧
     (plcm_ioctl hw PLCM_IOCTL_BACKLIGHT 1 s).2.ports =
       s.ports ++ [PortEvent.inb s.ControlPort (hw s.ports s.ControlPort % 256),
                   PortEvent.outb ((hw s.ports s.ControlPort % 256) &&& 0xFE) s.ControlPort] ∧
     (plcm_ioctl hw PLCM_IOCTL_BACKLIGHT 1 s).2.txns = s.txns ∧
     (plcm_ioctl hw PLCM_IOCTL_BACKLIGHT 1 s).2.statics =
       ({ s with Backlight := 0 } : Driver).statics) ∧
    ((plcm_ioctl hw PLCM_IOCTL_BACKLIGHT 0 s).1 = 0 ∧
     (plcm_ioctl hw PLCM_IOCTL_BACKLIGHT 0 s).2.Backlight = 1 ∧
     (plcm_ioctl hw PLCM_IOCTL_BACKLIGHT 0 s).2.ports =
       s.ports ++ [PortEvent.inb s.ControlPort (hw s.ports s.ControlPort % 256),
                   PortEvent.outb ((hw s.ports s.ControlPort % 256) ||| 0x01) s.ControlPort] ∧
     (plcm_ioctl hw PLCM_IOCTL_BACKLIGHT 0 s).2.txns = s.txns ∧
     (plcm_ioctl hw PLCM_IOCTL_BACKLIGHT 0 s).2.statics =
       ({ s with Backlight := 1 } : Driver).statics) ∧
    (∀ v : Nat, (v &&& 0xFE) &&& 0x01 = 0 ∧ (v &&& 0xFE) &&& 0xFE = v &&& 0xFE ∧
      (v ||| 0x01) &&& 0x01 = 0x01 ∧ (v ||| 0x01) &&& 0xFE = v &&& 0xFE) := by
  refine ⟨rfl, ?_, ?_, ?_⟩
  · simp [plcm_ioctl, LCM_Backlight, inb, outb, Driver.statics]
  · simp [plcm_ioctl, LCM_Backlight, inb, outb, Driver.statics]
  · intro v
    exact ⟨land_land_disjoint _ _ _ (by decide), land_land_self _ _, lor_land_self _ _,
      lor_land_disjoint _ _ _ (by decide)⟩

/-! ### C29: the byte sent by select-active-line -/

/-- C29: select line `L` (`base` = 0x80 for line 1, 0xC0 for line 2) sends the
command byte `(base + row) mod 256`.  For every `row ≤ 63` this byte has bit 7
set, so it is a set-DDRAM-address command, and its bit 6 is 0 for line 1 and
1 for line 2.  For `row ≤ 19` it lies in 0x80..0x93 for line 1 and in
0xC0..0xD3 for line 2. -/
theorem C29_select_line_byte (hw : Hardware) (s : Driver) (L base : Nat)
    (hL : L = 1 ∧ base = 0x80 ∨ L = 2 ∧ base = 0xC0) :
    (plcm_ioctl hw PLCM_IOCTL_SET_LINE L s).2.txns =
      s.txns ++ [Txn.mk 0 0 ((base + s.row) % 256) 300 none] ∧
    (s.row ≤ 63 →
      ((base + s.row) % 256) &&& 0x80 = 0x80 ∧
      ((base + s.row) % 256) &&& 0x40 = (if L = 1 then 0 else 0x40)) ∧
    (s.row ≤ 19 →
      (L = 1 → 0x80 ≤ (base + s.row) % 256 ∧ (base + s.row) % 256 ≤ 0x93) ∧
      (L = 2 → 0xC0 ≤ (base + s.row) % 256 ∧ (base + s.row) % 256 ≤ 0xD3)) := by
  refine ⟨?_, ?_, ?_⟩
  · rcases hL with ⟨h1, h2⟩ | ⟨h1, h2⟩ <;> subst h1 <;> subst h2 <;>
      simp [plcm_ioctl, LCM_Command_write]
  · intro h
    generalize s.row = r at h
    rcases hL with ⟨h1, h2⟩ | ⟨h1, h2⟩ <;> subst h1 <;> subst h2 <;>
      interval_cases r <;> decide
  · intro h
    rcases hL with ⟨h1, h2⟩ | ⟨h1, h2⟩ <;> subst h1 <;> subst h2 <;>
      refine ⟨fun _ => ?_, fun _ => ?_⟩ <;> omega

/-- C29 witness: line 2 at column 19 sends 0xD3. -/
theorem C29_select_line_byte_witness :
    (plcm_ioctl (fun _ _ => 0) PLCM_IOCTL_SET_LINE 2 { Driver.initial with row := 19 }).2.txns =
      ({ Driver.initial with row := 19 } : Driver).txns ++
        [Txn.mk 0 0 ((0xC0 + ({ Driver.initial with row := 19 } : Driver).row) % 256) 300 none] ∧
    (0xC0 ≤ (0xC0 + ({ Driver.initial with row := 19 } : Driver).row) % 256 ∧
     (0xC0 + ({ Driver.initial with row := 19 } : Driver).row) % 256 ≤ 0xD3) :=
  ⟨(C29_select_line_byte (fun _ _ => 0) { Driver.initial with row := 19 } 2 0xC0
      (Or.inr ⟨rfl, rfl⟩)).1,
   ((C29_select_line_byte (fun _ _ => 0) { Driver.initial with row := 19 } 2 0xC0
      (Or.inr ⟨rfl, rfl⟩)).2.2 (by decide)).2 rfl⟩

/-! ### C28: the column counter beyond 19 -/

/-- The column counter after one command: unchanged, except that clear
display gives 0, an accepted input-character adds one (in `unsigned int`) and
a shift inside its guard moves by one. -/
theorem plcm_ioctl_row_of_ge_20 (hw : Hardware) (cmd : IoctlCmd) (arg : Nat) (s : Driver)
    (h20 : 20 ≤ s.row) (hcmd : cmd ≠ PLCM_IOCTL_CLEARDISPLAY) :
    (plcm_ioctl hw cmd arg s).2.row = s.row ∨
    (cmd = PLCM_IOCTL_INPUT_CHAR ∧ arg ≤ 0xFF ∧
      (plcm_ioctl hw cmd arg s).2.row = (s.row + 1) % 2 ^ 32) := by
  have g1 : ¬ (0 < s.row ∧ s.row < 20) := by omega
  have g2 : ¬ s.row < 19 := by omega
  cases cmd
  case PLCM_IOCTL_CLEARDISPLAY => exact absurd rfl hcmd
  case PLCM_IOCTL_INPUT_CHAR =>
    by_cases ha : 0xFF < arg
    · left; simp [plcm_ioctl, ha]
    · right
      exact ⟨rfl, by omega, plcm_ioctl_INPUT_CHAR_row hw arg s (by omega)⟩
  case PLCM_IOCTL_SHIFT_RL =>
    left
    simp only [plcm_ioctl]
    repeat' split
    all_goals simp_all
  all_goals
    left
    simp only [plcm_ioctl]
    repeat' split
    all_goals simp [LCM_Backlight, inb, outb]

/-- C28 (counterexample): at column 2^32 - 1, which is 20 or more, the
input-character command wraps the `unsigned int` counter to 0: a command
other than clear display brings the column back into [0,19]. -/
theorem C28_input_char_wraps_to_zero :
    20 ≤ ({ Driver.initial with row := 4294967295 } : Driver).row ∧
    (plcm_ioctl (fun _ _ => 0) PLCM_IOCTL_INPUT_CHAR 0x41
      { Driver.initial with row := 4294967295 }).2.row = 0 := by
  refine ⟨by decide, ?_⟩
  rw [plcm_ioctl_INPUT_CHAR_row _ _ _ (by decide)]
  rfl

/-- C28 (amended): input-character at column 19 gives column 20.  Once the
column counter is 20 or more, the shift right/left command with either valid
argument returns 0, leaves the counter unchanged, touches no port and issues
no bus transaction; only the direction bit 0x04 of the shift-control register
is set to the argument.  Clear display sets the counter to 0.  Every other
command leaves the counter at 20 or more, with one exception: an accepted
input-character at column 2^32 - 1 wraps the `unsigned int` counter to 0. -/
theorem C28_column_beyond_19 (hw : Hardware) (s : Driver) (h20 : 20 ≤ s.row)
    (htype : s.row < 2 ^ 32) :
    (∀ s0 : Driver, s0.row = 19 →
      (plcm_ioctl hw PLCM_IOCTL_INPUT_CHAR 0x41 s0).2.row = 20) ∧
    (∀ a, a = 0 ∨ a = 1 →
      (plcm_ioctl hw PLCM_IOCTL_SHIFT_RL a s).1 = 0 ∧
      (plcm_ioctl hw PLCM_IOCTL_SHIFT_RL a s).2.row = s.row ∧
      (plcm_ioctl hw PLCM_IOCTL_SHIFT_RL a s).2.txns = s.txns ∧
      (plcm_ioctl hw PLCM_IOCTL_SHIFT_RL a s).2.ports = s.ports ∧
      (plcm_ioctl hw PLCM_IOCTL_SHIFT_RL a s).2.statics =
        ({ s with Cur_Shift := withBit 0x04 a s.Cur_Shift } : Driver).statics) ∧
    (∀ arg, (plcm_ioctl hw PLCM_IOCTL_CLEARDISPLAY arg s).2.row = 0) ∧
    (∀ cmd arg, cmd ≠ PLCM_IOCTL_CLEARDISPLAY →
      20 ≤ (plcm_ioctl hw cmd arg s).2.row ∨
      (cmd = PLCM_IOCTL_INPUT_CHAR ∧ arg ≤ 0xFF ∧ s.row = 2 ^ 32 - 1 ∧
        (plcm_ioctl hw cmd arg s).2.row = 0)) := by
  have g1 : ¬ (0 < s.row ∧ s.row < 20) := by omega
  have g2 : ¬ s.row < 19 := by omega
  refine ⟨?_, ?_, ?_, ?_⟩
  · intro s0 h19
    rw [plcm_ioctl_INPUT_CHAR_row _ _ _ (by decide), h19]
    rfl
  · intro a ha
    rcases ha with h | h <;> subst h <;>
      simp [plcm_ioctl, g1, g2, Driver.statics, withBit]
  · intro arg
    simp [plcm_ioctl]
  · intro cmd arg hcmd
    rcases plcm_ioctl_row_of_ge_20 hw cmd arg s h20 hcmd with h | ⟨hc, ha, hr⟩
    · left; rw [h]; exact h20
    · by_cases hw2 : s.row + 1 < 2 ^ 32
      · left
        rw [hr, Nat.mod_eq_of_lt hw2]
        omega
      · right
        have hmax : s.row = 2 ^ 32 - 1 := by omega
        refine ⟨hc, ha, hmax, ?_⟩
        rw [hr, hmax]
        rfl

/-- C28 witness: at column 20 a left shift changes nothing but the direction
bit. -/
theorem C28_column_beyond_19_witness :
    (plcm_ioctl (fun _ _ => 0) PLCM_IOCTL_SHIFT_RL 0 { Driver.initial with row := 20 }).1 = 0 ∧
    (plcm_ioctl (fun _ _ => 0) PLCM_IOCTL_SHIFT_RL 0 { Driver.initial with row := 20 }).2.row =
      ({ Driver.initial with row := 20 } : Driver).row ∧
    (plcm_ioctl (fun _ _ => 0) PLCM_IOCTL_SHIFT_RL 0 { Driver.initial with row := 20 }).2.txns =
      ({ Driver.initial with row := 20 } : Driver).txns ∧
    (plcm_ioctl (fun _ _ => 0) PLCM_IOCTL_SHIFT_RL 0 { Driver.initial with row := 20 }).2.ports =
      ({ Driver.initial with row := 20 } : Driver).ports ∧
    (plcm_ioctl (fun _ _ => 0) PLCM_IOCTL_SHIFT_RL 0 { Driver.initial with row := 20 }).2.statics =
      ({ ({ Driver.initial with row := 20 } : Driver) with
          Cur_Shift := withBit 0x04 0 ({ Driver.initial with row := 20 } : Driver).Cur_Shift }
        : Driver).statics :=
  (C28_column_beyond_19 (fun _ _ => 0) { Driver.initial with row := 20 } (by decide)
    (by decide)).2.1 0 (Or.inl rfl)

/-! ### C27: register well-formedness -/

@[simp] theorem LCM_Command_Cur_Display (hw : Hardware) (RS RWn CMD d : Nat)
    (Ret : Option Nat) (s : Driver) :
    (LCM_Command hw RS RWn CMD d Ret s).2.Cur_Display = s.Cur_Display := by
  rw [LCM_Command_frame]

@[simp] theorem LCM_Command_Cur_Shift (hw : Hardware) (RS RWn CMD d : Nat)
    (Ret : Option Nat) (s : Driver) :
    (LCM_Command hw RS RWn CMD d Ret s).2.Cur_Shift = s.Cur_Shift := by
  rw [LCM_Command_frame]

/-- Well-formedness only looks at the driver variables. -/
theorem WellFormed_of_statics (a b : Driver) (h : a.statics = b.statics) (hb : WellFormed b) :
    WellFormed a := by
  obtain ⟨_, _, _, _, _, _, _, e8, e9, e10, e11, e12, _⟩ := (statics_eq_iff _ _).mp h
  unfold WellFormed at hb ⊢
  rw [e8, e9, e10, e11, e12]
  exact hb

/-- The entry-mode bit operations stay inside 0x04..0x07. -/
theorem entry_mode_ops (x : Nat) (h1 : 0x04 ≤ x) (h2 : x ≤ 0x07) :
    (0x04 ≤ x &&& 0xFD ∧ x &&& 0xFD ≤ 0x07) ∧ (0x04 ≤ x ||| 0x02 ∧ x ||| 0x02 ≤ 0x07) ∧
    (0x04 ≤ x &&& 0xFE ∧ x &&& 0xFE ≤ 0x07) ∧ (0x04 ≤ x ||| 0x01 ∧ x ||| 0x01 ≤ 0x07) := by
  interval_cases x <;> decide

/-- The display-control bit operations stay inside 0x08..0x0F. -/
theorem display_ops (x : Nat) (h1 : 0x08 ≤ x) (h2 : x ≤ 0x0F) :
    (0x08 ≤ x &&& 0xFB ∧ x &&& 0xFB ≤ 0x0F) ∧ (0x08 ≤ x ||| 0x04 ∧ x ||| 0x04 ≤ 0x0F) ∧
    (0x08 ≤ x &&& 0xFD ∧ x &&& 0xFD ≤ 0x0F) ∧ (0x08 ≤ x ||| 0x02 ∧ x ||| 0x02 ≤ 0x0F) ∧
    (0x08 ≤ x &&& 0xFE ∧ x &&& 0xFE ≤ 0x0F) ∧ (0x08 ≤ x ||| 0x01 ∧ x ||| 0x01 ≤ 0x0F) := by
  interval_cases x <;> decide

/-- The shift-control bit operations stay among 0x10, 0x14, 0x18, 0x1C. -/
theorem shift_ops (x : Nat) (h : x ∈ [0x10, 0x14, 0x18, 0x1C]) :
    x &&& 0xF7 ∈ [0x10, 0x14, 0x18, 0x1C] ∧ x ||| 0x08 ∈ [0x10, 0x14, 0x18, 0x1C] ∧
    x &&& 0xFB ∈ [0x10, 0x14, 0x18, 0x1C] ∧ x ||| 0x04 ∈ [0x10, 0x14, 0x18, 0x1C] := by
  simp only [List.mem_cons, List.mem_singleton, List.not_mem_nil, or_false] at h
  rcases h with h | h | h | h <;> subst h <;> decide

/-- Every command with argument 0 keeps the registers well-formed. -/
theorem plcm_ioctl_WellFormed_0 (hw : Hardware) (cmd : IoctlCmd) (s : Driver)
    (h : WellFormed s) : WellFormed (plcm_ioctl hw cmd 0 s).2 := by
  obtain ⟨⟨e1, e2⟩, ⟨d1, d2⟩, sh, ln, bl⟩ := h
  obtain ⟨E1, E2, E3, E4⟩ := entry_mode_ops _ e1 e2
  obtain ⟨D1, D2, D3, D4, D5, D6⟩ := display_ops _ d1 d2
  obtain ⟨S1, S2, S3, S4⟩ := shift_ops _ sh
  cases cmd
  case PLCM_IOCTL_SHIFT_RL =>
    by_cases g : 0 < s.row ∧ s.row < 20
    · simp only [plcm_ioctl, WellFormed]
      simp [g, e1, e2, d1, d2, ln, bl, S3]
    · simp only [plcm_ioctl, WellFormed]
      simp [g, e1, e2, d1, d2, ln, bl, S3]
  all_goals
    simp only [plcm_ioctl, WellFormed]
    simp [LCM_Backlight, inb, outb, e1, e2, d1, d2, sh, ln, bl, E1, E3, D1, D3, D5, S1]

/-- Every command with argument 1 keeps the registers well-formed. -/
theorem plcm_ioctl_WellFormed_1 (hw : Hardware) (cmd : IoctlCmd) (s : Driver)
    (h : WellFormed s) : WellFormed (plcm_ioctl hw cmd 1 s).2 := by
  obtain ⟨⟨e1, e2⟩, ⟨d1, d2⟩, sh, ln, bl⟩ := h
  obtain ⟨E1, E2, E3, E4⟩ := entry_mode_ops _ e1 e2
  obtain ⟨D1, D2, D3, D4, D5, D6⟩ := display_ops _ d1 d2
  obtain ⟨S1, S2, S3, S4⟩ := shift_ops _ sh
  cases cmd
  case PLCM_IOCTL_SHIFT_RL =>
    by_cases g : s.row < 19
    · simp only [plcm_ioctl, WellFormed]
      simp [g, e1, e2, d1, d2, ln, bl, S4]
    · simp only [plcm_ioctl, WellFormed]
      simp [g, e1, e2, d1, d2, ln, bl, S4]
  all_goals
    simp only [plcm_ioctl, WellFormed]
    simp [LCM_Backlight, inb, outb, e1, e2, d1, d2, sh, ln, bl, E2, E4, D2, D4, D6, S2]

/-- Every command with an argument other than 0 and 1 keeps the registers
well-formed. -/
theorem plcm_ioctl_WellFormed_other (hw : Hardware) (cmd : IoctlCmd) (arg : Nat) (s : Driver)
    (h0 : arg ≠ 0) (h1 : arg ≠ 1) (h : WellFormed s) :
    WellFormed (plcm_ioctl hw cmd arg s).2 := by
  obtain ⟨⟨e1, e2⟩, ⟨d1, d2⟩, sh, ln, bl⟩ := h
  cases cmd
  case PLCM_IOCTL_SET_LINE =>
    by_cases h2 : arg = 2
    · subst h2
      simp only [plcm_ioctl, WellFormed]
      simp [e1, e2, d1, d2, sh, bl]
    · simp only [plcm_ioctl, WellFormed]
      simp [h1, h2, e1, e2, d1, d2, sh, ln, bl]
  case PLCM_IOCTL_INPUT_CHAR =>
    by_cases h2 : 0xFF < arg
    · simp only [plcm_ioctl, WellFormed]
      simp [h2, e1, e2, d1, d2, sh, ln, bl]
    · simp only [plcm_ioctl, WellFormed]
      simp [h2, e1, e2, d1, d2, sh, ln, bl]
  all_goals
    simp only [plcm_ioctl, WellFormed]
    simp [h0, h1, inb, e1, e2, d1, d2, sh, ln, bl]

/-- Every command keeps the registers well-formed. -/
theorem plcm_ioctl_WellFormed (hw : Hardware) (cmd : IoctlCmd) (arg : Nat) (s : Driver)
    (h : WellFormed s) : WellFormed (plcm_ioctl hw cmd arg s).2 := by
  by_cases h0 : arg = 0
  · subst h0
    exact plcm_ioctl_WellFormed_0 hw cmd s h
  · by_cases h1 : arg = 1
    · subst h1
      exact plcm_ioctl_WellFormed_1 hw cmd s h
    · exact plcm_ioctl_WellFormed_other hw cmd arg s h0 h1 h

/-- Initialisation keeps the registers well-formed. -/
theorem LCM_Init_WellFormed (hw : Hardware) (s : Driver) (h : WellFormed s) :
    WellFormed (LCM_Init hw s) := by
  have hloc : WellFormed (LCM_Init_locate hw s) := by
    apply WellFormed_of_statics _ _ (LCM_Init_locate_statics hw s)
    exact h
  unfold LCM_Init
  simp only []
  split
  · exact hloc
  · apply WellFormed_of_statics _ _ (LCM_Init_boot_statics hw (LCM_Init_locate hw s))
    obtain ⟨he, _, hs, hl, hb⟩ := hloc
    exact ⟨he, ⟨(by decide : 0x08 ≤ 0x0F), (by decide : 0x0F ≤ 0x0F)⟩, hs, hl, hb⟩

/-- Every caller request keeps the registers well-formed. -/
theorem Op.run_WellFormed (hw : Hardware) (s : Driver) (op : Op) (h : WellFormed s) :
    WellFormed (Op.run hw s op) := by
  cases op with
  | ioctl cmd arg => exact plcm_ioctl_WellFormed hw cmd arg s h
  | write buffer n => exact WellFormed_of_statics _ _ (plcm_write_statics hw buffer n s) h
  | read buffer n => exact WellFormed_of_statics _ _ (plcm_read_statics hw buffer n s) h

/-- Every run of caller requests keeps the registers well-formed. -/
theorem runOps_WellFormed (hw : Hardware) (ops : List Op) (s : Driver) (h : WellFormed s) :
    WellFormed (runOps hw s ops) := by
  induction ops generalizing s with
  | nil => exact h
  | cons op rest ih =>
    simp only [runOps, List.foldl_cons]
    exact ih (Op.run hw s op) (Op.run_WellFormed hw s op h)

/-- In a well-formed state every byte a register command sends belongs to the
instruction class of its register. -/
theorem sent_register_class (hw : Hardware) (s : Driver) (h : WellFormed s) (a : Nat)
    (ha : a = 0 ∨ a = 1) :
    (∀ cmd ∈ [PLCM_IOCTL_ENTRYMODE_ID, PLCM_IOCTL_ENTRYMODE_SH],
      ∀ t ∈ (plcm_ioctl hw cmd a s).2.txns.drop s.txns.length,
        t.RS = 0 ∧ t.RWn = 0 ∧ 0x04 ≤ t.CMD ∧ t.CMD ≤ 0x07) ∧
    (∀ cmd ∈ [PLCM_IOCTL_DISPLAY_D, PLCM_IOCTL_DISPLAY_C, PLCM_IOCTL_DISPLAY_B],
      ∀ t ∈ (plcm_ioctl hw cmd a s).2.txns.drop s.txns.length,
        t.RS = 0 ∧ t.RWn = 0 ∧ 0x08 ≤ t.CMD ∧ t.CMD ≤ 0x0F) ∧
    (∀ cmd ∈ [PLCM_IOCTL_SHIFT_SC, PLCM_IOCTL_SHIFT_RL],
      ∀ t ∈ (plcm_ioctl hw cmd a s).2.txns.drop s.txns.length,
        t.RS = 0 ∧ t.RWn = 0 ∧ t.CMD ∈ [0x10, 0x14, 0x18, 0x1C]) := by
  obtain ⟨⟨e1, e2⟩, ⟨d1, d2⟩, sh, ln, bl⟩ := h
  obtain ⟨E1, E2, E3, E4⟩ := entry_mode_ops _ e1 e2
  obtain ⟨D1, D2, D3, D4, D5, D6⟩ := display_ops _ d1 d2
  obtain ⟨S1, S2, S3, S4⟩ := shift_ops _ sh
  refine ⟨?_, ?_, ?_⟩
  · intro cmd hc t ht
    simp only [List.mem_cons, List.mem_singleton, List.not_mem_nil, or_false] at hc
    rcases hc with hc | hc <;> subst hc <;> rcases ha with ha | ha <;> subst ha <;>
      simp [plcm_ioctl, LCM_Command_write] at ht <;> subst ht <;>
      simp [E1, E2, E3, E4]
  · intro cmd hc t ht
    simp only [List.mem_cons, List.mem_singleton, List.not_mem_nil, or_false] at hc
    rcases hc with hc | hc | hc <;> subst hc <;> rcases ha with ha | ha <;> subst ha <;>
      simp [plcm_ioctl, LCM_Command_write] at ht <;> subst ht <;>
      simp [D1, D2, D3, D4, D5, D6]
  · intro cmd hc t ht
    simp only [List.mem_cons, List.mem_singleton, List.not_mem_nil, or_false] at hc
    rcases hc with hc | hc
    · subst hc
      rcases ha with ha | ha <;> subst ha <;>
        simp [plcm_ioctl, LCM_Command_write] at ht <;> subst ht
      · exact ⟨rfl, rfl, S1⟩
      · exact ⟨rfl, rfl, S2⟩
    · subst hc
      rcases ha with ha | ha
      · subst ha
        by_cases g : 0 < s.row ∧ s.row < 20
        · simp [plcm_ioctl, LCM_Command_write, g] at ht
          subst ht
          exact ⟨rfl, rfl, S3⟩
        · simp [plcm_ioctl, g] at ht
      · subst ha
        by_cases g : s.row < 19
        · simp [plcm_ioctl, LCM_Command_write, g] at ht
          subst ht
          exact ⟨rfl, rfl, S4⟩
        · simp [plcm_ioctl, g] at ht

/-- C27: in every state reached from the freshly loaded driver by
initialisation and any sequence of caller requests, entry mode is in
0x04..0x07, display control in 0x08..0x0F, shift control one of 0x10, 0x14,
0x18, 0x1C, the active line 1 or 2 and the backlight flag 0 or 1.  Hence in
such a state every byte a register command sends with a valid argument is a
command write of its register's instruction class, and `plcm_write` and
`plcm_read` start with the address command 0x80 when line 1 is active and
0xC0 when line 2 is active. -/
theorem C27_registers_well_formed (hw : Hardware) (ops : List Op) :
    WellFormed (runOps hw (LCM_Init hw Driver.initial) ops) ∧
    (∀ a, a = 0 ∨ a = 1 →
      (∀ cmd ∈ [PLCM_IOCTL_ENTRYMODE_ID, PLCM_IOCTL_ENTRYMODE_SH],
        ∀ t ∈ (plcm_ioctl hw cmd a (runOps hw (LCM_Init hw Driver.initial) ops)).2.txns.drop
            (runOps hw (LCM_Init hw Driver.initial) ops).txns.length,
          t.RS = 0 ∧ t.RWn = 0 ∧ 0x04 ≤ t.CMD ∧ t.CMD ≤ 0x07) ∧
      (∀ cmd ∈ [PLCM_IOCTL_DISPLAY_D, PLCM_IOCTL_DISPLAY_C, PLCM_IOCTL_DISPLAY_B],
        ∀ t ∈ (plcm_ioctl hw cmd a (runOps hw (LCM_Init hw Driver.initial) ops)).2.txns.drop
            (runOps hw (LCM_Init hw Driver.initial) ops).txns.length,
          t.RS = 0 ∧ t.RWn = 0 ∧ 0x08 ≤ t.CMD ∧ t.CMD ≤ 0x0F) ∧
      (∀ cmd ∈ [PLCM_IOCTL_SHIFT_SC, PLCM_IOCTL_SHIFT_RL],
        ∀ t ∈ (plcm_ioctl hw cmd a (runOps hw (LCM_Init hw Driver.initial) ops)).2.txns.drop
            (runOps hw (LCM_Init hw Driver.initial) ops).txns.length,
          t.RS = 0 ∧ t.RWn = 0 ∧ t.CMD ∈ [0x10, 0x14, 0x18, 0x1C])) ∧
    ((runOps hw (LCM_Init hw Driver.initial) ops).Cur_Line = 1 ∧
        dd_addr (runOps hw (LCM_Init hw Driver.initial) ops).Cur_Line = 0x80 ∨
     (runOps hw (LCM_Init hw Driver.initial) ops).Cur_Line = 2 ∧
        dd_addr (runOps hw (LCM_Init hw Driver.initial) ops).Cur_Line = 0xC0) ∧
    (∀ (buffer : UserBuf) (n : Nat), n ≤ 40 →
      (plcm_write hw buffer n (runOps hw (LCM_Init hw Driver.initial) ops)).2.txns[
          (runOps hw (LCM_Init hw Driver.initial) ops).txns.length]? =
        some (Txn.mk 0 0 (dd_addr (runOps hw (LCM_Init hw Driver.initial) ops).Cur_Line) 300
          none)) ∧
    (∀ buffer : UserBuf,
      (plcm_read hw buffer 40 (runOps hw (LCM_Init hw Driver.initial) ops)).2.2.txns[
          (runOps hw (LCM_Init hw Driver.initial) ops).txns.length]? =
        some (Txn.mk 0 0 (dd_addr (runOps hw (LCM_Init hw Driver.initial) ops).Cur_Line) 300
          none)) := by
  have h0 : WellFormed Driver.initial := by
    unfold WellFormed
    decide
  have hwf := runOps_WellFormed hw ops _ (LCM_Init_WellFormed hw _ h0)
  generalize runOps hw (LCM_Init hw Driver.initial) ops = s at hwf ⊢
  refine ⟨hwf, fun a ha => sent_register_class hw s hwf a ha, ?_, ?_, ?_⟩
  · obtain ⟨_, _, _, hl, _⟩ := hwf
    rcases hl with hl | hl
    · left; rw [hl]; exact ⟨rfl, rfl⟩
    · right; rw [hl]; exact ⟨rfl, rfl⟩
  · intro buffer n hn
    rw [(plcm_write_accepted hw buffer n s hn).2, List.getElem?_append_right (Nat.le_refl _)]
    simp
  · intro buffer
    rw [plcm_read_accepted, List.getElem?_append_right (Nat.le_refl _)]
    simp

/-- C27 witness: after initialisation, blink off, backlight command and a
select of line 2, the cursor-off command sends a display-control byte. -/
theorem C27_registers_well_formed_witness :
    ∀ t ∈ (plcm_ioctl (fun _ _ => 1) PLCM_IOCTL_DISPLAY_C 0
          (runOps (fun _ _ => 1) (LCM_Init (fun _ _ => 1) Driver.initial)
            [Op.ioctl PLCM_IOCTL_DISPLAY_B 0, Op.ioctl PLCM_IOCTL_BACKLIGHT 1,
             Op.ioctl PLCM_IOCTL_SET_LINE 2])).2.txns.drop
        (runOps (fun _ _ => 1) (LCM_Init (fun _ _ => 1) Driver.initial)
            [Op.ioctl PLCM_IOCTL_DISPLAY_B 0, Op.ioctl PLCM_IOCTL_BACKLIGHT 1,
             Op.ioctl PLCM_IOCTL_SET_LINE 2]).txns.length,
      t.RS = 0 ∧ t.RWn = 0 ∧ 0x08 ≤ t.CMD ∧ t.CMD ≤ 0x0F :=
  ((C27_registers_well_formed (fun _ _ => 1)
      [Op.ioctl PLCM_IOCTL_DISPLAY_B 0, Op.ioctl PLCM_IOCTL_BACKLIGHT 1,
       Op.ioctl PLCM_IOCTL_SET_LINE 2]).2.1 0 (Or.inl rfl)).2.1
    PLCM_IOCTL_DISPLAY_C (by simp)

/-! ### C25: `is_valid_interface` -/

/-- C25 (evaluation at the failing input): the name "eth0.100", which
contains a dot, is accepted: `is_valid_interface` returns 1.  The same holds
for "enp3s0.5".  A name with a slash is rejected, as are "lo" and NULL. -/
theorem C25_dot_is_accepted :
    is_valid_interface (some ['e', 't', 'h', '0', '.', '1', '0', '0']) = 1 ∧
    is_valid_interface (some ['e', 'n', 'p', '3', 's', '0', '.', '5']) = 1 ∧
    is_valid_interface_char '.' = true ∧
    is_valid_interface (some ['e', 't', 'h', '0', '/', '1']) = 0 ∧
    is_valid_interface (some ['l', 'o']) = 0 ∧
    is_valid_interface none = 0 := by
  decide

/-! ### C26: `is_logical_interface` -/

/-- The character the C code reads at index `n` of a NUL-free name that has
at least `n` characters: NUL exactly at the end of the name, otherwise the
character at that index. -/
theorem next_char_spec (name : List Char) (hnul : Char.ofNat 0 ∉ name) (n : Nat)
    (hlen : n ≤ name.length) :
    (name.getD n (Char.ofNat 0) = Char.ofNat 0 ↔ name.length = n) ∧
    (∀ c, c ≠ Char.ofNat 0 → (name.getD n (Char.ofNat 0) = c ↔ name[n]? = some c)) := by
  rw [List.getD_eq_getElem?_getD]
  cases h : name[n]? with
  | none =>
    have hge : name.length ≤ n := List.getElem?_eq_none_iff.mp h
    constructor
    · simp; omega
    · intro c hc
      simp only [Option.getD_none]
      constructor
      · intro e; exact absurd e.symm hc
      · intro e; exact absurd e (by simp)
  | some d =>
    have hmem : d ∈ name := List.getElem?_mem h
    have hd : d ≠ Char.ofNat 0 := fun e => hnul (e ▸ hmem)
    have hlt : n < name.length := by
      by_contra hcon
      have : name[n]? = none := List.getElem?_eq_none_iff.mpr (by omega)
      rw [this] at h
      exact absurd h (by simp)
    constructor
    · simp only [Option.getD_some]
      constructor
      · intro e; exact absurd e hd
      · intro e; omega
    · intro c _
      simp

/-- A name whose first `n` characters are a prefix of length `n` has at least
`n` characters. -/
theorem length_of_take_eq (name pfx : List Char) (h : name.take pfx.length = pfx) :
    pfx.length ≤ name.length := by
  have := congrArg List.length h
  simp only [List.length_take] at this
  omega

/-- The digit test on the next character, for a NUL-free name with at least
`n` characters. -/
theorem digit_test_iff (name : List Char) (hnul : Char.ofNat 0 ∉ name) (n : Nat)
    (hlen : n ≤ name.length) :
    ('0' ≤ name.getD n (Char.ofNat 0) ∧ name.getD n (Char.ofNat 0) ≤ '9') ↔ digitAt name n := by
  obtain ⟨_, h2⟩ := next_char_spec name hnul n hlen
  unfold digitAt
  constructor
  · intro ⟨h0, h9⟩
    have hne : name.getD n (Char.ofNat 0) ≠ Char.ofNat 0 := by
      intro e
      rw [e] at h0
      exact absurd h0 (by decide)
    exact ⟨_, (h2 _ hne).mp rfl, h0, h9⟩
  · intro ⟨c, hc, h0, h9⟩
    have hne : c ≠ Char.ofNat 0 := by
      intro e
      rw [e] at h0
      exact absurd h0 (by decide)
    rw [(h2 c hne).mpr hc]
    exact ⟨h0, h9⟩

/-- The delimiter test on the next character, for a NUL-free name with at
least `n` characters. -/
theorem delimiter_test_iff (name : List Char) (hnul : Char.ofNat 0 ∉ name) (n : Nat)
    (hlen : n ≤ name.length) :
    (name.getD n (Char.ofNat 0) = Char.ofNat 0 ∨ name.getD n (Char.ofNat 0) = '-' ∨
      name.getD n (Char.ofNat 0) = '_' ∨
      ('0' ≤ name.getD n (Char.ofNat 0) ∧ name.getD n (Char.ofNat 0) ≤ '9')) ↔
    endsOrDelimiter name n := by
  obtain ⟨h1, h2⟩ := next_char_spec name hnul n hlen
  have hd := digit_test_iff name hnul n hlen
  unfold endsOrDelimiter
  constructor
  · rintro (h | h | h | h)
    · exact Or.inl (h1.mp h)
    · exact Or.inr ⟨'-', (h2 _ (by decide)).mp h, Or.inl rfl⟩
    · exact Or.inr ⟨'_', (h2 _ (by decide)).mp h, Or.inr (Or.inl rfl)⟩
    · obtain ⟨c, hc, h0, h9⟩ := hd.mp h
      exact Or.inr ⟨c, hc, Or.inr (Or.inr ⟨h0, h9⟩)⟩
  · rintro (h | ⟨c, hc, hdel | hdel | hdel⟩)
    · exact Or.inl (h1.mpr h)
    · subst hdel
      exact Or.inr (Or.inl ((h2 _ (by decide)).mpr hc))
    · subst hdel
      exact Or.inr (Or.inr (Or.inl ((h2 _ (by decide)).mpr hc)))
    · exact Or.inr (Or.inr (Or.inr (hd.mpr ⟨c, hc, hdel⟩)))

/-- C26: for a name (a C string, so without NUL inside) `is_logical_interface`
returns 1 exactly when the name starts with "bond" or "team" followed by the
end of the string, a digit, a hyphen or an underscore, or starts with "br"
immediately followed by a digit; otherwise it returns 0.  So "br0" and "br1"
give 1, while "br-int", "br-ex", "br_x" and "br" give 0. -/
theorem C26_is_logical_interface (name : List Char) (hnul : Char.ofNat 0 ∉ name) :
    (is_logical_interface name = 1 ↔
      (name.take 4 = ['b', 'o', 'n', 'd'] ∧ endsOrDelimiter name 4) ∨
      (name.take 4 = ['t', 'e', 'a', 'm'] ∧ endsOrDelimiter name 4) ∨
      (name.take 2 = ['b', 'r'] ∧ digitAt name 2)) ∧
    (is_logical_interface name = 1 ∨ is_logical_interface name = 0) ∧
    is_logical_interface ['b', 'r', '0'] = 1 ∧
    is_logical_interface ['b', 'r', '1'] = 1 ∧
    is_logical_interface ['b', 'r', '-', 'i', 'n', 't'] = 0 ∧
    is_logical_interface ['b', 'r', '-', 'e', 'x'] = 0 ∧
    is_logical_interface ['b', 'r', '_', 'x'] = 0 ∧
    is_logical_interface ['b', 'r'] = 0 := by
  have hval : is_logical_interface name = 1 ∨ is_logical_interface name = 0 := by
    simp only [is_logical_interface, logical_interface_prefixes, is_logical_interface_loop]
    repeat' split
    all_goals simp
  have hBR : name.take 4 = ['b', 'o', 'n', 'd'] → ¬ name.take 2 = ['b', 'r'] := by
    intro hB hR
    have h := congrArg (List.take 2) hB
    rw [List.take_take] at h
    simp only [Nat.reduceLeDiff, min_eq_left, Nat.min_def] at h
    rw [hR] at h
    exact absurd h (by decide)
  have hTR : name.take 4 = ['t', 'e', 'a', 'm'] → ¬ name.take 2 = ['b', 'r'] := by
    intro hT hR
    have h := congrArg (List.take 2) hT
    rw [List.take_take] at h
    simp only [Nat.reduceLeDiff, min_eq_left, Nat.min_def] at h
    rw [hR] at h
    exact absurd h (by decide)
  have hBT : name.take 4 = ['b', 'o', 'n', 'd'] → ¬ name.take 4 = ['t', 'e', 'a', 'm'] := by
    intro hB hT
    rw [hB] at hT
    exact absurd hT (by decide)
  refine ⟨?_, hval, by decide, by decide, by decide, by decide, by decide, by decide⟩
  simp only [is_logical_interface, logical_interface_prefixes, is_logical_interface_loop,
    List.length_cons, List.length_nil]
  by_cases hB : name.take 4 = ['b', 'o', 'n', 'd']
  · have hlen : 4 ≤ name.length := length_of_take_eq name ['b', 'o', 'n', 'd'] hB
    have hd := delimiter_test_iff name hnul 4 hlen
    have hR := hBR hB
    have hT := hBT hB
    by_cases hdel : endsOrDelimiter name 4
    · have hc := hd.mpr hdel
      rw [if_pos hB, if_neg (by decide), if_pos hc]
      simp [hB, hdel]
    · have hc : ¬ _ := fun h => hdel (hd.mp h)
      rw [if_pos hB, if_neg (by decide), if_neg hc, if_neg hR, if_neg hT]
      simp [hdel, hR, hT]
  · by_cases hR : name.take 2 = ['b', 'r']
    · have hlen : 2 ≤ name.length := length_of_take_eq name ['b', 'r'] hR
      have hd := digit_test_iff name hnul 2 hlen
      have hT : ¬ name.take 4 = ['t', 'e', 'a', 'm'] := fun h => hTR h hR
      by_cases hdig : digitAt name 2
      · have hc := hd.mpr hdig
        rw [if_neg hB, if_pos hR]
        simp only [if_true]
        rw [if_pos hc]
        simp [hR, hdig]
      · have hc : ¬ _ := fun h => hdig (hd.mp h)
        rw [if_neg hB, if_pos hR]
        simp only [if_true]
        rw [if_neg hc]
        simp [hB, hdig, hT]
    · by_cases hT : name.take 4 = ['t', 'e', 'a', 'm']
      · have hlen : 4 ≤ name.length := length_of_take_eq name ['t', 'e', 'a', 'm'] hT
        have hd := delimiter_test_iff name hnul 4 hlen
        by_cases hdel : endsOrDelimiter name 4
        · have hc := hd.mpr hdel
          rw [if_neg hB, if_neg hR, if_pos hT, if_neg (by decide), if_pos hc]
          simp [hT, hdel]
        · have hc : ¬ _ := fun h => hdel (hd.mp h)
          rw [if_neg hB, if_neg hR, if_pos hT, if_neg (by decide), if_neg hc]
          simp [hB, hR, hdel]
      · rw [if_neg hB, if_neg hR, if_neg hT]
        simp [hB, hR, hT]

/-- C26 witness: the name "bond0". -/
theorem C26_is_logical_interface_witness :
    Char.ofNat 0 ∉ ['b', 'o', 'n', 'd', '0'] ∧
    (is_logical_interface ['b', 'o', 'n', 'd', '0'] = 1 ↔
      (['b', 'o', 'n', 'd', '0'].take 4 = ['b', 'o', 'n', 'd'] ∧
        endsOrDelimiter ['b', 'o', 'n', 'd', '0'] 4) ∨
      (['b', 'o', 'n', 'd', '0'].take 4 = ['t', 'e', 'a', 'm'] ∧
        endsOrDelimiter ['b', 'o', 'n', 'd', '0'] 4) ∨
      (['b', 'o', 'n', 'd', '0'].take 2 = ['b', 'r'] ∧ digitAt ['b', 'o', 'n', 'd', '0'] 2)) :=
  ⟨by decide, (C26_is_logical_interface ['b', 'o', 'n', 'd', '0'] (by decide)).1⟩

end Plcm
